import Mathlib

/-!
# Revealer camera facade: handle registry, callback registries and trampolines

A shallow embedding of `Simscop.Hardware.Revealer/Revealer.cpp`.

* Pointers (`void*`, function pointers, output pointers) are natural-number
  addresses; `0` is `nullptr`.
* A `std::map<CameraHandle, V>` is a list of key/value entries, read with `find`,
  written with `assign` (the source's `m[k] = v`) and `erase`.
* The camera SDK is a black box: every facade function takes the SDK as a function
  from the call it receives to the reply it gives, and reports the SDK calls it made.
* A user callback invoked by a trampoline is recorded as a `UserCall`.
* A C string the facade reads is the text it spells; a character buffer the facade
  writes is given by the bytes it receives, the UTF-8 bytes of that text.
* The `int` fields of the facade's records are 32 bits wide: a value stored in one is
  converted with `toInt32`, and converted back to `unsigned int` with `toUInt32`.
-/

namespace Revealer

/-- The facade's `typedef void* CameraHandle`: an address, `0` is `nullptr`. -/
abbrev CameraHandle := Nat

/-- The SDK's device handle type: an address, `0` is `nullptr`. -/
abbrev SC_DEV_HANDLE := Nat

/-- The SDK's success code; the source documents it throughout as `SC_OK(0)`. -/
def SC_OK : Int := 0

/-! ## `std::map` keyed by camera handle -/

/-- A `std::map<CameraHandle, V>`, kept as its list of entries. -/
structure StdMap (V : Type) where
  entries : List (CameraHandle × V)
deriving DecidableEq, Repr

namespace StdMap

variable {V : Type}

/-- The empty map (the state of a global map at program start and after `clear()`). -/
def empty : StdMap V := ⟨[]⟩

/-- The lookup `m.find(k)`: the mapped value, or `none` for `m.end()`. -/
def find (m : StdMap V) (k : CameraHandle) : Option V :=
  (m.entries.find? (fun e => e.1 == k)).map Prod.snd

/-- The removal `m.erase(k)`. -/
def erase (m : StdMap V) (k : CameraHandle) : StdMap V :=
  ⟨m.entries.filter (fun e => e.1 != k)⟩

/-- The assignment `m[k] = v`: the entry of `k` is created or overwritten. -/
def assign (m : StdMap V) (k : CameraHandle) (v : V) : StdMap V :=
  ⟨(k, v) :: (m.erase k).entries⟩

/-- The number of entries stored under key `k`. -/
def count (m : StdMap V) (k : CameraHandle) : Nat :=
  (m.entries.filter (fun e => e.1 == k)).length

/-- The entries stored under key `k`. -/
def bindingsOf (m : StdMap V) (k : CameraHandle) : List V :=
  (m.entries.filter (fun e => e.1 == k)).map Prod.snd

end StdMap

/-! ## SDK data types

`SCApi.h` and `SCDefines.h` are not part of the sources; the types below carry the
fields the facade reads and writes. -/

/-- The SDK's device descriptor, with the fields the facade reads. -/
structure SC_DeviceInfo where
  cameraName : String := ""
  serialNumber : String := ""
  modelName : String := ""
  manufactureInfo : String := ""
  deviceVersion : String := ""
  cameraKey : String := ""
deriving DecidableEq, Repr, Inhabited

/-- The SDK's device list: a count and the descriptor array. -/
structure SC_DeviceList where
  devNum : Nat := 0
  pDevInfo : List SC_DeviceInfo := []
deriving DecidableEq, Repr, Inhabited

/-- The frame header of the SDK. The width, the height and the size are taken as
`unsigned int` (32 bits), the pixel format as an enumeration over `int`, and the
frame counter and the time stamp as 64-bit unsigned integers. -/
structure SC_FrameInfo where
  width : Nat := 0
  height : Nat := 0
  size : Nat := 0
  pixelFormat : Int := 0
  frameId : Nat := 0
  timeStamp : Nat := 0
deriving DecidableEq, Repr, Inhabited

/-- The header holds values of its C types: `width`, `height` and `size` below `2^32`,
the pixel format within the range of `int`. -/
def SC_FrameInfo.wellTyped (info : SC_FrameInfo) : Prop :=
  info.width < 4294967296 ∧ info.height < 4294967296 ∧ info.size < 4294967296 ∧
  -2147483648 ≤ info.pixelFormat ∧ info.pixelFormat < 2147483648

instance (info : SC_FrameInfo) : Decidable info.wellTyped := by
  unfold SC_FrameInfo.wellTyped
  infer_instance

/-- The SDK's native frame: the data pointer and the frame header. -/
structure SC_Frame where
  pData : Nat := 0
  frameInfo : SC_FrameInfo := {}
deriving DecidableEq, Repr, Inhabited

/-- The payload of a connection event. -/
structure SC_SConnectArg where
  event : Int
  serialNumber : String
deriving DecidableEq, Repr, Inhabited

/-- The event value `eOnLine`; the source notes `eOffLine = 0`, `eOnLine = 1`. -/
def eOnLine : Int := 1

/-- The payload of a parameter-update event: the name array (`none` is a null
pointer) and the count `nParamCnt`. -/
structure SC_SParamUpdateArg where
  pParamNameList : Option (List String)
  nParamCnt : Nat
deriving DecidableEq, Repr, Inhabited

/-- One entry of an enumerated property. -/
structure SC_EnumEntryInfo where
  value : Nat := 0
  name : String := ""
deriving DecidableEq, Repr, Inhabited

/-- The entry list exchanged with `SC_GetEnumFeatureEntrys`. -/
structure SC_EnumEntryList where
  enumEntryBufferSize : Nat := 0
  pEnumEntryInfo : List SC_EnumEntryInfo := []
deriving DecidableEq, Repr, Inhabited

/-- The SDK's auto-exposure modes. -/
inductive SC_AutoExpMode
  | eAutoExpCenter
  | eAutoExpRight
  | eAutoExpInvalid
deriving DecidableEq, Repr, Inhabited

/-- The SDK's auto-exposure parameter block. -/
structure SC_AutoExpParam where
  mode : SC_AutoExpMode := .eAutoExpInvalid
  origTargetGray : Int := 0
deriving DecidableEq, Repr, Inhabited

/-- The SDK's auto-level modes; `other` stands for a value outside the four named ones. -/
inductive SC_AutoLevelMode
  | eAutoLevelOff
  | eAutoLevelR
  | eAutoLevelL
  | eAutoLevelRL
  | other (raw : Int)
deriving DecidableEq, Repr, Inhabited

/-- The SDK's record parameter block, with the fields `Camera_OpenRecord` sets;
`frameRate` holds the integer the facade converts to `float`, and `saveOriginalImage`
stands for `saveImageType = eOriginalImage`. -/
structure SC_RecordParam where
  fileName : List Nat := []
  recordFormat : Int := 0
  quality : Int := 0
  frameRate : Int := 0
  startFrame : Nat := 0
  count : Nat := 0
  saveOriginalImage : Bool := true
deriving DecidableEq, Repr, Inhabited

/-- The mode argument of `SC_CreateHandle`. -/
inductive SC_ECreateHandleMode
  | eModeByIndex
  | eModeBySerialNumber
  | eModeByCameraKey
deriving DecidableEq, Repr, Inhabited

/-- The pair a callback registry stores for a handle. -/
structure CallbackInfo where
  userCallback : Nat
  userData : Nat
deriving DecidableEq, Repr, Inhabited

/-- The global data of `Revealer.cpp`. -/
structure State where
  g_deviceList : SC_DeviceList := {}
  g_handleMap : StdMap SC_DEV_HANDLE := StdMap.empty
  g_connectCallbackMap : StdMap CallbackInfo := StdMap.empty
  g_paramUpdateCallbackMap : StdMap CallbackInfo := StdMap.empty
  g_exportCallbackMap : StdMap CallbackInfo := StdMap.empty
  g_processedFrameCallbackMap : StdMap CallbackInfo := StdMap.empty
deriving DecidableEq, Repr

/-! ## Facade data types (`Revealer.h`) -/

/-- Conversion of an integer to the 32-bit `int` of the facade's records: the value
modulo `2^32`, taken in the range from `-2^31` to `2^31 - 1`. -/
def toInt32 (n : Int) : Int := (n + 2147483648) % 4294967296 - 2147483648

/-- Conversion of an `int` to `unsigned int` (32 bits): the value modulo `2^32`. -/
def toUInt32 (n : Int) : Nat := (n % 4294967296).toNat

/-- The facade's `ImageData` record; `width`, `height`, `stride`, `pixelFormat` and
`dataSize` are `int` fields. -/
structure ImageData where
  width : Int := 0
  height : Int := 0
  stride : Int := 0
  pixelFormat : Int := 0
  pData : Nat := 0
  dataSize : Int := 0
  blockId : Nat := 0
  timeStamp : Nat := 0
deriving DecidableEq, Repr, Inhabited

/-- The facade's `DeviceInfo` record: five character arrays, each given by the bytes
of the C string it holds. -/
structure DeviceInfo where
  cameraName : List Nat := []
  serialNumber : List Nat := []
  modelName : List Nat := []
  manufacturerInfo : List Nat := []
  deviceVersion : List Nat := []
deriving DecidableEq, Repr, Inhabited

/-- The facade's `RecordParam` record. -/
structure RecordParam where
  recordFilePath : String := ""
  fileName : String := ""
  recordFormat : Int := 0
  quality : Int := 0
  frameRate : Int := 0
  startFrame : Nat := 0
  count : Nat := 0
deriving DecidableEq, Repr, Inhabited

/-! ## The SDK as a collaborator -/

/-- The four static callback wrappers the facade registers with the SDK. -/
inductive Trampoline
  | OnConnectCallback
  | OnParamUpdateCallback
  | OnExportCallback
  | OnProcessedFrameCallback
deriving DecidableEq, Repr, Inhabited

/-- A call into the SDK, with the arguments the facade passes. A `double` argument is
carried as its bit pattern, since the facade only forwards it. -/
inductive SdkCall
  | SC_Release
  | SC_EnumDevices (deviceList : SC_DeviceList) (interfaceType : Nat)
  | SC_CreateHandle (mode : SC_ECreateHandleMode) (key : String)
  | SC_DestroyHandle (h : SC_DEV_HANDLE)
  | SC_Open (h : SC_DEV_HANDLE)
  | SC_Close (h : SC_DEV_HANDLE)
  | SC_DownLoadGenICamXML (h : SC_DEV_HANDLE) (pFullPath : String)
  | SC_GetDeviceInfo (h : SC_DEV_HANDLE)
  | SC_StartGrabbing (h : SC_DEV_HANDLE)
  | SC_StopGrabbing (h : SC_DEV_HANDLE)
  | SC_IsGrabbing (h : SC_DEV_HANDLE)
  | SC_SetBufferCount (h : SC_DEV_HANDLE) (bufferCount : Nat)
  | SC_GetFrame (h : SC_DEV_HANDLE) (timeout : Nat)
  | SC_ReleaseFrame (h : SC_DEV_HANDLE) (frame : SC_Frame)
  | SC_GetProcessedFrame (h : SC_DEV_HANDLE) (timeout : Nat)
  | SC_OpenRecord (h : SC_DEV_HANDLE) (param : SC_RecordParam)
  | SC_CloseRecord (h : SC_DEV_HANDLE)
  | SC_SetExportCacheSize (h : SC_DEV_HANDLE) (cacheSizeInByte : Nat)
  | SC_FeatureIsAvailable (h : SC_DEV_HANDLE) (featureName : String)
  | SC_FeatureIsReadable (h : SC_DEV_HANDLE) (featureName : String)
  | SC_FeatureIsWriteable (h : SC_DEV_HANDLE) (featureName : String)
  | SC_GetFeatureType (h : SC_DEV_HANDLE) (featureName : String)
  | SC_GetIntFeatureValue (h : SC_DEV_HANDLE) (featureName : String)
  | SC_GetIntFeatureMin (h : SC_DEV_HANDLE) (featureName : String)
  | SC_GetIntFeatureMax (h : SC_DEV_HANDLE) (featureName : String)
  | SC_GetIntFeatureInc (h : SC_DEV_HANDLE) (featureName : String)
  | SC_SetIntFeatureValue (h : SC_DEV_HANDLE) (featureName : String) (value : Int)
  | SC_GetFloatFeatureValue (h : SC_DEV_HANDLE) (featureName : String)
  | SC_GetFloatFeatureMin (h : SC_DEV_HANDLE) (featureName : String)
  | SC_GetFloatFeatureMax (h : SC_DEV_HANDLE) (featureName : String)
  | SC_GetFloatFeatureInc (h : SC_DEV_HANDLE) (featureName : String)
  | SC_SetFloatFeatureValue (h : SC_DEV_HANDLE) (featureName : String) (value : Nat)
  | SC_GetEnumFeatureValue (h : SC_DEV_HANDLE) (featureName : String)
  | SC_SetEnumFeatureValue (h : SC_DEV_HANDLE) (featureName : String) (value : Nat)
  | SC_GetEnumFeatureEntryNum (h : SC_DEV_HANDLE) (featureName : String)
  | SC_GetEnumFeatureEntrys (h : SC_DEV_HANDLE) (featureName : String)
      (entryList : SC_EnumEntryList)
  | SC_GetEnumFeatureSymbol (h : SC_DEV_HANDLE) (featureName : String)
  | SC_SetEnumFeatureSymbol (h : SC_DEV_HANDLE) (featureName : String) (symbol : String)
  | SC_GetBoolFeatureValue (h : SC_DEV_HANDLE) (featureName : String)
  | SC_SetBoolFeatureValue (h : SC_DEV_HANDLE) (featureName : String) (value : Bool)
  | SC_GetStringFeatureValue (h : SC_DEV_HANDLE) (featureName : String)
  | SC_SetStringFeatureValue (h : SC_DEV_HANDLE) (featureName : String) (value : String)
  | SC_ExecuteCommandFeature (h : SC_DEV_HANDLE) (featureName : String)
  | SC_SubscribeConnectArg (h : SC_DEV_HANDLE) (proc : Trampoline) (pUser : Nat)
  | SC_SubscribeParamUpdateArg (h : SC_DEV_HANDLE) (proc : Trampoline) (pUser : Nat)
  | SC_SubscribeExportNotify (h : SC_DEV_HANDLE) (proc : Trampoline) (pUser : Nat)
  | SC_SetAutoExposureParam (h : SC_DEV_HANDLE) (param : SC_AutoExpParam)
  | SC_AutoExposure (h : SC_DEV_HANDLE)
  | SC_SetAutoLevels (h : SC_DEV_HANDLE) (mode : SC_AutoLevelMode)
  | SC_GetAutoLevels (h : SC_DEV_HANDLE)
  | SC_SetAutoLevelValue (h : SC_DEV_HANDLE) (mode : SC_AutoLevelMode) (value : Int)
  | SC_GetAutoLevelValue (h : SC_DEV_HANDLE) (mode : SC_AutoLevelMode)
  | SC_ExecuteAutoLevel (h : SC_DEV_HANDLE) (mode : SC_AutoLevelMode)
  | SC_SetImageProcessingFeatureEnabled (h : SC_DEV_HANDLE) (feat : Int) (enable : Bool)
  | SC_GetImageProcessingFeatureEnabled (h : SC_DEV_HANDLE) (feat : Int)
  | SC_SetImageProcessingFeatureValue (h : SC_DEV_HANDLE) (feat : Int) (value : Int)
  | SC_GetImageProcessingFeatureValue (h : SC_DEV_HANDLE) (feat : Int)
  | SC_SetPseudoColorMap (h : SC_DEV_HANDLE) (mode : Int)
  | SC_GetPseudoColorMap (h : SC_DEV_HANDLE)
  | SC_AttachProImgGrabbing (h : SC_DEV_HANDLE) (proc : Trampoline) (pUser : Nat)
  | SC_SetROI (h : SC_DEV_HANDLE) (width : Int) (height : Int) (offsetX : Int) (offsetY : Int)
deriving Repr

/-- What the SDK hands back from a call: the result code and the contents of the
output arguments. A call fills the fields that belong to it; the facade reads only
those. `stored` is what the SDK writes through a caller pointer that the facade
hands on untouched (`none` when it writes nothing). -/
structure SdkReply where
  ret : Int := 0
  handle : SC_DEV_HANDLE := 0
  deviceList : SC_DeviceList := {}
  deviceInfo : SC_DeviceInfo := {}
  frame : SC_Frame := {}
  flag : Bool := false
  intValue : Int := 0
  natValue : Nat := 0
  stored : Option Nat := none
  str : String := ""
  entryList : SC_EnumEntryList := {}
  autoExpParam : SC_AutoExpParam := {}
  levelMode : SC_AutoLevelMode := .eAutoLevelOff
deriving DecidableEq, Repr, Inhabited

/-- The SDK seen from the facade: the reply it gives to each call. A different `SDK`
may be supplied at every facade call, so any sequence of replies can be described. -/
abbrev SDK := SdkCall → SdkReply

/-- The effect of one facade call: the globals afterwards, the returned code, the
value stored through the output pointer (`none` when nothing is stored) and the SDK
calls made, in order. `invalidParameter` tells that a CRT call made on the way invoked
the invalid-parameter handler, which ends the process unless the program installed a
handler of its own; `ret` and `out` are then what the caller sees where the handler
lets execution continue. -/
structure Outcome (α : Type) where
  state : State
  ret : Int
  out : Option α := none
  sdkCalls : List SdkCall := []
  invalidParameter : Bool := false
deriving Repr

/-- A user callback invocation made by a trampoline, with the arguments passed. -/
inductive UserCall
  | connect (callback : Nat) (isConnected : Int) (deviceId : String) (pUser : Nat)
  | paramUpdate (callback : Nat) (paramName : String) (pUser : Nat)
  | exportEvent (callback : Nat) (status : Int) (progress : Int) (pUser : Nat)
  | frame (callback : Nat) (imageData : ImageData) (pUser : Nat)
deriving DecidableEq, Repr

/-- The helper `GetSDKHandle`: the mapped SDK handle, `nullptr` when not found. -/
def GetSDKHandle (st : State) (handle : CameraHandle) : SC_DEV_HANDLE :=
  match st.g_handleMap.find handle with
  | some sdkHandle => sdkHandle
  | none => 0

/-- The bytes of a C string, without its terminator. A string the facade reads through
a `const char*` is given by the text it spells; its bytes are the UTF-8 bytes of that
text. -/
def cBytes (s : String) : List Nat := s.toUTF8.data.toList.map UInt8.toNat

/-- An `int` passed where a `size_t` (64 bits) is expected: a negative value wraps
around modulo `2^64`, any other value is unchanged. -/
def size_t (n : Int) : Nat :=
  if n < 0 then (n % 18446744073709551616).toNat else n.toNat

/-- The CRT call `strncpy_s(dst, numberOfElements, src, _TRUNCATE)` with non-null `dst`
and `src`, given by the bytes it leaves in `dst` as a C string. With
`numberOfElements = 0` the CRT invokes its invalid-parameter handler and writes
nothing: `none`. Otherwise `dst` receives the first `numberOfElements - 1` bytes of
`src`, all of them when they are fewer, followed by the terminator. -/
def strncpy_s (numberOfElements : Nat) (src : String) : Option (List Nat) :=
  if numberOfElements = 0 then none
  else some ((cBytes src).take (numberOfElements - 1))

/-! ## Static callback wrappers (trampolines) -/

/-- The wrapper `OnConnectCallback`: the user callbacks it invokes. -/
def OnConnectCallback (st : State) (pConnectArg : Option SC_SConnectArg) (pUser : Nat) :
    List UserCall :=
  match pConnectArg with
  | none => []
  | some arg =>
    let handle : CameraHandle := pUser
    match st.g_connectCallbackMap.find handle with
    | none => []
    | some info =>
      if info.userCallback ≠ 0 then
        let isConnected : Int := if arg.event = eOnLine then 1 else 0
        let deviceId := arg.serialNumber
        [UserCall.connect info.userCallback isConnected deviceId info.userData]
      else []

/-- The wrapper `OnParamUpdateCallback`: one user callback per index below
`nParamCnt`, in index order. Reading the name array past its end is undefined in the
source; the model reads an empty name there. -/
def OnParamUpdateCallback (st : State) (pParamUpdateArg : Option SC_SParamUpdateArg)
    (pUser : Nat) : List UserCall :=
  match pParamUpdateArg with
  | none => []
  | some arg =>
    match arg.pParamNameList with
    | none => []
    | some names =>
      let handle : CameraHandle := pUser
      match st.g_paramUpdateCallbackMap.find handle with
      | none => []
      | some info =>
        if info.userCallback ≠ 0 then
          (List.range arg.nParamCnt).map (fun i =>
            let paramName := names.getD i ""
            UserCall.paramUpdate info.userCallback paramName info.userData)
        else []

/-- The wrapper `OnExportCallback`; the message text `msgText` is received and not
used. -/
def OnExportCallback (st : State) (progress : Int) (_msgText : Option String) (notify : Int)
    (pUser : Nat) : List UserCall :=
  let handle : CameraHandle := pUser
  match st.g_exportCallbackMap.find handle with
  | none => []
  | some info =>
    if info.userCallback ≠ 0 then
      let status := notify
      [UserCall.exportEvent info.userCallback status progress info.userData]
    else []

/-- The wrapper `OnProcessedFrameCallback`. The result is `none` when the source
divides by a zero height while filling the record (undefined behaviour); otherwise
it is the list of user callbacks invoked. The division is the unsigned one of the
header's fields, and each value is converted to the `int` field it is stored in. -/
def OnProcessedFrameCallback (st : State) (pFrame : Option SC_Frame) (pUser : Nat) :
    Option (List UserCall) :=
  match pFrame with
  | none => some []
  | some frame =>
    let handle : CameraHandle := pUser
    match st.g_processedFrameCallbackMap.find handle with
    | none => some []
    | some info =>
      if info.userCallback ≠ 0 then
        if frame.frameInfo.height = 0 then none
        else
          let imageData : ImageData :=
            { width := toInt32 frame.frameInfo.width
              height := toInt32 frame.frameInfo.height
              pixelFormat := toInt32 frame.frameInfo.pixelFormat
              dataSize := toInt32 frame.frameInfo.size
              stride := toInt32 (frame.frameInfo.size / frame.frameInfo.height : Nat)
              blockId := frame.frameInfo.frameId
              timeStamp := frame.frameInfo.timeStamp
              pData := frame.pData }
          some [UserCall.frame info.userCallback imageData info.userData]
      else some []

/-! ## System operations -/

/-- The operation `Camera_Release`: the globals afterwards and the SDK calls made. -/
def Camera_Release (st : State) : State × List SdkCall :=
  ({ st with
      g_handleMap := StdMap.empty
      g_connectCallbackMap := StdMap.empty
      g_paramUpdateCallbackMap := StdMap.empty
      g_exportCallbackMap := StdMap.empty
      g_processedFrameCallbackMap := StdMap.empty },
   [SdkCall.SC_Release])

/-- The operation `Camera_EnumDevices`. The SDK writes `g_deviceList` in place, so the
list afterwards is the one the SDK leaves, whatever code it returns. -/
def Camera_EnumDevices (sdk : SDK) (st : State) (pDeviceCount : Nat) (interfaceType : Nat) :
    Outcome Int :=
  if pDeviceCount = 0 then { state := st, ret := -1 }
  else
    let call := SdkCall.SC_EnumDevices st.g_deviceList interfaceType
    let reply := sdk call
    let st1 : State := { st with g_deviceList := reply.deviceList }
    let ret := reply.ret
    if ret = SC_OK then
      { state := st1, ret := ret, out := some (st1.g_deviceList.devNum : Int), sdkCalls := [call] }
    else
      { state := st1, ret := ret, sdkCalls := [call] }

/-- The operation `Camera_GetDeviceName`; `name` is the address of the caller's buffer
and `out` the bytes of the C string stored there. The source ignores what
`strncpy_s` returns. Reading the descriptor array past its end is undefined in the
source; the model reads an empty descriptor there. -/
def Camera_GetDeviceName (st : State) (index : Int) (name : Nat) (nameSize : Int) :
    Outcome (List Nat) :=
  if name = 0 ∨ index < 0 ∨ index ≥ (st.g_deviceList.devNum : Int) then
    { state := st, ret := -1 }
  else
    let copied := strncpy_s (size_t nameSize)
      (st.g_deviceList.pDevInfo.getD index.toNat default).cameraName
    { state := st, ret := SC_OK, out := copied, invalidParameter := copied.isNone }

/-- The operation `Camera_CreateHandle`; `pHandle` is the address of the caller's
output handle and `out` the handle stored there. -/
def Camera_CreateHandle (sdk : SDK) (st : State) (pHandle : Nat) (deviceIndex : Int) :
    Outcome CameraHandle :=
  if pHandle = 0 ∨ deviceIndex < 0 ∨ deviceIndex ≥ (st.g_deviceList.devNum : Int) then
    { state := st, ret := -1 }
  else
    let call := SdkCall.SC_CreateHandle .eModeByCameraKey
      (st.g_deviceList.pDevInfo.getD deviceIndex.toNat default).cameraKey
    let reply := sdk call
    let sdkHandle : SC_DEV_HANDLE := reply.handle
    let ret := reply.ret
    if ret = SC_OK ∧ sdkHandle ≠ 0 then
      let handle : CameraHandle := sdkHandle
      { state := { st with g_handleMap := st.g_handleMap.assign handle sdkHandle },
        ret := ret, out := some handle, sdkCalls := [call] }
    else
      { state := st, ret := ret, sdkCalls := [call] }

/-- The operation `Camera_DestroyHandle`. -/
def Camera_DestroyHandle (sdk : SDK) (st : State) (handle : CameraHandle) : Outcome Unit :=
  let sdkHandle := GetSDKHandle st handle
  if sdkHandle = 0 then { state := st, ret := -1 }
  else
    let call := SdkCall.SC_DestroyHandle sdkHandle
    let ret := (sdk call).ret
    if ret = SC_OK then
      { state :=
          { st with
            g_handleMap := st.g_handleMap.erase handle
            g_connectCallbackMap := st.g_connectCallbackMap.erase handle
            g_paramUpdateCallbackMap := st.g_paramUpdateCallbackMap.erase handle
            g_exportCallbackMap := st.g_exportCallbackMap.erase handle
            g_processedFrameCallbackMap := st.g_processedFrameCallbackMap.erase handle },
        ret := ret, sdkCalls := [call] }
    else
      { state := st, ret := ret, sdkCalls := [call] }

/-! ## Camera operations -/

/-- The operation `Camera_Open`. -/
def Camera_Open (sdk : SDK) (st : State) (handle : CameraHandle) :
    Outcome Unit :=
  let sdkHandle := GetSDKHandle st handle
  if sdkHandle = 0 then { state := st, ret := -1 }
  else
    let call := SdkCall.SC_Open sdkHandle
    { state := st, ret := (sdk call).ret, sdkCalls := [call] }

/-- The operation `Camera_Close`. -/
def Camera_Close (sdk : SDK) (st : State) (handle : CameraHandle) :
    Outcome Unit :=
  let sdkHandle := GetSDKHandle st handle
  if sdkHandle = 0 then { state := st, ret := -1 }
  else
    let call := SdkCall.SC_Close sdkHandle
    { state := st, ret := (sdk call).ret, sdkCalls := [call] }

/-- The operation `Camera_DownloadGenICamXML`. -/
def Camera_DownloadGenICamXML (sdk : SDK) (st : State) (handle : CameraHandle) (pFullPath : Option String) :
    Outcome Unit :=
  let sdkHandle := GetSDKHandle st handle
  if sdkHandle = 0 ∨ pFullPath = none then { state := st, ret := -1 }
  else
    let call := SdkCall.SC_DownLoadGenICamXML sdkHandle (pFullPath.getD "")
    { state := st, ret := (sdk call).ret, sdkCalls := [call] }

/-- The operation `Camera_GetDeviceInfo`; the five character arrays of `DeviceInfo`
hold 256 bytes each. -/
def Camera_GetDeviceInfo (sdk : SDK) (st : State) (handle : CameraHandle) (pDevInfo : Nat) :
    Outcome DeviceInfo :=
  let sdkHandle := GetSDKHandle st handle
  if sdkHandle = 0 ∨ pDevInfo = 0 then { state := st, ret := -1 }
  else
    let call := SdkCall.SC_GetDeviceInfo sdkHandle
    let reply := sdk call
    let info := reply.deviceInfo
    let ret := reply.ret
    if ret = SC_OK then
      { state := st, ret := ret, sdkCalls := [call],
        out := do
          let cameraName ← strncpy_s 256 info.cameraName
          let serialNumber ← strncpy_s 256 info.serialNumber
          let modelName ← strncpy_s 256 info.modelName
          let manufacturerInfo ← strncpy_s 256 info.manufactureInfo
          let deviceVersion ← strncpy_s 256 info.deviceVersion
          pure
            { cameraName := cameraName
              serialNumber := serialNumber
              modelName := modelName
              manufacturerInfo := manufacturerInfo
              deviceVersion := deviceVersion } }
    else { state := st, ret := ret, sdkCalls := [call] }

/-! ## Stream operations -/

/-- The operation `Camera_StartGrabbing`. -/
def Camera_StartGrabbing (sdk : SDK) (st : State) (handle : CameraHandle) :
    Outcome Unit :=
  let sdkHandle := GetSDKHandle st handle
  if sdkHandle = 0 then { state := st, ret := -1 }
  else
    let call := SdkCall.SC_StartGrabbing sdkHandle
    { state := st, ret := (sdk call).ret, sdkCalls := [call] }

/-- The operation `Camera_StopGrabbing`. -/
def Camera_StopGrabbing (sdk : SDK) (st : State) (handle : CameraHandle) :
    Outcome Unit :=
  let sdkHandle := GetSDKHandle st handle
  if sdkHandle = 0 then { state := st, ret := -1 }
  else
    let call := SdkCall.SC_StopGrabbing sdkHandle
    { state := st, ret := (sdk call).ret, sdkCalls := [call] }

/-- The operation `Camera_IsGrabbing`; it always returns `SC_OK` once its arguments
are accepted. -/
def Camera_IsGrabbing (sdk : SDK) (st : State) (handle : CameraHandle) (pIsGrabbing : Nat) :
    Outcome Int :=
  let sdkHandle := GetSDKHandle st handle
  if sdkHandle = 0 ∨ pIsGrabbing = 0 then { state := st, ret := -1 }
  else
    let call := SdkCall.SC_IsGrabbing sdkHandle
    { state := st, ret := SC_OK, out := some (if (sdk call).flag then 1 else 0),
      sdkCalls := [call] }

/-- The operation `Camera_SetBufferCount`. -/
def Camera_SetBufferCount (sdk : SDK) (st : State) (handle : CameraHandle) (bufferCount : Nat) :
    Outcome Unit :=
  let sdkHandle := GetSDKHandle st handle
  if sdkHandle = 0 then { state := st, ret := -1 }
  else
    let call := SdkCall.SC_SetBufferCount sdkHandle bufferCount
    { state := st, ret := (sdk call).ret, sdkCalls := [call] }

/-- The operation `Camera_GetFrame`; `pImage` is the address of the caller's record and
`out` the record stored there. -/
def Camera_GetFrame (sdk : SDK) (st : State) (handle : CameraHandle) (pImage : Nat)
    (timeout : Nat) : Outcome ImageData :=
  let sdkHandle := GetSDKHandle st handle
  if sdkHandle = 0 ∨ pImage = 0 then { state := st, ret := -1 }
  else
    let call := SdkCall.SC_GetFrame sdkHandle timeout
    let reply := sdk call
    let frame := reply.frame
    let ret := reply.ret
    if ret ≠ SC_OK then { state := st, ret := ret, sdkCalls := [call] }
    else if frame.frameInfo.width = 0 ∨ frame.frameInfo.height = 0 ∨
        frame.frameInfo.size = 0 ∨ frame.pData = 0 then
      { state := st, ret := -1, sdkCalls := [call, SdkCall.SC_ReleaseFrame sdkHandle frame] }
    else
      { state := st, ret := SC_OK, sdkCalls := [call],
        out := some
          { width := toInt32 frame.frameInfo.width
            height := toInt32 frame.frameInfo.height
            pixelFormat := toInt32 frame.frameInfo.pixelFormat
            dataSize := toInt32 frame.frameInfo.size
            stride := toInt32 (frame.frameInfo.size / frame.frameInfo.height : Nat)
            blockId := frame.frameInfo.frameId
            timeStamp := frame.frameInfo.timeStamp
            pData := frame.pData } }

/-- The operation `Camera_ReleaseFrame`. The native frame handed to the SDK carries the
data pointer, the dimensions, the pixel format and the size of the record, the `int`
fields converted to the header's `unsigned int`; the source leaves its other fields
unset, which the model shows as `0`. -/
def Camera_ReleaseFrame (sdk : SDK) (st : State) (handle : CameraHandle)
    (pImage : Option ImageData) : Outcome Unit :=
  let sdkHandle := GetSDKHandle st handle
  match pImage with
  | none => { state := st, ret := -1 }
  | some image =>
    if sdkHandle = 0 then { state := st, ret := -1 }
    else
      let frame : SC_Frame :=
        { pData := image.pData
          frameInfo :=
            { width := toUInt32 image.width
              height := toUInt32 image.height
              pixelFormat := image.pixelFormat
              size := toUInt32 image.dataSize } }
      let call := SdkCall.SC_ReleaseFrame sdkHandle frame
      { state := st, ret := (sdk call).ret, sdkCalls := [call] }

/-- The operation `Camera_GetProcessedFrame`. -/
def Camera_GetProcessedFrame (sdk : SDK) (st : State) (handle : CameraHandle) (pImage : Nat)
    (timeout : Nat) : Outcome ImageData :=
  let sdkHandle := GetSDKHandle st handle
  if sdkHandle = 0 ∨ pImage = 0 then { state := st, ret := -1 }
  else
    let call := SdkCall.SC_GetProcessedFrame sdkHandle timeout
    let reply := sdk call
    let frame := reply.frame
    let ret := reply.ret
    if ret ≠ SC_OK then { state := st, ret := ret, sdkCalls := [call] }
    else if frame.frameInfo.width = 0 ∨ frame.frameInfo.height = 0 ∨
        frame.frameInfo.size = 0 ∨ frame.pData = 0 then
      { state := st, ret := -1, sdkCalls := [call, SdkCall.SC_ReleaseFrame sdkHandle frame] }
    else
      { state := st, ret := SC_OK, sdkCalls := [call],
        out := some
          { width := toInt32 frame.frameInfo.width
            height := toInt32 frame.frameInfo.height
            pixelFormat := toInt32 frame.frameInfo.pixelFormat
            dataSize := toInt32 frame.frameInfo.size
            stride := toInt32 (frame.frameInfo.size / frame.frameInfo.height : Nat)
            blockId := frame.frameInfo.frameId
            timeStamp := frame.frameInfo.timeStamp
            pData := frame.pData } }

/-- The operation `Camera_OpenRecord`. `fileNameSize` is `sizeof(recordParam.fileName)`,
a constant of the SDK headers, which are not part of the sources; the size of an
array is not `0`, and for `0` the model leaves the file name empty. -/
def Camera_OpenRecord (fileNameSize : Nat) (sdk : SDK) (st : State) (handle : CameraHandle)
    (pParam : Option RecordParam) : Outcome Unit :=
  let sdkHandle := GetSDKHandle st handle
  match pParam with
  | none => { state := st, ret := -1 }
  | some param =>
    if sdkHandle = 0 then { state := st, ret := -1 }
    else
      let copied := strncpy_s fileNameSize param.fileName
      let recordParam : SC_RecordParam :=
        { fileName := copied.getD []
          recordFormat := param.recordFormat
          quality := param.quality
          frameRate := param.frameRate
          startFrame := 0
          count := 0
          saveOriginalImage := true }
      let call := SdkCall.SC_OpenRecord sdkHandle recordParam
      { state := st, ret := (sdk call).ret, sdkCalls := [call],
        invalidParameter := copied.isNone }

/-- The operation `Camera_CloseRecord`. -/
def Camera_CloseRecord (sdk : SDK) (st : State) (handle : CameraHandle) :
    Outcome Unit :=
  let sdkHandle := GetSDKHandle st handle
  if sdkHandle = 0 then { state := st, ret := -1 }
  else
    let call := SdkCall.SC_CloseRecord sdkHandle
    { state := st, ret := (sdk call).ret, sdkCalls := [call] }

/-- The operation `Camera_SetExportCacheSize`. -/
def Camera_SetExportCacheSize (sdk : SDK) (st : State) (handle : CameraHandle) (cacheSizeInByte : Nat) :
    Outcome Unit :=
  let sdkHandle := GetSDKHandle st handle
  if sdkHandle = 0 then { state := st, ret := -1 }
  else
    let call := SdkCall.SC_SetExportCacheSize sdkHandle cacheSizeInByte
    { state := st, ret := (sdk call).ret, sdkCalls := [call] }

/-! ## Property operations -/

/-- The probe `Camera_FeatureIsAvailable`: `1` or `0`, and `0` as well when the handle or the name
is rejected. -/
def Camera_FeatureIsAvailable (sdk : SDK) (st : State) (handle : CameraHandle)
    (featureName : Option String) : Outcome Unit :=
  let sdkHandle := GetSDKHandle st handle
  if sdkHandle = 0 ∨ featureName = none then { state := st, ret := 0 }
  else
    let call := SdkCall.SC_FeatureIsAvailable sdkHandle (featureName.getD "")
    { state := st, ret := if (sdk call).flag then 1 else 0, sdkCalls := [call] }

/-- The probe `Camera_FeatureIsReadable`: `1` or `0`, and `0` as well when the handle or the name
is rejected. -/
def Camera_FeatureIsReadable (sdk : SDK) (st : State) (handle : CameraHandle)
    (featureName : Option String) : Outcome Unit :=
  let sdkHandle := GetSDKHandle st handle
  if sdkHandle = 0 ∨ featureName = none then { state := st, ret := 0 }
  else
    let call := SdkCall.SC_FeatureIsReadable sdkHandle (featureName.getD "")
    { state := st, ret := if (sdk call).flag then 1 else 0, sdkCalls := [call] }

/-- The probe `Camera_FeatureIsWriteable`: `1` or `0`, and `0` as well when the handle or the name
is rejected. -/
def Camera_FeatureIsWriteable (sdk : SDK) (st : State) (handle : CameraHandle)
    (featureName : Option String) : Outcome Unit :=
  let sdkHandle := GetSDKHandle st handle
  if sdkHandle = 0 ∨ featureName = none then { state := st, ret := 0 }
  else
    let call := SdkCall.SC_FeatureIsWriteable sdkHandle (featureName.getD "")
    { state := st, ret := if (sdk call).flag then 1 else 0, sdkCalls := [call] }

/-- The operation `Camera_GetFeatureType`. -/
def Camera_GetFeatureType (sdk : SDK) (st : State) (handle : CameraHandle) (featureName : Option String) (pType : Nat) :
    Outcome Int :=
  let sdkHandle := GetSDKHandle st handle
  if sdkHandle = 0 ∨ featureName = none ∨ pType = 0 then { state := st, ret := -1 }
  else
    let call := SdkCall.SC_GetFeatureType sdkHandle (featureName.getD "")
    let reply := sdk call
    let ret := reply.ret
    if ret = SC_OK then { state := st, ret := ret, out := some (reply.intValue), sdkCalls := [call] }
    else { state := st, ret := ret, sdkCalls := [call] }

/-- The operation `Camera_GetIntFeatureValue`. -/
def Camera_GetIntFeatureValue (sdk : SDK) (st : State) (handle : CameraHandle) (featureName : Option String) (pValue : Nat) :
    Outcome Int :=
  let sdkHandle := GetSDKHandle st handle
  if sdkHandle = 0 ∨ featureName = none ∨ pValue = 0 then { state := st, ret := -1 }
  else
    let call := SdkCall.SC_GetIntFeatureValue sdkHandle (featureName.getD "")
    let reply := sdk call
    let ret := reply.ret
    if ret = SC_OK then { state := st, ret := ret, out := some (reply.intValue), sdkCalls := [call] }
    else { state := st, ret := ret, sdkCalls := [call] }

/-- The operation `Camera_GetIntFeatureMin`. -/
def Camera_GetIntFeatureMin (sdk : SDK) (st : State) (handle : CameraHandle) (featureName : Option String) (pValue : Nat) :
    Outcome Int :=
  let sdkHandle := GetSDKHandle st handle
  if sdkHandle = 0 ∨ featureName = none ∨ pValue = 0 then { state := st, ret := -1 }
  else
    let call := SdkCall.SC_GetIntFeatureMin sdkHandle (featureName.getD "")
    let reply := sdk call
    let ret := reply.ret
    if ret = SC_OK then { state := st, ret := ret, out := some (reply.intValue), sdkCalls := [call] }
    else { state := st, ret := ret, sdkCalls := [call] }

/-- The operation `Camera_GetIntFeatureMax`. -/
def Camera_GetIntFeatureMax (sdk : SDK) (st : State) (handle : CameraHandle) (featureName : Option String) (pValue : Nat) :
    Outcome Int :=
  let sdkHandle := GetSDKHandle st handle
  if sdkHandle = 0 ∨ featureName = none ∨ pValue = 0 then { state := st, ret := -1 }
  else
    let call := SdkCall.SC_GetIntFeatureMax sdkHandle (featureName.getD "")
    let reply := sdk call
    let ret := reply.ret
    if ret = SC_OK then { state := st, ret := ret, out := some (reply.intValue), sdkCalls := [call] }
    else { state := st, ret := ret, sdkCalls := [call] }

/-- The operation `Camera_GetIntFeatureInc`. -/
def Camera_GetIntFeatureInc (sdk : SDK) (st : State) (handle : CameraHandle) (featureName : Option String) (pValue : Nat) :
    Outcome Int :=
  let sdkHandle := GetSDKHandle st handle
  if sdkHandle = 0 ∨ featureName = none ∨ pValue = 0 then { state := st, ret := -1 }
  else
    let call := SdkCall.SC_GetIntFeatureInc sdkHandle (featureName.getD "")
    let reply := sdk call
    let ret := reply.ret
    if ret = SC_OK then { state := st, ret := ret, out := some (reply.intValue), sdkCalls := [call] }
    else { state := st, ret := ret, sdkCalls := [call] }

/-- The operation `Camera_SetIntFeatureValue`. -/
def Camera_SetIntFeatureValue (sdk : SDK) (st : State) (handle : CameraHandle) (featureName : Option String) (value : Int) :
    Outcome Unit :=
  let sdkHandle := GetSDKHandle st handle
  if sdkHandle = 0 ∨ featureName = none then { state := st, ret := -1 }
  else
    let call := SdkCall.SC_SetIntFeatureValue sdkHandle (featureName.getD "") value
    { state := st, ret := (sdk call).ret, sdkCalls := [call] }

/-- The operation `Camera_GetFloatFeatureValue`; the `double` is carried as its bit pattern. -/
def Camera_GetFloatFeatureValue (sdk : SDK) (st : State) (handle : CameraHandle) (featureName : Option String) (pValue : Nat) :
    Outcome Nat :=
  let sdkHandle := GetSDKHandle st handle
  if sdkHandle = 0 ∨ featureName = none ∨ pValue = 0 then { state := st, ret := -1 }
  else
    let call := SdkCall.SC_GetFloatFeatureValue sdkHandle (featureName.getD "")
    let reply := sdk call
    let ret := reply.ret
    if ret = SC_OK then { state := st, ret := ret, out := some (reply.natValue), sdkCalls := [call] }
    else { state := st, ret := ret, sdkCalls := [call] }

/-- The operation `Camera_GetFloatFeatureMin`; the `double` is carried as its bit pattern. -/
def Camera_GetFloatFeatureMin (sdk : SDK) (st : State) (handle : CameraHandle) (featureName : Option String) (pValue : Nat) :
    Outcome Nat :=
  let sdkHandle := GetSDKHandle st handle
  if sdkHandle = 0 ∨ featureName = none ∨ pValue = 0 then { state := st, ret := -1 }
  else
    let call := SdkCall.SC_GetFloatFeatureMin sdkHandle (featureName.getD "")
    let reply := sdk call
    let ret := reply.ret
    if ret = SC_OK then { state := st, ret := ret, out := some (reply.natValue), sdkCalls := [call] }
    else { state := st, ret := ret, sdkCalls := [call] }

/-- The operation `Camera_GetFloatFeatureMax`; the `double` is carried as its bit pattern. -/
def Camera_GetFloatFeatureMax (sdk : SDK) (st : State) (handle : CameraHandle) (featureName : Option String) (pValue : Nat) :
    Outcome Nat :=
  let sdkHandle := GetSDKHandle st handle
  if sdkHandle = 0 ∨ featureName = none ∨ pValue = 0 then { state := st, ret := -1 }
  else
    let call := SdkCall.SC_GetFloatFeatureMax sdkHandle (featureName.getD "")
    let reply := sdk call
    let ret := reply.ret
    if ret = SC_OK then { state := st, ret := ret, out := some (reply.natValue), sdkCalls := [call] }
    else { state := st, ret := ret, sdkCalls := [call] }

/-- The operation `Camera_GetFloatFeatureInc`; the `double` is carried as its bit pattern. -/
def Camera_GetFloatFeatureInc (sdk : SDK) (st : State) (handle : CameraHandle) (featureName : Option String) (pValue : Nat) :
    Outcome Nat :=
  let sdkHandle := GetSDKHandle st handle
  if sdkHandle = 0 ∨ featureName = none ∨ pValue = 0 then { state := st, ret := -1 }
  else
    let call := SdkCall.SC_GetFloatFeatureInc sdkHandle (featureName.getD "")
    let reply := sdk call
    let ret := reply.ret
    if ret = SC_OK then { state := st, ret := ret, out := some (reply.natValue), sdkCalls := [call] }
    else { state := st, ret := ret, sdkCalls := [call] }

/-- The operation `Camera_SetFloatFeatureValue`; the `double` is carried as its bit pattern. -/
def Camera_SetFloatFeatureValue (sdk : SDK) (st : State) (handle : CameraHandle) (featureName : Option String) (value : Nat) :
    Outcome Unit :=
  let sdkHandle := GetSDKHandle st handle
  if sdkHandle = 0 ∨ featureName = none then { state := st, ret := -1 }
  else
    let call := SdkCall.SC_SetFloatFeatureValue sdkHandle (featureName.getD "") value
    { state := st, ret := (sdk call).ret, sdkCalls := [call] }

/-- The operation `Camera_GetEnumFeatureValue`. -/
def Camera_GetEnumFeatureValue (sdk : SDK) (st : State) (handle : CameraHandle) (featureName : Option String) (pValue : Nat) :
    Outcome Nat :=
  let sdkHandle := GetSDKHandle st handle
  if sdkHandle = 0 ∨ featureName = none ∨ pValue = 0 then { state := st, ret := -1 }
  else
    let call := SdkCall.SC_GetEnumFeatureValue sdkHandle (featureName.getD "")
    let reply := sdk call
    let ret := reply.ret
    if ret = SC_OK then { state := st, ret := ret, out := some (reply.natValue), sdkCalls := [call] }
    else { state := st, ret := ret, sdkCalls := [call] }

/-- The operation `Camera_SetEnumFeatureValue`. -/
def Camera_SetEnumFeatureValue (sdk : SDK) (st : State) (handle : CameraHandle) (featureName : Option String) (value : Nat) :
    Outcome Unit :=
  let sdkHandle := GetSDKHandle st handle
  if sdkHandle = 0 ∨ featureName = none then { state := st, ret := -1 }
  else
    let call := SdkCall.SC_SetEnumFeatureValue sdkHandle (featureName.getD "") value
    { state := st, ret := (sdk call).ret, sdkCalls := [call] }

/-- The operation `Camera_GetEnumFeatureEntryNum`; the caller's pointer is handed to the
SDK, which stores the count through it. -/
def Camera_GetEnumFeatureEntryNum (sdk : SDK) (st : State) (handle : CameraHandle)
    (featureName : Option String) (pNum : Nat) : Outcome Nat :=
  let sdkHandle := GetSDKHandle st handle
  if sdkHandle = 0 ∨ featureName = none ∨ pNum = 0 then { state := st, ret := -1 }
  else
    let call := SdkCall.SC_GetEnumFeatureEntryNum sdkHandle (featureName.getD "")
    let reply := sdk call
    { state := st, ret := reply.ret, out := reply.stored, sdkCalls := [call] }

/-- The caller's buffers of `Camera_GetEnumFeatureEntrys` after the call. -/
structure EnumEntrysBuffers where
  entryNum : Nat
  enumValues : Option (List Nat)
  symbols : Option (List (Option (List Nat)))
deriving DecidableEq, Repr

/-- The operation `Camera_GetEnumFeatureEntrys`. A pointer argument is given by what it
points to: `pEntryNum` by the count it holds, `pEnumValues` by the caller's value
array, `pSymbols` by the caller's array of symbol buffers, each given by the bytes of
the C string it holds (`none` is a null pointer throughout). `out` holds the three after the call. The SDK receives a zero-filled
list of `*pEntryNum` entries and hands it back filled. Reading the list or writing
the caller's arrays past their ends is undefined in the source; the model reads an
empty entry and skips the write there. -/
def Camera_GetEnumFeatureEntrys (sdk : SDK) (st : State) (handle : CameraHandle)
    (featureName : Option String) (pEntryNum : Option Nat) (pEnumValues : Option (List Nat))
    (pSymbols : Option (List (Option (List Nat)))) (symbolSize : Int) :
    Outcome EnumEntrysBuffers :=
  let sdkHandle := GetSDKHandle st handle
  match pEntryNum with
  | none => { state := st, ret := -1 }
  | some entryNum =>
    if sdkHandle = 0 ∨ featureName = none then { state := st, ret := -1 }
    else
      match pEnumValues with
      | none =>
        let call := SdkCall.SC_GetEnumFeatureEntryNum sdkHandle (featureName.getD "")
        let reply := sdk call
        { state := st, ret := reply.ret, sdkCalls := [call],
          out := some
            { entryNum := reply.stored.getD entryNum, enumValues := none, symbols := pSymbols } }
      | some values =>
        let entryList0 : SC_EnumEntryList :=
          { enumEntryBufferSize := entryNum, pEnumEntryInfo := List.replicate entryNum {} }
        let call := SdkCall.SC_GetEnumFeatureEntrys sdkHandle (featureName.getD "") entryList0
        let reply := sdk call
        let entryList := reply.entryList
        let ret := reply.ret
        if ret = SC_OK then
          let idx := List.range entryList.enumEntryBufferSize
          let values1 := idx.foldl
            (fun vs i => vs.set i (entryList.pEnumEntryInfo.getD i {}).value) values
          let symbols1 := pSymbols.map (fun syms => idx.foldl
            (fun ss i =>
              if (ss.getD i none) ≠ none ∧ symbolSize > 0 then
                match strncpy_s (size_t symbolSize) (entryList.pEnumEntryInfo.getD i {}).name with
                | some copied => ss.set i (some copied)
                | none => ss
              else ss) syms)
          { state := st, ret := ret, sdkCalls := [call],
            out := some
              { entryNum := entryList.enumEntryBufferSize
                enumValues := some values1
                symbols := symbols1 } }
        else
          { state := st, ret := ret, sdkCalls := [call] }

/-- The operation `Camera_GetEnumFeatureSymbol`. -/
def Camera_GetEnumFeatureSymbol (sdk : SDK) (st : State) (handle : CameraHandle) (featureName : Option String) (symbol : Nat) (symbolSize : Int) :
    Outcome (List Nat) :=
  let sdkHandle := GetSDKHandle st handle
  if sdkHandle = 0 ∨ featureName = none ∨ symbol = 0 then { state := st, ret := -1 }
  else
    let call := SdkCall.SC_GetEnumFeatureSymbol sdkHandle (featureName.getD "")
    let reply := sdk call
    let ret := reply.ret
    if ret = SC_OK then
      let copied := strncpy_s (size_t symbolSize) reply.str
      { state := st, ret := ret, out := copied, sdkCalls := [call],
        invalidParameter := copied.isNone }
    else { state := st, ret := ret, sdkCalls := [call] }

/-- The operation `Camera_SetEnumFeatureSymbol`. -/
def Camera_SetEnumFeatureSymbol (sdk : SDK) (st : State) (handle : CameraHandle) (featureName : Option String) (symbol : Option String) :
    Outcome Unit :=
  let sdkHandle := GetSDKHandle st handle
  if sdkHandle = 0 ∨ featureName = none ∨ symbol = none then { state := st, ret := -1 }
  else
    let call := SdkCall.SC_SetEnumFeatureSymbol sdkHandle (featureName.getD "") (symbol.getD "")
    { state := st, ret := (sdk call).ret, sdkCalls := [call] }

/-- The operation `Camera_GetBoolFeatureValue`. -/
def Camera_GetBoolFeatureValue (sdk : SDK) (st : State) (handle : CameraHandle) (featureName : Option String) (pValue : Nat) :
    Outcome Int :=
  let sdkHandle := GetSDKHandle st handle
  if sdkHandle = 0 ∨ featureName = none ∨ pValue = 0 then { state := st, ret := -1 }
  else
    let call := SdkCall.SC_GetBoolFeatureValue sdkHandle (featureName.getD "")
    let reply := sdk call
    let ret := reply.ret
    if ret = SC_OK then { state := st, ret := ret, out := some (if reply.flag then 1 else 0), sdkCalls := [call] }
    else { state := st, ret := ret, sdkCalls := [call] }

/-- The operation `Camera_SetBoolFeatureValue`. -/
def Camera_SetBoolFeatureValue (sdk : SDK) (st : State) (handle : CameraHandle) (featureName : Option String) (value : Int) :
    Outcome Unit :=
  let sdkHandle := GetSDKHandle st handle
  if sdkHandle = 0 ∨ featureName = none then { state := st, ret := -1 }
  else
    let call := SdkCall.SC_SetBoolFeatureValue sdkHandle (featureName.getD "") (decide (value ≠ 0))
    { state := st, ret := (sdk call).ret, sdkCalls := [call] }

/-- The operation `Camera_GetStringFeatureValue`. -/
def Camera_GetStringFeatureValue (sdk : SDK) (st : State) (handle : CameraHandle) (featureName : Option String) (pValue : Nat) (valueSize : Int) :
    Outcome (List Nat) :=
  let sdkHandle := GetSDKHandle st handle
  if sdkHandle = 0 ∨ featureName = none ∨ pValue = 0 then { state := st, ret := -1 }
  else
    let call := SdkCall.SC_GetStringFeatureValue sdkHandle (featureName.getD "")
    let reply := sdk call
    let ret := reply.ret
    if ret = SC_OK then
      let copied := strncpy_s (size_t valueSize) reply.str
      { state := st, ret := ret, out := copied, sdkCalls := [call],
        invalidParameter := copied.isNone }
    else { state := st, ret := ret, sdkCalls := [call] }

/-- The operation `Camera_SetStringFeatureValue`. -/
def Camera_SetStringFeatureValue (sdk : SDK) (st : State) (handle : CameraHandle) (featureName : Option String) (pValue : Option String) :
    Outcome Unit :=
  let sdkHandle := GetSDKHandle st handle
  if sdkHandle = 0 ∨ featureName = none ∨ pValue = none then { state := st, ret := -1 }
  else
    let call := SdkCall.SC_SetStringFeatureValue sdkHandle (featureName.getD "") (pValue.getD "")
    { state := st, ret := (sdk call).ret, sdkCalls := [call] }

/-- The operation `Camera_ExecuteCommandFeature`. -/
def Camera_ExecuteCommandFeature (sdk : SDK) (st : State) (handle : CameraHandle) (featureName : Option String) :
    Outcome Unit :=
  let sdkHandle := GetSDKHandle st handle
  if sdkHandle = 0 ∨ featureName = none then { state := st, ret := -1 }
  else
    let call := SdkCall.SC_ExecuteCommandFeature sdkHandle (featureName.getD "")
    { state := st, ret := (sdk call).ret, sdkCalls := [call] }

/-! ## Image processing operations -/

/-- The operation `Camera_SetAutoExposureParam`. -/
def Camera_SetAutoExposureParam (sdk : SDK) (st : State) (handle : CameraHandle) (mode : Int)
    (targetGray : Int) : Outcome Unit :=
  let sdkHandle := GetSDKHandle st handle
  if sdkHandle = 0 then { state := st, ret := -1 }
  else
    let param : SC_AutoExpParam :=
      { origTargetGray := targetGray
        mode :=
          if mode = 0 then .eAutoExpCenter
          else if mode = 1 then .eAutoExpRight
          else if mode = 2 then .eAutoExpInvalid
          else .eAutoExpInvalid }
    let call := SdkCall.SC_SetAutoExposureParam sdkHandle param
    { state := st, ret := (sdk call).ret, sdkCalls := [call] }

/-- The operation `Camera_AutoExposure`; the output pointer may be null, in which case
nothing is stored. -/
def Camera_AutoExposure (sdk : SDK) (st : State) (handle : CameraHandle) (pActualGray : Nat) :
    Outcome Int :=
  let sdkHandle := GetSDKHandle st handle
  if sdkHandle = 0 then { state := st, ret := -1 }
  else
    let call := SdkCall.SC_AutoExposure sdkHandle
    let reply := sdk call
    let param := reply.autoExpParam
    let ret := reply.ret
    if ret = SC_OK ∧ pActualGray ≠ 0 then
      { state := st, ret := ret, out := some param.origTargetGray, sdkCalls := [call] }
    else { state := st, ret := ret, sdkCalls := [call] }

/-- The operation `Camera_SetAutoLevels`. -/
def Camera_SetAutoLevels (sdk : SDK) (st : State) (handle : CameraHandle) (mode : Int) :
    Outcome Unit :=
  let sdkHandle := GetSDKHandle st handle
  if sdkHandle = 0 then { state := st, ret := -1 }
  else
    let levelMode : SC_AutoLevelMode :=
      if mode = 0 then .eAutoLevelOff
      else if mode = 1 then .eAutoLevelR
      else if mode = 2 then .eAutoLevelL
      else if mode = 3 then .eAutoLevelRL
      else .eAutoLevelOff
    let call := SdkCall.SC_SetAutoLevels sdkHandle levelMode
    { state := st, ret := (sdk call).ret, sdkCalls := [call] }

/-- The operation `Camera_GetAutoLevels`. -/
def Camera_GetAutoLevels (sdk : SDK) (st : State) (handle : CameraHandle) (pMode : Nat) :
    Outcome Int :=
  let sdkHandle := GetSDKHandle st handle
  if sdkHandle = 0 ∨ pMode = 0 then { state := st, ret := -1 }
  else
    let call := SdkCall.SC_GetAutoLevels sdkHandle
    let reply := sdk call
    let mode := reply.levelMode
    let ret := reply.ret
    if ret = SC_OK then
      { state := st, ret := ret, sdkCalls := [call],
        out := some
          (match mode with
           | .eAutoLevelOff => 0
           | .eAutoLevelR => 1
           | .eAutoLevelL => 2
           | .eAutoLevelRL => 3
           | .other _ => 0) }
    else { state := st, ret := ret, sdkCalls := [call] }

/-- The operation `Camera_SetAutoLevelValue`; the value is clamped to `0..65535`. -/
def Camera_SetAutoLevelValue (sdk : SDK) (st : State) (handle : CameraHandle) (mode : Int)
    (value : Int) : Outcome Unit :=
  let sdkHandle := GetSDKHandle st handle
  if sdkHandle = 0 then { state := st, ret := -1 }
  else
    let value1 := if value < 0 then 0 else value
    let value2 := if value1 > 65535 then 65535 else value1
    let levelMode : SC_AutoLevelMode := if mode = 1 then .eAutoLevelR else .eAutoLevelL
    let call := SdkCall.SC_SetAutoLevelValue sdkHandle levelMode value2
    { state := st, ret := (sdk call).ret, sdkCalls := [call] }

/-- The operation `Camera_GetAutoLevelValue`. -/
def Camera_GetAutoLevelValue (sdk : SDK) (st : State) (handle : CameraHandle) (mode : Int)
    (pValue : Nat) : Outcome Int :=
  let sdkHandle := GetSDKHandle st handle
  if sdkHandle = 0 ∨ pValue = 0 then { state := st, ret := -1 }
  else
    let levelMode : SC_AutoLevelMode := if mode = 1 then .eAutoLevelR else .eAutoLevelL
    let call := SdkCall.SC_GetAutoLevelValue sdkHandle levelMode
    let reply := sdk call
    let ret := reply.ret
    if ret = SC_OK then { state := st, ret := ret, out := some reply.intValue, sdkCalls := [call] }
    else { state := st, ret := ret, sdkCalls := [call] }

/-- The operation `Camera_ExecuteAutoLevel`. -/
def Camera_ExecuteAutoLevel (sdk : SDK) (st : State) (handle : CameraHandle) (mode : Int) :
    Outcome Unit :=
  let sdkHandle := GetSDKHandle st handle
  if sdkHandle = 0 then { state := st, ret := -1 }
  else
    let levelMode : SC_AutoLevelMode :=
      if mode = 1 then .eAutoLevelR
      else if mode = 2 then .eAutoLevelL
      else if mode = 3 then .eAutoLevelRL
      else .eAutoLevelRL
    let call := SdkCall.SC_ExecuteAutoLevel sdkHandle levelMode
    { state := st, ret := (sdk call).ret, sdkCalls := [call] }

/-- The operation `Camera_SetImageProcessingEnabled`. -/
def Camera_SetImageProcessingEnabled (sdk : SDK) (st : State) (handle : CameraHandle) (feature : Int) (enable : Int) :
    Outcome Unit :=
  let sdkHandle := GetSDKHandle st handle
  if sdkHandle = 0 then { state := st, ret := -1 }
  else
    let call := SdkCall.SC_SetImageProcessingFeatureEnabled sdkHandle feature (decide (enable ≠ 0))
    { state := st, ret := (sdk call).ret, sdkCalls := [call] }

/-- The operation `Camera_GetImageProcessingEnabled`. -/
def Camera_GetImageProcessingEnabled (sdk : SDK) (st : State) (handle : CameraHandle) (feature : Int) (pEnable : Nat) :
    Outcome Int :=
  let sdkHandle := GetSDKHandle st handle
  if sdkHandle = 0 ∨ pEnable = 0 then { state := st, ret := -1 }
  else
    let call := SdkCall.SC_GetImageProcessingFeatureEnabled sdkHandle feature
    let reply := sdk call
    let ret := reply.ret
    if ret = SC_OK then { state := st, ret := ret, out := some (if reply.flag then 1 else 0), sdkCalls := [call] }
    else { state := st, ret := ret, sdkCalls := [call] }

/-- The operation `Camera_SetImageProcessingValue`. -/
def Camera_SetImageProcessingValue (sdk : SDK) (st : State) (handle : CameraHandle) (feature : Int) (value : Int) :
    Outcome Unit :=
  let sdkHandle := GetSDKHandle st handle
  if sdkHandle = 0 then { state := st, ret := -1 }
  else
    let call := SdkCall.SC_SetImageProcessingFeatureValue sdkHandle feature value
    { state := st, ret := (sdk call).ret, sdkCalls := [call] }

/-- The operation `Camera_GetImageProcessingValue`. -/
def Camera_GetImageProcessingValue (sdk : SDK) (st : State) (handle : CameraHandle) (feature : Int) (pValue : Nat) :
    Outcome Int :=
  let sdkHandle := GetSDKHandle st handle
  if sdkHandle = 0 ∨ pValue = 0 then { state := st, ret := -1 }
  else
    let call := SdkCall.SC_GetImageProcessingFeatureValue sdkHandle feature
    let reply := sdk call
    let ret := reply.ret
    if ret = SC_OK then { state := st, ret := ret, out := some (reply.intValue), sdkCalls := [call] }
    else { state := st, ret := ret, sdkCalls := [call] }

/-- The operation `Camera_SetPseudoColorMap`. -/
def Camera_SetPseudoColorMap (sdk : SDK) (st : State) (handle : CameraHandle) (mapMode : Int) :
    Outcome Unit :=
  let sdkHandle := GetSDKHandle st handle
  if sdkHandle = 0 then { state := st, ret := -1 }
  else
    let call := SdkCall.SC_SetPseudoColorMap sdkHandle mapMode
    { state := st, ret := (sdk call).ret, sdkCalls := [call] }

/-- The operation `Camera_GetPseudoColorMap`. -/
def Camera_GetPseudoColorMap (sdk : SDK) (st : State) (handle : CameraHandle) (pMapMode : Nat) :
    Outcome Int :=
  let sdkHandle := GetSDKHandle st handle
  if sdkHandle = 0 ∨ pMapMode = 0 then { state := st, ret := -1 }
  else
    let call := SdkCall.SC_GetPseudoColorMap sdkHandle
    let reply := sdk call
    let ret := reply.ret
    if ret = SC_OK then { state := st, ret := ret, out := some (reply.intValue), sdkCalls := [call] }
    else { state := st, ret := ret, sdkCalls := [call] }

/-- The operation `Camera_SetROI`. -/
def Camera_SetROI (sdk : SDK) (st : State) (handle : CameraHandle) (width : Int) (height : Int) (offsetX : Int) (offsetY : Int) :
    Outcome Unit :=
  let sdkHandle := GetSDKHandle st handle
  if sdkHandle = 0 then { state := st, ret := -1 }
  else
    let call := SdkCall.SC_SetROI sdkHandle width height offsetX offsetY
    { state := st, ret := (sdk call).ret, sdkCalls := [call] }

/-! ## Event callback registration -/

/-- The operation `Camera_SubscribeConnectArg`; `proc` is the user's function pointer. -/
def Camera_SubscribeConnectArg (sdk : SDK) (st : State) (handle : CameraHandle) (proc : Nat)
    (pUser : Nat) : Outcome Unit :=
  let sdkHandle := GetSDKHandle st handle
  if sdkHandle = 0 ∨ proc = 0 then { state := st, ret := -1 }
  else
    let info : CallbackInfo := { userCallback := proc, userData := pUser }
    let st1 : State :=
      { st with g_connectCallbackMap := st.g_connectCallbackMap.assign handle info }
    let call := SdkCall.SC_SubscribeConnectArg sdkHandle .OnConnectCallback handle
    { state := st1, ret := (sdk call).ret, sdkCalls := [call] }

/-- The operation `Camera_SubscribeParamUpdateArg`. -/
def Camera_SubscribeParamUpdateArg (sdk : SDK) (st : State) (handle : CameraHandle)
    (proc : Nat) (pUser : Nat) : Outcome Unit :=
  let sdkHandle := GetSDKHandle st handle
  if sdkHandle = 0 ∨ proc = 0 then { state := st, ret := -1 }
  else
    let info : CallbackInfo := { userCallback := proc, userData := pUser }
    let st1 : State :=
      { st with g_paramUpdateCallbackMap := st.g_paramUpdateCallbackMap.assign handle info }
    let call := SdkCall.SC_SubscribeParamUpdateArg sdkHandle .OnParamUpdateCallback handle
    { state := st1, ret := (sdk call).ret, sdkCalls := [call] }

/-- The operation `Camera_SubscribeExportNotify`. -/
def Camera_SubscribeExportNotify (sdk : SDK) (st : State) (handle : CameraHandle)
    (proc : Nat) (pUser : Nat) : Outcome Unit :=
  let sdkHandle := GetSDKHandle st handle
  if sdkHandle = 0 ∨ proc = 0 then { state := st, ret := -1 }
  else
    let info : CallbackInfo := { userCallback := proc, userData := pUser }
    let st1 : State :=
      { st with g_exportCallbackMap := st.g_exportCallbackMap.assign handle info }
    let call := SdkCall.SC_SubscribeExportNotify sdkHandle .OnExportCallback handle
    { state := st1, ret := (sdk call).ret, sdkCalls := [call] }

/-- The operation `Camera_AttachProcessedGrabbing`. -/
def Camera_AttachProcessedGrabbing (sdk : SDK) (st : State) (handle : CameraHandle)
    (proc : Nat) (pUser : Nat) : Outcome Unit :=
  let sdkHandle := GetSDKHandle st handle
  if sdkHandle = 0 ∨ proc = 0 then { state := st, ret := -1 }
  else
    let info : CallbackInfo := { userCallback := proc, userData := pUser }
    let st1 : State :=
      { st with
        g_processedFrameCallbackMap := st.g_processedFrameCallbackMap.assign handle info }
    let call := SdkCall.SC_AttachProImgGrabbing sdkHandle .OnProcessedFrameCallback handle
    { state := st1, ret := (sdk call).ret, sdkCalls := [call] }

/-! ## All handle-taking operations as one family -/

/-- What a facade call does apart from the value it stores: the globals afterwards,
the returned code, the SDK calls made, and whether it stored through an output
pointer. -/
structure Effect where
  state : State
  ret : Int
  sdkCalls : List SdkCall
  stored : Bool

/-- The effect of an outcome. -/
def Outcome.effect {α : Type} (o : Outcome α) : Effect :=
  { state := o.state, ret := o.ret, sdkCalls := o.sdkCalls, stored := o.out.isSome }

/-- The facade operations of `Revealer.cpp` that take a `CameraHandle`, each with its
other arguments (named as the operation without the `Camera_` prefix).
`Camera_DetachGrabbing` is declared in `Revealer.h` and has no definition in the
sources, so it is not listed. -/
inductive HandleOp
  | DestroyHandle
  | Open
  | Close
  | DownloadGenICamXML (pFullPath : Option String)
  | GetDeviceInfo (pDevInfo : Nat)
  | StartGrabbing
  | StopGrabbing
  | IsGrabbing (pIsGrabbing : Nat)
  | SetBufferCount (bufferCount : Nat)
  | GetFrame (pImage : Nat) (timeout : Nat)
  | ReleaseFrame (pImage : Option ImageData)
  | GetProcessedFrame (pImage : Nat) (timeout : Nat)
  | OpenRecord (fileNameSize : Nat) (pParam : Option RecordParam)
  | CloseRecord
  | SetExportCacheSize (cacheSizeInByte : Nat)
  | FeatureIsAvailable (featureName : Option String)
  | FeatureIsReadable (featureName : Option String)
  | FeatureIsWriteable (featureName : Option String)
  | GetFeatureType (featureName : Option String) (pType : Nat)
  | GetIntFeatureValue (featureName : Option String) (pValue : Nat)
  | GetIntFeatureMin (featureName : Option String) (pValue : Nat)
  | GetIntFeatureMax (featureName : Option String) (pValue : Nat)
  | GetIntFeatureInc (featureName : Option String) (pValue : Nat)
  | SetIntFeatureValue (featureName : Option String) (value : Int)
  | GetFloatFeatureValue (featureName : Option String) (pValue : Nat)
  | GetFloatFeatureMin (featureName : Option String) (pValue : Nat)
  | GetFloatFeatureMax (featureName : Option String) (pValue : Nat)
  | GetFloatFeatureInc (featureName : Option String) (pValue : Nat)
  | SetFloatFeatureValue (featureName : Option String) (value : Nat)
  | GetEnumFeatureValue (featureName : Option String) (pValue : Nat)
  | SetEnumFeatureValue (featureName : Option String) (value : Nat)
  | GetEnumFeatureEntryNum (featureName : Option String) (pNum : Nat)
  | GetEnumFeatureEntrys (featureName : Option String) (pEntryNum : Option Nat)
      (pEnumValues : Option (List Nat)) (pSymbols : Option (List (Option (List Nat))))
      (symbolSize : Int)
  | GetEnumFeatureSymbol (featureName : Option String) (symbol : Nat) (symbolSize : Int)
  | SetEnumFeatureSymbol (featureName : Option String) (symbol : Option String)
  | GetBoolFeatureValue (featureName : Option String) (pValue : Nat)
  | SetBoolFeatureValue (featureName : Option String) (value : Int)
  | GetStringFeatureValue (featureName : Option String) (pValue : Nat) (valueSize : Int)
  | SetStringFeatureValue (featureName : Option String) (pValue : Option String)
  | ExecuteCommandFeature (featureName : Option String)
  | SetAutoExposureParam (mode : Int) (targetGray : Int)
  | AutoExposure (pActualGray : Nat)
  | SetAutoLevels (mode : Int)
  | GetAutoLevels (pMode : Nat)
  | SetAutoLevelValue (mode : Int) (value : Int)
  | GetAutoLevelValue (mode : Int) (pValue : Nat)
  | ExecuteAutoLevel (mode : Int)
  | SetImageProcessingEnabled (feature : Int) (enable : Int)
  | GetImageProcessingEnabled (feature : Int) (pEnable : Nat)
  | SetImageProcessingValue (feature : Int) (value : Int)
  | GetImageProcessingValue (feature : Int) (pValue : Nat)
  | SetPseudoColorMap (mapMode : Int)
  | GetPseudoColorMap (pMapMode : Nat)
  | SetROI (width : Int) (height : Int) (offsetX : Int) (offsetY : Int)
  | SubscribeConnectArg (proc : Nat) (pUser : Nat)
  | SubscribeParamUpdateArg (proc : Nat) (pUser : Nat)
  | SubscribeExportNotify (proc : Nat) (pUser : Nat)
  | AttachProcessedGrabbing (proc : Nat) (pUser : Nat)

/-- The three feature probes, whose return value is a truth value and not an error
code. -/
def HandleOp.isProbe : HandleOp → Bool
  | .FeatureIsAvailable _ => true
  | .FeatureIsReadable _ => true
  | .FeatureIsWriteable _ => true
  | _ => false

/-- Runs a handle-taking operation on `handle`. -/
def HandleOp.run (sdk : SDK) (st : State) (handle : CameraHandle) : HandleOp → Effect
  | .DestroyHandle =>
    (Revealer.Camera_DestroyHandle sdk st handle).effect
  | .Open =>
    (Revealer.Camera_Open sdk st handle).effect
  | .Close =>
    (Revealer.Camera_Close sdk st handle).effect
  | .DownloadGenICamXML pFullPath =>
    (Revealer.Camera_DownloadGenICamXML sdk st handle pFullPath).effect
  | .GetDeviceInfo pDevInfo =>
    (Revealer.Camera_GetDeviceInfo sdk st handle pDevInfo).effect
  | .StartGrabbing =>
    (Revealer.Camera_StartGrabbing sdk st handle).effect
  | .StopGrabbing =>
    (Revealer.Camera_StopGrabbing sdk st handle).effect
  | .IsGrabbing pIsGrabbing =>
    (Revealer.Camera_IsGrabbing sdk st handle pIsGrabbing).effect
  | .SetBufferCount bufferCount =>
    (Revealer.Camera_SetBufferCount sdk st handle bufferCount).effect
  | .GetFrame pImage timeout =>
    (Revealer.Camera_GetFrame sdk st handle pImage timeout).effect
  | .ReleaseFrame pImage =>
    (Revealer.Camera_ReleaseFrame sdk st handle pImage).effect
  | .GetProcessedFrame pImage timeout =>
    (Revealer.Camera_GetProcessedFrame sdk st handle pImage timeout).effect
  | .OpenRecord fileNameSize pParam =>
    (Revealer.Camera_OpenRecord fileNameSize sdk st handle pParam).effect
  | .CloseRecord =>
    (Revealer.Camera_CloseRecord sdk st handle).effect
  | .SetExportCacheSize cacheSizeInByte =>
    (Revealer.Camera_SetExportCacheSize sdk st handle cacheSizeInByte).effect
  | .FeatureIsAvailable featureName =>
    (Revealer.Camera_FeatureIsAvailable sdk st handle featureName).effect
  | .FeatureIsReadable featureName =>
    (Revealer.Camera_FeatureIsReadable sdk st handle featureName).effect
  | .FeatureIsWriteable featureName =>
    (Revealer.Camera_FeatureIsWriteable sdk st handle featureName).effect
  | .GetFeatureType featureName pType =>
    (Revealer.Camera_GetFeatureType sdk st handle featureName pType).effect
  | .GetIntFeatureValue featureName pValue =>
    (Revealer.Camera_GetIntFeatureValue sdk st handle featureName pValue).effect
  | .GetIntFeatureMin featureName pValue =>
    (Revealer.Camera_GetIntFeatureMin sdk st handle featureName pValue).effect
  | .GetIntFeatureMax featureName pValue =>
    (Revealer.Camera_GetIntFeatureMax sdk st handle featureName pValue).effect
  | .GetIntFeatureInc featureName pValue =>
    (Revealer.Camera_GetIntFeatureInc sdk st handle featureName pValue).effect
  | .SetIntFeatureValue featureName value =>
    (Revealer.Camera_SetIntFeatureValue sdk st handle featureName value).effect
  | .GetFloatFeatureValue featureName pValue =>
    (Revealer.Camera_GetFloatFeatureValue sdk st handle featureName pValue).effect
  | .GetFloatFeatureMin featureName pValue =>
    (Revealer.Camera_GetFloatFeatureMin sdk st handle featureName pValue).effect
  | .GetFloatFeatureMax featureName pValue =>
    (Revealer.Camera_GetFloatFeatureMax sdk st handle featureName pValue).effect
  | .GetFloatFeatureInc featureName pValue =>
    (Revealer.Camera_GetFloatFeatureInc sdk st handle featureName pValue).effect
  | .SetFloatFeatureValue featureName value =>
    (Revealer.Camera_SetFloatFeatureValue sdk st handle featureName value).effect
  | .GetEnumFeatureValue featureName pValue =>
    (Revealer.Camera_GetEnumFeatureValue sdk st handle featureName pValue).effect
  | .SetEnumFeatureValue featureName value =>
    (Revealer.Camera_SetEnumFeatureValue sdk st handle featureName value).effect
  | .GetEnumFeatureEntryNum featureName pNum =>
    (Revealer.Camera_GetEnumFeatureEntryNum sdk st handle featureName pNum).effect
  | .GetEnumFeatureEntrys featureName pEntryNum pEnumValues pSymbols symbolSize =>
    (Revealer.Camera_GetEnumFeatureEntrys sdk st handle featureName pEntryNum pEnumValues
      pSymbols symbolSize).effect
  | .GetEnumFeatureSymbol featureName symbol symbolSize =>
    (Revealer.Camera_GetEnumFeatureSymbol sdk st handle featureName symbol symbolSize).effect
  | .SetEnumFeatureSymbol featureName symbol =>
    (Revealer.Camera_SetEnumFeatureSymbol sdk st handle featureName symbol).effect
  | .GetBoolFeatureValue featureName pValue =>
    (Revealer.Camera_GetBoolFeatureValue sdk st handle featureName pValue).effect
  | .SetBoolFeatureValue featureName value =>
    (Revealer.Camera_SetBoolFeatureValue sdk st handle featureName value).effect
  | .GetStringFeatureValue featureName pValue valueSize =>
    (Revealer.Camera_GetStringFeatureValue sdk st handle featureName pValue valueSize).effect
  | .SetStringFeatureValue featureName pValue =>
    (Revealer.Camera_SetStringFeatureValue sdk st handle featureName pValue).effect
  | .ExecuteCommandFeature featureName =>
    (Revealer.Camera_ExecuteCommandFeature sdk st handle featureName).effect
  | .SetAutoExposureParam mode targetGray =>
    (Revealer.Camera_SetAutoExposureParam sdk st handle mode targetGray).effect
  | .AutoExposure pActualGray =>
    (Revealer.Camera_AutoExposure sdk st handle pActualGray).effect
  | .SetAutoLevels mode =>
    (Revealer.Camera_SetAutoLevels sdk st handle mode).effect
  | .GetAutoLevels pMode =>
    (Revealer.Camera_GetAutoLevels sdk st handle pMode).effect
  | .SetAutoLevelValue mode value =>
    (Revealer.Camera_SetAutoLevelValue sdk st handle mode value).effect
  | .GetAutoLevelValue mode pValue =>
    (Revealer.Camera_GetAutoLevelValue sdk st handle mode pValue).effect
  | .ExecuteAutoLevel mode =>
    (Revealer.Camera_ExecuteAutoLevel sdk st handle mode).effect
  | .SetImageProcessingEnabled feature enable =>
    (Revealer.Camera_SetImageProcessingEnabled sdk st handle feature enable).effect
  | .GetImageProcessingEnabled feature pEnable =>
    (Revealer.Camera_GetImageProcessingEnabled sdk st handle feature pEnable).effect
  | .SetImageProcessingValue feature value =>
    (Revealer.Camera_SetImageProcessingValue sdk st handle feature value).effect
  | .GetImageProcessingValue feature pValue =>
    (Revealer.Camera_GetImageProcessingValue sdk st handle feature pValue).effect
  | .SetPseudoColorMap mapMode =>
    (Revealer.Camera_SetPseudoColorMap sdk st handle mapMode).effect
  | .GetPseudoColorMap pMapMode =>
    (Revealer.Camera_GetPseudoColorMap sdk st handle pMapMode).effect
  | .SetROI width height offsetX offsetY =>
    (Revealer.Camera_SetROI sdk st handle width height offsetX offsetY).effect
  | .SubscribeConnectArg proc pUser =>
    (Revealer.Camera_SubscribeConnectArg sdk st handle proc pUser).effect
  | .SubscribeParamUpdateArg proc pUser =>
    (Revealer.Camera_SubscribeParamUpdateArg sdk st handle proc pUser).effect
  | .SubscribeExportNotify proc pUser =>
    (Revealer.Camera_SubscribeExportNotify sdk st handle proc pUser).effect
  | .AttachProcessedGrabbing proc pUser =>
    (Revealer.Camera_AttachProcessedGrabbing sdk st handle proc pUser).effect

/-! ## Reachable states -/

/-- The states the globals can be in: their initial values, and what any facade call
leaves behind, whatever the SDK answers. -/
inductive Reachable : State → Prop
  | init : Reachable {}
  | release (st : State) : Reachable st → Reachable (Camera_Release st).1
  | enumDevices (sdk : SDK) (st : State) (pDeviceCount interfaceType : Nat) :
      Reachable st → Reachable (Camera_EnumDevices sdk st pDeviceCount interfaceType).state
  | createHandle (sdk : SDK) (st : State) (pHandle : Nat) (deviceIndex : Int) :
      Reachable st → Reachable (Camera_CreateHandle sdk st pHandle deviceIndex).state
  | handleOp (sdk : SDK) (st : State) (handle : CameraHandle) (op : HandleOp) :
      Reachable st → Reachable (HandleOp.run sdk st handle op).state

/-- Every entry of the handle registry maps a non-null token to itself. -/
def HandlesValid (st : State) : Prop :=
  ∀ h s, st.g_handleMap.find h = some s → s = h ∧ h ≠ 0

/-! ## Events delivered by the SDK -/

/-- An invocation of one of the four trampolines by the SDK, with the arguments the
SDK passes. -/
inductive SdkEvent
  | connect (pConnectArg : Option SC_SConnectArg) (pUser : Nat)
  | paramUpdate (pParamUpdateArg : Option SC_SParamUpdateArg) (pUser : Nat)
  | exportNotify (progress : Int) (msgText : Option String) (notify : Int) (pUser : Nat)
  | processedFrame (pFrame : Option SC_Frame) (pUser : Nat)
deriving DecidableEq, Repr

/-- The correlation token an event carries (the `pUser` argument of the trampoline). -/
def SdkEvent.pUser : SdkEvent → Nat
  | .connect _ pUser => pUser
  | .paramUpdate _ pUser => pUser
  | .exportNotify _ _ _ pUser => pUser
  | .processedFrame _ pUser => pUser

/-- The callback registry the trampoline of an event looks the token up in. -/
def SdkEvent.registry (st : State) : SdkEvent → StdMap CallbackInfo
  | .connect _ _ => st.g_connectCallbackMap
  | .paramUpdate _ _ => st.g_paramUpdateCallbackMap
  | .exportNotify _ _ _ _ => st.g_exportCallbackMap
  | .processedFrame _ _ => st.g_processedFrameCallbackMap

/-- A payload the trampoline gets past its checks and can translate: the payload
pointer is non-null, for a parameter update the name list is non-null too, and a
frame has a non-zero height. An export event has no pointer payload. -/
def SdkEvent.wellFormed : SdkEvent → Bool
  | .connect pConnectArg _ => pConnectArg.isSome
  | .paramUpdate pParamUpdateArg _ =>
    match pParamUpdateArg with
    | some arg => arg.pParamNameList.isSome
    | none => false
  | .exportNotify _ _ _ _ => true
  | .processedFrame pFrame _ =>
    match pFrame with
    | some frame => frame.frameInfo.height != 0
    | none => false

/-- The number of loop rounds the trampoline of an event makes around the user
callback: `nParamCnt` for a parameter update, one for the other kinds. -/
def SdkEvent.fanOut : SdkEvent → Nat
  | .paramUpdate (some arg) _ => arg.nParamCnt
  | .paramUpdate none _ => 0
  | _ => 1

/-- What the delivery of an event leaves: the globals afterwards and the user
callbacks invoked, in order (`none` when the trampoline runs into undefined
behaviour). -/
structure Delivery where
  state : State
  calls : Option (List UserCall)
deriving DecidableEq, Repr

/-- The SDK delivers an event: the trampoline of its kind runs. None of the four
trampolines contains a write to a global; they only read the registry with `find`. -/
def SdkEvent.deliver (st : State) : SdkEvent → Delivery
  | .connect pConnectArg pUser =>
    { state := st, calls := some (OnConnectCallback st pConnectArg pUser) }
  | .paramUpdate pParamUpdateArg pUser =>
    { state := st, calls := some (OnParamUpdateCallback st pParamUpdateArg pUser) }
  | .exportNotify progress msgText notify pUser =>
    { state := st, calls := some (OnExportCallback st progress msgText notify pUser) }
  | .processedFrame pFrame pUser =>
    { state := st, calls := OnProcessedFrameCallback st pFrame pUser }

/-- The callback a user-callback invocation calls and the user data it passes. -/
def UserCall.target : UserCall → Nat × Nat
  | .connect callback _ _ pUser => (callback, pUser)
  | .paramUpdate callback _ pUser => (callback, pUser)
  | .exportEvent callback _ _ pUser => (callback, pUser)
  | .frame callback _ pUser => (callback, pUser)

/-! ## The two lease operations as one family -/

/-- The SDK call a lease starts with: `SC_GetProcessedFrame` for the processed
variant, `SC_GetFrame` otherwise. -/
def leaseCall (processed : Bool) (h : SC_DEV_HANDLE) (timeout : Nat) : SdkCall :=
  match processed with
  | true => SdkCall.SC_GetProcessedFrame h timeout
  | false => SdkCall.SC_GetFrame h timeout

/-- Runs `Camera_GetProcessedFrame` (for `processed = true`) or `Camera_GetFrame`. -/
def lease (processed : Bool) (sdk : SDK) (st : State) (handle : CameraHandle) (pImage : Nat)
    (timeout : Nat) : Outcome ImageData :=
  match processed with
  | true => Camera_GetProcessedFrame sdk st handle pImage timeout
  | false => Camera_GetFrame sdk st handle pImage timeout

/-! ## Explicit detach -/

/-- Modelled from the spec: `Camera_DetachGrabbing` is declared in `Revealer.h`, as the
cancellation of the processed-image callback registration, and is defined nowhere in
the sources. The spec lets every operation on a handle that does not resolve fail
with the generic code and no effect, and lets an explicit detach destroy the
frame-delivery binding of the handle. The spec names no SDK call for it, so none is
modelled. -/
def Camera_DetachGrabbing (st : State) (handle : CameraHandle) : Outcome Unit :=
  let sdkHandle := GetSDKHandle st handle
  if sdkHandle = 0 then { state := st, ret := -1 }
  else
    { state :=
        { st with g_processedFrameCallbackMap := st.g_processedFrameCallbackMap.erase handle },
      ret := SC_OK }

/-! ## Well-formed callback registries -/

/-- Every entry stored in the callback registry `m` belongs to a handle that has an
entry in the handle registry `handles`, and holds a non-null user callback. -/
def RegistryValid (handles : StdMap SC_DEV_HANDLE) (m : StdMap CallbackInfo) : Prop :=
  ∀ e ∈ m.entries, handles.find e.1 ≠ none ∧ e.2.userCallback ≠ 0

/-- All four callback registries are well-formed with respect to the handle registry. -/
def BindingsValid (st : State) : Prop :=
  RegistryValid st.g_handleMap st.g_connectCallbackMap ∧
  RegistryValid st.g_handleMap st.g_paramUpdateCallbackMap ∧
  RegistryValid st.g_handleMap st.g_exportCallbackMap ∧
  RegistryValid st.g_handleMap st.g_processedFrameCallbackMap

/-! ## The SDK's side of the entry query -/

/-- The entry list an SDK hands back from `SC_GetEnumFeatureEntrys` when the property
has the entries `entries`, as the spec describes the query: the first
`min(buffer size, number of entries)` entries of the received list are filled, the
others and the size field are left as received. -/
def fillEntryList (entries : List SC_EnumEntryInfo) (received : SC_EnumEntryList) :
    SC_EnumEntryList :=
  { enumEntryBufferSize := received.enumEntryBufferSize
    pEnumEntryInfo :=
      entries.take received.enumEntryBufferSize ++ received.pEnumEntryInfo.drop entries.length }

/-! ## Stub collaborators and sample states used in the concrete checks -/

/-- A stub SDK that answers every call with success and the device handle `7`. -/
def sdkOk7 : SDK := fun _ => { ret := 0, handle := 7 }

/-- A stub SDK that answers every call with success and the device handle `9`. -/
def sdkOk9 : SDK := fun _ => { ret := 0, handle := 9 }

/-- A stub SDK that answers every call with success and a null device handle. -/
def sdkOkNull : SDK := fun _ => { ret := 0, handle := 0 }

/-- A stub SDK that answers every call with the failure code `c`. -/
def sdkFail (c : Int) : SDK := fun _ => { ret := c }

/-- A state after one enumeration that found a single device and before any handle
is created. -/
def stEnumerated : State :=
  { g_deviceList := { devNum := 1, pDevInfo := [{ cameraName := "Gloria 4.2", cameraKey := "K0" }] } }

/-- The state `stEnumerated` with the handle `7` registered and bound in all four
callback registries, and a second handle `9` registered and bound as well. -/
def stBound : State :=
  { stEnumerated with
    g_handleMap := ⟨[(7, 7), (9, 9)]⟩
    g_connectCallbackMap := ⟨[(7, ⟨11, 21⟩), (9, ⟨12, 22⟩)]⟩
    g_paramUpdateCallbackMap := ⟨[(7, ⟨13, 23⟩), (9, ⟨14, 24⟩)]⟩
    g_exportCallbackMap := ⟨[(7, ⟨15, 25⟩), (9, ⟨16, 26⟩)]⟩
    g_processedFrameCallbackMap := ⟨[(7, ⟨17, 27⟩), (9, ⟨18, 28⟩)]⟩ }

/-- A native frame that passes the validity test of the lease operations. -/
def sampleFrame : SC_Frame :=
  { pData := 4096,
    frameInfo :=
      { width := 4, height := 2, size := 18, pixelFormat := 17, frameId := 5, timeStamp := 1000 } }

/-- A native frame of `2^32 - 1` bytes and height `2`, whose fields are values of the
header's types. -/
def hugeFrame : SC_Frame :=
  { pData := 4096,
    frameInfo :=
      { width := 4, height := 2, size := 4294967295, pixelFormat := 17, frameId := 5,
        timeStamp := 1000 } }

/-- A native frame of zero height, as a non-null payload. -/
def flatFrame : SC_Frame :=
  { pData := 4096, frameInfo := { width := 4, height := 0, size := 16 } }

/-- A stub SDK that answers every call with success and the native frame `f`. -/
def sdkFrame (f : SC_Frame) : SDK := fun _ => { ret := 0, frame := f }

/-- A stub SDK for a property with the entries `entries`: the entry query fills the
received list, the count query stores the number of entries. -/
def sdkEntries (entries : List SC_EnumEntryInfo) : SDK := fun call =>
  match call with
  | SdkCall.SC_GetEnumFeatureEntrys _ _ entryList =>
    { ret := 0, entryList := fillEntryList entries entryList }
  | SdkCall.SC_GetEnumFeatureEntryNum _ _ => { ret := 0, stored := some entries.length }
  | _ => {}

/-- A stub SDK that answers every call with success and the auto-level mode `mode`. -/
def sdkLevel (mode : SC_AutoLevelMode) : SDK := fun _ => { ret := 0, levelMode := mode }

/-- A stub SDK whose device scan finds the two devices `Gloria 4.2` and `Gloria 9`. -/
def sdkScan : SDK := fun _ =>
  { ret := 0,
    deviceList :=
      { devNum := 2,
        pDevInfo := [{ cameraName := "Gloria 4.2", cameraKey := "K1" },
                     { cameraName := "Gloria 9", cameraKey := "K2" }] } }

/-! ## Facts about the map model -/

theorem StdMap.find_assign_self {V : Type} (m : StdMap V) (k : CameraHandle) (v : V) :
    (m.assign k v).find k = some v := by
  simp [StdMap.find, StdMap.assign]

theorem StdMap.find_erase_self {V : Type} (m : StdMap V) (k : CameraHandle) :
    (m.erase k).find k = none := by
  simp [StdMap.find, StdMap.erase, List.find?_eq_none]

theorem StdMap.find_erase_ne {V : Type} (m : StdMap V) (k k' : CameraHandle) (h : k' ≠ k) :
    (m.erase k).find k' = m.find k' := by
  obtain ⟨l⟩ := m
  simp only [StdMap.find, StdMap.erase]
  congr 1
  induction l with
  | nil => rfl
  | cons e l ih =>
    obtain ⟨a, b⟩ := e
    by_cases hk : a = k
    · subst hk
      have hk' : ¬ a = k' := fun h' => h h'.symm
      simp [List.filter_cons, List.find?_cons, hk', ih]
    · by_cases hk' : a = k'
      · subst hk'
        simp [List.filter_cons, List.find?_cons, hk]
      · simp [List.filter_cons, List.find?_cons, hk, hk', ih]

theorem StdMap.find_assign_ne {V : Type} (m : StdMap V) (k k' : CameraHandle) (v : V)
    (h : k' ≠ k) : (m.assign k v).find k' = m.find k' := by
  have h1 : (m.assign k v).find k' = (m.erase k).find k' := by
    have hk : ¬ k = k' := fun h' => h h'.symm
    simp [StdMap.find, StdMap.assign, List.find?_cons, hk]
  rw [h1, StdMap.find_erase_ne m k k' h]

theorem StdMap.bindingsOf_assign_self {V : Type} (m : StdMap V) (k : CameraHandle) (v : V) :
    (m.assign k v).bindingsOf k = [v] := by
  obtain ⟨l⟩ := m
  simp [StdMap.bindingsOf, StdMap.assign, StdMap.erase, List.filter_cons, List.filter_filter]

theorem StdMap.count_assign_self {V : Type} (m : StdMap V) (k : CameraHandle) (v : V) :
    (m.assign k v).count k = 1 := by
  obtain ⟨l⟩ := m
  simp [StdMap.count, StdMap.assign, StdMap.erase, List.filter_cons, List.filter_filter]

theorem StdMap.count_erase_self {V : Type} (m : StdMap V) (k : CameraHandle) :
    (m.erase k).count k = 0 := by
  obtain ⟨l⟩ := m
  simp [StdMap.count, StdMap.erase, List.filter_filter]

theorem GetSDKHandle_of_find_none (st : State) (H : CameraHandle)
    (h : st.g_handleMap.find H = none) : GetSDKHandle st H = 0 := by
  simp [GetSDKHandle, h]

theorem GetSDKHandle_of_find_some (st : State) (H : CameraHandle) (s : SC_DEV_HANDLE)
    (h : st.g_handleMap.find H = some s) : GetSDKHandle st H = s := by
  simp [GetSDKHandle, h]

theorem Camera_CreateHandle_of_out (sdk : SDK) (st : State) (pHandle : Nat)
    (deviceIndex : Int) (t : CameraHandle)
    (hout : (Camera_CreateHandle sdk st pHandle deviceIndex).out = some t) :
    (sdk (SdkCall.SC_CreateHandle .eModeByCameraKey
      (st.g_deviceList.pDevInfo.getD deviceIndex.toNat default).cameraKey)).handle = t ∧
    t ≠ 0 ∧
    Camera_CreateHandle sdk st pHandle deviceIndex =
      { state := { st with g_handleMap := st.g_handleMap.assign t t },
        ret := 0, out := some t,
        sdkCalls := [SdkCall.SC_CreateHandle .eModeByCameraKey
          (st.g_deviceList.pDevInfo.getD deviceIndex.toNat default).cameraKey] } := by
  unfold Camera_CreateHandle at hout ⊢
  by_cases hguard : pHandle = 0 ∨ deviceIndex < 0 ∨
      deviceIndex ≥ (st.g_deviceList.devNum : Int)
  · rw [if_pos hguard] at hout
    exact absurd hout (by simp)
  · rw [if_neg hguard] at hout ⊢
    dsimp only at hout ⊢
    by_cases hok : (sdk (SdkCall.SC_CreateHandle .eModeByCameraKey
        (st.g_deviceList.pDevInfo.getD deviceIndex.toNat default).cameraKey)).ret = SC_OK ∧
        (sdk (SdkCall.SC_CreateHandle .eModeByCameraKey
        (st.g_deviceList.pDevInfo.getD deviceIndex.toNat default).cameraKey)).handle ≠ 0
    · rw [if_pos hok] at hout ⊢
      dsimp only at hout ⊢
      have ht : (sdk (SdkCall.SC_CreateHandle .eModeByCameraKey
        (st.g_deviceList.pDevInfo.getD deviceIndex.toNat default).cameraKey)).handle = t :=
        Option.some.inj hout
      refine ⟨ht, ?_, ?_⟩
      · rw [← ht]; exact hok.2
      · rw [ht, hok.1]; rfl
    · rw [if_neg hok] at hout
      exact absurd hout (by simp)

theorem Camera_DestroyHandle_of_live (sdk : SDK) (st : State) (H : CameraHandle)
    (s : SC_DEV_HANDLE) (hfind : st.g_handleMap.find H = some s) (hs : s ≠ 0) :
    Camera_DestroyHandle sdk st H =
      if (sdk (SdkCall.SC_DestroyHandle s)).ret = SC_OK then
        { state :=
            { st with
              g_handleMap := st.g_handleMap.erase H
              g_connectCallbackMap := st.g_connectCallbackMap.erase H
              g_paramUpdateCallbackMap := st.g_paramUpdateCallbackMap.erase H
              g_exportCallbackMap := st.g_exportCallbackMap.erase H
              g_processedFrameCallbackMap := st.g_processedFrameCallbackMap.erase H },
          ret := (sdk (SdkCall.SC_DestroyHandle s)).ret,
          sdkCalls := [SdkCall.SC_DestroyHandle s] }
      else
        { state := st, ret := (sdk (SdkCall.SC_DestroyHandle s)).ret,
          sdkCalls := [SdkCall.SC_DestroyHandle s] } := by
  unfold Camera_DestroyHandle
  rw [GetSDKHandle_of_find_some st H s hfind]
  dsimp only
  rw [if_neg hs]

theorem Camera_DestroyHandle_of_unknown (sdk : SDK) (st : State) (H : CameraHandle)
    (h0 : GetSDKHandle st H = 0) :
    Camera_DestroyHandle sdk st H = { state := st, ret := -1, out := none, sdkCalls := [] } := by
  unfold Camera_DestroyHandle
  rw [h0]
  rfl

theorem Camera_SubscribeConnectArg_of_live (sdk : SDK) (st : State) (H : CameraHandle)
    (proc pUser : Nat) (hlive : GetSDKHandle st H ≠ 0) (hproc : proc ≠ 0) :
    Camera_SubscribeConnectArg sdk st H proc pUser =
      { state := { st with
          g_connectCallbackMap := st.g_connectCallbackMap.assign H ⟨proc, pUser⟩ },
        ret := (sdk (SdkCall.SC_SubscribeConnectArg (GetSDKHandle st H) .OnConnectCallback H)).ret,
        sdkCalls := [SdkCall.SC_SubscribeConnectArg (GetSDKHandle st H) .OnConnectCallback H] } := by
  unfold Camera_SubscribeConnectArg
  dsimp only
  rw [if_neg (by rintro (h | h); exact hlive h; exact hproc h)]

theorem Camera_SubscribeParamUpdateArg_of_live (sdk : SDK) (st : State) (H : CameraHandle)
    (proc pUser : Nat) (hlive : GetSDKHandle st H ≠ 0) (hproc : proc ≠ 0) :
    Camera_SubscribeParamUpdateArg sdk st H proc pUser =
      { state := { st with
          g_paramUpdateCallbackMap := st.g_paramUpdateCallbackMap.assign H ⟨proc, pUser⟩ },
        ret := (sdk (SdkCall.SC_SubscribeParamUpdateArg (GetSDKHandle st H)
          .OnParamUpdateCallback H)).ret,
        sdkCalls := [SdkCall.SC_SubscribeParamUpdateArg (GetSDKHandle st H)
          .OnParamUpdateCallback H] } := by
  unfold Camera_SubscribeParamUpdateArg
  dsimp only
  rw [if_neg (by rintro (h | h); exact hlive h; exact hproc h)]

theorem Camera_SubscribeExportNotify_of_live (sdk : SDK) (st : State) (H : CameraHandle)
    (proc pUser : Nat) (hlive : GetSDKHandle st H ≠ 0) (hproc : proc ≠ 0) :
    Camera_SubscribeExportNotify sdk st H proc pUser =
      { state := { st with
          g_exportCallbackMap := st.g_exportCallbackMap.assign H ⟨proc, pUser⟩ },
        ret := (sdk (SdkCall.SC_SubscribeExportNotify (GetSDKHandle st H) .OnExportCallback H)).ret,
        sdkCalls := [SdkCall.SC_SubscribeExportNotify (GetSDKHandle st H) .OnExportCallback H] } := by
  unfold Camera_SubscribeExportNotify
  dsimp only
  rw [if_neg (by rintro (h | h); exact hlive h; exact hproc h)]

theorem Camera_AttachProcessedGrabbing_of_live (sdk : SDK) (st : State) (H : CameraHandle)
    (proc pUser : Nat) (hlive : GetSDKHandle st H ≠ 0) (hproc : proc ≠ 0) :
    Camera_AttachProcessedGrabbing sdk st H proc pUser =
      { state := { st with
          g_processedFrameCallbackMap :=
            st.g_processedFrameCallbackMap.assign H ⟨proc, pUser⟩ },
        ret := (sdk (SdkCall.SC_AttachProImgGrabbing (GetSDKHandle st H)
          .OnProcessedFrameCallback H)).ret,
        sdkCalls := [SdkCall.SC_AttachProImgGrabbing (GetSDKHandle st H)
          .OnProcessedFrameCallback H] } := by
  unfold Camera_AttachProcessedGrabbing
  dsimp only
  rw [if_neg (by rintro (h | h); exact hlive h; exact hproc h)]

theorem OnConnectCallback_of_bound (st : State) (arg : SC_SConnectArg) (H cb u : Nat)
    (hfind : st.g_connectCallbackMap.find H = some ⟨cb, u⟩) (hcb : cb ≠ 0) :
    OnConnectCallback st (some arg) H =
      [UserCall.connect cb (if arg.event = eOnLine then 1 else 0) arg.serialNumber u] := by
  simp [OnConnectCallback, hfind, hcb]

theorem OnParamUpdateCallback_of_bound (st : State) (names : List String) (n : Nat)
    (H cb u : Nat) (hfind : st.g_paramUpdateCallbackMap.find H = some ⟨cb, u⟩)
    (hcb : cb ≠ 0) :
    OnParamUpdateCallback st (some ⟨some names, n⟩) H =
      (List.range n).map (fun i => UserCall.paramUpdate cb (names.getD i "") u) := by
  simp [OnParamUpdateCallback, hfind, hcb]

theorem OnExportCallback_of_bound (st : State) (progress : Int) (msgText : Option String)
    (notify : Int) (H cb u : Nat) (hfind : st.g_exportCallbackMap.find H = some ⟨cb, u⟩)
    (hcb : cb ≠ 0) :
    OnExportCallback st progress msgText notify H =
      [UserCall.exportEvent cb notify progress u] := by
  simp [OnExportCallback, hfind, hcb]

theorem OnProcessedFrameCallback_of_bound (st : State) (frame : SC_Frame) (H cb u : Nat)
    (hfind : st.g_processedFrameCallbackMap.find H = some ⟨cb, u⟩) (hcb : cb ≠ 0)
    (hheight : frame.frameInfo.height ≠ 0) :
    OnProcessedFrameCallback st (some frame) H =
      some [UserCall.frame cb
        { width := toInt32 frame.frameInfo.width
          height := toInt32 frame.frameInfo.height
          pixelFormat := toInt32 frame.frameInfo.pixelFormat
          dataSize := toInt32 frame.frameInfo.size
          stride := toInt32 (frame.frameInfo.size / frame.frameInfo.height : Nat)
          blockId := frame.frameInfo.frameId
          timeStamp := frame.frameInfo.timeStamp
          pData := frame.pData } u] := by
  simp [OnProcessedFrameCallback, hfind, hcb, hheight]

theorem HandleOp.run_handleMap (sdk : SDK) (st : State) (H : CameraHandle) (op : HandleOp) :
    (HandleOp.run sdk st H op).state.g_handleMap = st.g_handleMap ∨
    (HandleOp.run sdk st H op).state.g_handleMap = st.g_handleMap.erase H := by
  cases op <;>
    simp only [HandleOp.run, Outcome.effect,
      Camera_DestroyHandle, Camera_Open, Camera_Close, Camera_DownloadGenICamXML,
      Camera_GetDeviceInfo, Camera_StartGrabbing, Camera_StopGrabbing, Camera_IsGrabbing,
      Camera_SetBufferCount, Camera_GetFrame, Camera_ReleaseFrame, Camera_GetProcessedFrame,
      Camera_OpenRecord, Camera_CloseRecord, Camera_SetExportCacheSize,
      Camera_FeatureIsAvailable, Camera_FeatureIsReadable, Camera_FeatureIsWriteable,
      Camera_GetFeatureType, Camera_GetIntFeatureValue, Camera_GetIntFeatureMin,
      Camera_GetIntFeatureMax, Camera_GetIntFeatureInc, Camera_SetIntFeatureValue,
      Camera_GetFloatFeatureValue, Camera_GetFloatFeatureMin, Camera_GetFloatFeatureMax,
      Camera_GetFloatFeatureInc, Camera_SetFloatFeatureValue, Camera_GetEnumFeatureValue,
      Camera_SetEnumFeatureValue, Camera_GetEnumFeatureEntryNum, Camera_GetEnumFeatureEntrys,
      Camera_GetEnumFeatureSymbol, Camera_SetEnumFeatureSymbol, Camera_GetBoolFeatureValue,
      Camera_SetBoolFeatureValue, Camera_GetStringFeatureValue, Camera_SetStringFeatureValue,
      Camera_ExecuteCommandFeature, Camera_SetAutoExposureParam, Camera_AutoExposure,
      Camera_SetAutoLevels, Camera_GetAutoLevels, Camera_SetAutoLevelValue,
      Camera_GetAutoLevelValue, Camera_ExecuteAutoLevel, Camera_SetImageProcessingEnabled,
      Camera_GetImageProcessingEnabled, Camera_SetImageProcessingValue,
      Camera_GetImageProcessingValue, Camera_SetPseudoColorMap, Camera_GetPseudoColorMap,
      Camera_SetROI, Camera_SubscribeConnectArg, Camera_SubscribeParamUpdateArg,
      Camera_SubscribeExportNotify, Camera_AttachProcessedGrabbing] <;>
    (repeat' split) <;>
    first
      | exact Or.inl rfl
      | exact Or.inr rfl

theorem HandlesValid.erase (st : State) (H : CameraHandle) (hv : HandlesValid st)
    (m : StdMap SC_DEV_HANDLE) (hm : m = st.g_handleMap ∨ m = st.g_handleMap.erase H) :
    ∀ h s, m.find h = some s → s = h ∧ h ≠ 0 := by
  intro h s hf
  rcases hm with hm | hm
  · rw [hm] at hf
    exact hv h s hf
  · rw [hm] at hf
    by_cases hh : h = H
    · rw [hh, StdMap.find_erase_self] at hf
      exact absurd hf (by simp)
    · rw [StdMap.find_erase_ne _ _ _ hh] at hf
      exact hv h s hf

theorem Reachable.handlesValid {st : State} (hr : Reachable st) : HandlesValid st := by
  induction hr with
  | init =>
    intro h s hf
    exact absurd hf (by simp [StdMap.find, StdMap.empty])
  | release st _ _ =>
    intro h s hf
    exact absurd hf (by simp [Camera_Release, StdMap.find, StdMap.empty])
  | enumDevices sdk st p t _ ih =>
    intro h s hf
    have hsame : (Camera_EnumDevices sdk st p t).state.g_handleMap = st.g_handleMap := by
      simp only [Camera_EnumDevices]
      split_ifs <;> rfl
    rw [hsame] at hf
    exact ih h s hf
  | createHandle sdk st p i _ ih =>
    intro h s hf
    cases hout : (Camera_CreateHandle sdk st p i).out with
    | none =>
      have hsame : (Camera_CreateHandle sdk st p i).state = st := by
        simp only [Camera_CreateHandle] at hout ⊢
        split_ifs at hout ⊢ <;> rfl
      rw [hsame] at hf
      exact ih h s hf
    | some t =>
      obtain ⟨_, hnz, heq⟩ := Camera_CreateHandle_of_out sdk st p i t hout
      rw [heq] at hf
      by_cases hh : h = t
      · subst hh
        rw [show ({ st with g_handleMap := st.g_handleMap.assign h h } : State).g_handleMap
          = st.g_handleMap.assign h h from rfl, StdMap.find_assign_self] at hf
        exact ⟨(Option.some.inj hf).symm, hnz⟩
      · rw [show ({ st with g_handleMap := st.g_handleMap.assign t t } : State).g_handleMap
          = st.g_handleMap.assign t t from rfl, StdMap.find_assign_ne _ _ _ _ hh] at hf
        exact ih h s hf
  | handleOp sdk st H op _ ih =>
    exact HandlesValid.erase st H ih _ (HandleOp.run_handleMap sdk st H op)

theorem Reachable.getSDKHandle_of_entry {st : State} (hr : Reachable st) (H : CameraHandle)
    (s : SC_DEV_HANDLE) (hf : st.g_handleMap.find H = some s) :
    GetSDKHandle st H = H ∧ H ≠ 0 := by
  obtain ⟨hs, hnz⟩ := hr.handlesValid H s hf
  rw [GetSDKHandle_of_find_some st H s hf, hs]
  exact ⟨rfl, hnz⟩

/-! ## C1: operations on a handle that has no registry entry -/

/-- C1 (as stated, refuted): with an empty handle registry the probe
`Camera_FeatureIsAvailable` on the unknown handle `5` makes no SDK call and returns
`0`, which is not the failure code `-1`. -/
theorem C1_probe_returns_zero_counterexample :
    ({} : State).g_handleMap.find 5 = none ∧
    (Camera_FeatureIsAvailable sdkOk7 {} 5 (some "Width")).sdkCalls = [] ∧
    (Camera_FeatureIsAvailable sdkOk7 {} 5 (some "Width")).ret = 0 ∧
    (Camera_FeatureIsAvailable sdkOk7 {} 5 (some "Width")).ret ≠ -1 := by
  refine ⟨rfl, rfl, rfl, ?_⟩
  decide

/-- C1 (amended): for every state, every SDK and every handle `H` without an entry in
the handle registry, every handle-taking operation defined in `Revealer.cpp` makes
no SDK call, leaves the globals unchanged and stores nothing through an output
pointer; it returns `-1`, except the three feature probes, which return `0`. -/
theorem C1_unknown_handle_rejected (sdk : SDK) (st : State) (H : CameraHandle)
    (op : HandleOp) (hH : st.g_handleMap.find H = none) :
    HandleOp.run sdk st H op =
      { state := st, ret := if op.isProbe then 0 else -1, sdkCalls := [], stored := false } := by
  have h0 : GetSDKHandle st H = 0 := GetSDKHandle_of_find_none st H hH
  cases op <;>
    simp [HandleOp.run, HandleOp.isProbe, Outcome.effect, h0,
      Camera_DestroyHandle, Camera_Open, Camera_Close, Camera_DownloadGenICamXML,
      Camera_GetDeviceInfo, Camera_StartGrabbing, Camera_StopGrabbing, Camera_IsGrabbing,
      Camera_SetBufferCount, Camera_GetFrame, Camera_ReleaseFrame, Camera_GetProcessedFrame,
      Camera_OpenRecord, Camera_CloseRecord, Camera_SetExportCacheSize,
      Camera_FeatureIsAvailable, Camera_FeatureIsReadable, Camera_FeatureIsWriteable,
      Camera_GetFeatureType, Camera_GetIntFeatureValue, Camera_GetIntFeatureMin,
      Camera_GetIntFeatureMax, Camera_GetIntFeatureInc, Camera_SetIntFeatureValue,
      Camera_GetFloatFeatureValue, Camera_GetFloatFeatureMin, Camera_GetFloatFeatureMax,
      Camera_GetFloatFeatureInc, Camera_SetFloatFeatureValue, Camera_GetEnumFeatureValue,
      Camera_SetEnumFeatureValue, Camera_GetEnumFeatureEntryNum, Camera_GetEnumFeatureEntrys,
      Camera_GetEnumFeatureSymbol, Camera_SetEnumFeatureSymbol, Camera_GetBoolFeatureValue,
      Camera_SetBoolFeatureValue, Camera_GetStringFeatureValue, Camera_SetStringFeatureValue,
      Camera_ExecuteCommandFeature, Camera_SetAutoExposureParam, Camera_AutoExposure,
      Camera_SetAutoLevels, Camera_GetAutoLevels, Camera_SetAutoLevelValue,
      Camera_GetAutoLevelValue, Camera_ExecuteAutoLevel, Camera_SetImageProcessingEnabled,
      Camera_GetImageProcessingEnabled, Camera_SetImageProcessingValue,
      Camera_GetImageProcessingValue, Camera_SetPseudoColorMap, Camera_GetPseudoColorMap,
      Camera_SetROI, Camera_SubscribeConnectArg, Camera_SubscribeParamUpdateArg,
      Camera_SubscribeExportNotify, Camera_AttachProcessedGrabbing]
  all_goals (split <;> simp)

/-- C1 (amended), checked on the bound sample state and the unknown handle `5` for a
lease. -/
theorem C1_unknown_handle_rejected_witness :
    stBound.g_handleMap.find 5 = none ∧
    HandleOp.run sdkOk7 stBound 5 (.GetFrame 1 0) =
      { state := stBound, ret := if (HandleOp.GetFrame 1 0).isProbe then 0 else -1,
        sdkCalls := [], stored := false } :=
  ⟨by decide, C1_unknown_handle_rejected sdkOk7 stBound 5 (.GetFrame 1 0) (by decide)⟩

/-! ## C2 to C5: handle creation -/

/-- C2: for every state whose enumeration cache holds `devNum` descriptors and every
`deviceIndex` below `0` or at least `devNum`, `Camera_CreateHandle` returns `-1`, makes
no SDK call, leaves the globals (the handle registry among them) unchanged and stores
nothing through the caller's output pointer. -/
theorem C2_create_index_out_of_range (sdk : SDK) (st : State) (pHandle : Nat)
    (deviceIndex : Int)
    (hidx : deviceIndex < 0 ∨ deviceIndex ≥ (st.g_deviceList.devNum : Int)) :
    Camera_CreateHandle sdk st pHandle deviceIndex =
      { state := st, ret := -1, out := none, sdkCalls := [] } := by
  unfold Camera_CreateHandle
  rw [if_pos (Or.inr hidx)]

/-- C2, checked on the sample state with one device for the index `1`. -/
theorem C2_create_index_out_of_range_witness :
    ((1 : Int) < 0 ∨ (1 : Int) ≥ (stEnumerated.g_deviceList.devNum : Int)) ∧
    Camera_CreateHandle sdkOk7 stEnumerated 1 1 =
      { state := stEnumerated, ret := -1, out := none, sdkCalls := [] } :=
  ⟨by decide, C2_create_index_out_of_range sdkOk7 stEnumerated 1 1 (by decide)⟩

/-- C3: when `Camera_CreateHandle` is called with a non-null output pointer and an
index inside the cache, and the SDK's `SC_CreateHandle` (called by camera key)
answers `SC_OK` with a non-null handle `s`, then the call returns `0`, makes that one
SDK call, stores `s` itself as the caller's token, and afterwards the handle
registry maps the token `s` to `s`, so that `GetSDKHandle` resolves the token to
itself. -/
theorem C3_create_reuses_sdk_handle (sdk : SDK) (st : State) (pHandle : Nat)
    (deviceIndex : Int) (s : SC_DEV_HANDLE)
    (hp : pHandle ≠ 0) (hlo : 0 ≤ deviceIndex)
    (hhi : deviceIndex < (st.g_deviceList.devNum : Int))
    (hret : (sdk (SdkCall.SC_CreateHandle .eModeByCameraKey
      (st.g_deviceList.pDevInfo.getD deviceIndex.toNat default).cameraKey)).ret = SC_OK)
    (hs : (sdk (SdkCall.SC_CreateHandle .eModeByCameraKey
      (st.g_deviceList.pDevInfo.getD deviceIndex.toNat default).cameraKey)).handle = s)
    (hnz : s ≠ 0) :
    (Camera_CreateHandle sdk st pHandle deviceIndex).ret = 0 ∧
    (Camera_CreateHandle sdk st pHandle deviceIndex).out = some s ∧
    (Camera_CreateHandle sdk st pHandle deviceIndex).sdkCalls =
      [SdkCall.SC_CreateHandle .eModeByCameraKey
        (st.g_deviceList.pDevInfo.getD deviceIndex.toNat default).cameraKey] ∧
    (Camera_CreateHandle sdk st pHandle deviceIndex).state.g_handleMap.find s = some s ∧
    (Camera_CreateHandle sdk st pHandle deviceIndex).state.g_handleMap.count s = 1 ∧
    GetSDKHandle (Camera_CreateHandle sdk st pHandle deviceIndex).state s = s := by
  have hguard : ¬ (pHandle = 0 ∨ deviceIndex < 0 ∨
      deviceIndex ≥ (st.g_deviceList.devNum : Int)) := by
    rintro (h | h | h)
    · exact hp h
    · exact absurd hlo (not_le.mpr h)
    · exact absurd hhi (not_lt.mpr h)
  have hok : (sdk (SdkCall.SC_CreateHandle .eModeByCameraKey
      (st.g_deviceList.pDevInfo.getD deviceIndex.toNat default).cameraKey)).ret = SC_OK ∧
      (sdk (SdkCall.SC_CreateHandle .eModeByCameraKey
      (st.g_deviceList.pDevInfo.getD deviceIndex.toNat default).cameraKey)).handle ≠ 0 :=
    ⟨hret, by rw [hs]; exact hnz⟩
  unfold Camera_CreateHandle
  rw [if_neg hguard]
  dsimp only
  rw [if_pos hok]
  dsimp only
  rw [hs]
  refine ⟨?_, rfl, rfl, ?_, ?_, ?_⟩
  · rw [hret]; rfl
  · exact StdMap.find_assign_self _ _ _
  · exact StdMap.count_assign_self _ _ _
  · exact GetSDKHandle_of_find_some _ _ _ (StdMap.find_assign_self _ _ _)

/-- C3, checked on the sample state with the stub SDK that hands out the handle `7`. -/
theorem C3_create_reuses_sdk_handle_witness :
    ((1 : Nat) ≠ 0 ∧ (0 : Int) ≤ 0 ∧ (0 : Int) < (stEnumerated.g_deviceList.devNum : Int) ∧
      (7 : Nat) ≠ 0) ∧
    ((Camera_CreateHandle sdkOk7 stEnumerated 1 0).ret = 0 ∧
    (Camera_CreateHandle sdkOk7 stEnumerated 1 0).out = some 7 ∧
    (Camera_CreateHandle sdkOk7 stEnumerated 1 0).sdkCalls =
      [SdkCall.SC_CreateHandle .eModeByCameraKey
        (stEnumerated.g_deviceList.pDevInfo.getD (0 : Int).toNat default).cameraKey] ∧
    (Camera_CreateHandle sdkOk7 stEnumerated 1 0).state.g_handleMap.find 7 = some 7 ∧
    (Camera_CreateHandle sdkOk7 stEnumerated 1 0).state.g_handleMap.count 7 = 1 ∧
    GetSDKHandle (Camera_CreateHandle sdkOk7 stEnumerated 1 0).state 7 = 7) :=
  ⟨by decide,
   C3_create_reuses_sdk_handle sdkOk7 stEnumerated 1 0 7 (by decide) (by decide) (by decide)
     rfl rfl (by decide)⟩

/-- C4 (the code at the failing input): on the sample state with one device, when the
SDK's create call answers `SC_OK` together with a null handle, `Camera_CreateHandle`
returns the success code `0` although it stores no token through the output pointer
and adds no entry to the handle registry. -/
theorem C4_create_success_without_token :
    (Camera_CreateHandle sdkOkNull stEnumerated 1 0).ret = 0 ∧
    (Camera_CreateHandle sdkOkNull stEnumerated 1 0).out = none ∧
    (Camera_CreateHandle sdkOkNull stEnumerated 1 0).state = stEnumerated ∧
    (Camera_CreateHandle sdkOkNull stEnumerated 1 0).state.g_handleMap.entries = [] := by
  refine ⟨rfl, rfl, rfl, rfl⟩

/-- C5 (as stated, refuted): on the sample state with one device, two successive
`Camera_CreateHandle` calls for which the SDK returns the device handle `7` both
return `0` and both yield the token `7`, which is live (registered once) after the
second call. -/
theorem C5_same_token_twice_counterexample :
    (Camera_CreateHandle sdkOk7 stEnumerated 1 0).ret = 0 ∧
    (Camera_CreateHandle sdkOk7 stEnumerated 1 0).out = some 7 ∧
    (Camera_CreateHandle sdkOk7 (Camera_CreateHandle sdkOk7 stEnumerated 1 0).state 1 0).ret = 0 ∧
    (Camera_CreateHandle sdkOk7 (Camera_CreateHandle sdkOk7 stEnumerated 1 0).state 1 0).out
      = some 7 ∧
    (Camera_CreateHandle sdkOk7
      (Camera_CreateHandle sdkOk7 stEnumerated 1 0).state 1 0).state.g_handleMap.find 7
      = some 7 := by
  refine ⟨rfl, rfl, rfl, rfl, ?_⟩
  decide

/-- C5 (amended): the token a successful `Camera_CreateHandle` stores is the handle the
SDK's create call returned, and the facade makes no uniqueness check of its own. So
two successful calls, in any two states and with any SDK answers, yield the same
token exactly when the SDK returned the same handle to both. After the second call
its token is registered exactly once, and a token that was live before the second
call is still live after it. -/
theorem C5_tokens_equal_iff_sdk_handles_equal (sdk1 sdk2 : SDK) (st1 st2 : State)
    (p1 p2 : Nat) (i1 i2 : Int) (t1 t2 : CameraHandle)
    (hout1 : (Camera_CreateHandle sdk1 st1 p1 i1).out = some t1)
    (hout2 : (Camera_CreateHandle sdk2 st2 p2 i2).out = some t2) :
    t1 = (sdk1 (SdkCall.SC_CreateHandle .eModeByCameraKey
      (st1.g_deviceList.pDevInfo.getD i1.toNat default).cameraKey)).handle ∧
    t2 = (sdk2 (SdkCall.SC_CreateHandle .eModeByCameraKey
      (st2.g_deviceList.pDevInfo.getD i2.toNat default).cameraKey)).handle ∧
    (t1 = t2 ↔
      (sdk1 (SdkCall.SC_CreateHandle .eModeByCameraKey
        (st1.g_deviceList.pDevInfo.getD i1.toNat default).cameraKey)).handle =
      (sdk2 (SdkCall.SC_CreateHandle .eModeByCameraKey
        (st2.g_deviceList.pDevInfo.getD i2.toNat default).cameraKey)).handle) ∧
    (Camera_CreateHandle sdk2 st2 p2 i2).state.g_handleMap.find t2 = some t2 ∧
    (Camera_CreateHandle sdk2 st2 p2 i2).state.g_handleMap.count t2 = 1 ∧
    (st2.g_handleMap.find t1 ≠ none →
      (Camera_CreateHandle sdk2 st2 p2 i2).state.g_handleMap.find t1 ≠ none) := by
  obtain ⟨ht1, _, _⟩ := Camera_CreateHandle_of_out sdk1 st1 p1 i1 t1 hout1
  obtain ⟨ht2, _, heq2⟩ := Camera_CreateHandle_of_out sdk2 st2 p2 i2 t2 hout2
  rw [heq2, ht1, ht2]
  refine ⟨rfl, rfl, Iff.rfl, ?_, ?_, ?_⟩
  · exact StdMap.find_assign_self _ _ _
  · exact StdMap.count_assign_self _ _ _
  · intro hlive
    by_cases h : t1 = t2
    · rw [h]
      exact fun hn => absurd ((StdMap.find_assign_self _ _ _).symm.trans hn) (by simp)
    · exact fun hn => hlive ((StdMap.find_assign_ne _ _ _ _ h).symm.trans hn)

/-- C5 (amended), checked on the sample state: a first create for which the SDK hands
out `7`, then a second one for which it hands out `9`. -/
theorem C5_tokens_equal_iff_sdk_handles_equal_witness :
    ((Camera_CreateHandle sdkOk7 stEnumerated 1 0).out = some 7 ∧
      (Camera_CreateHandle sdkOk9 (Camera_CreateHandle sdkOk7 stEnumerated 1 0).state 1 0).out
        = some 9) ∧
    (7 = 9 ↔
      (sdkOk7 (SdkCall.SC_CreateHandle .eModeByCameraKey
        (stEnumerated.g_deviceList.pDevInfo.getD (0 : Int).toNat default).cameraKey)).handle =
      (sdkOk9 (SdkCall.SC_CreateHandle .eModeByCameraKey
        ((Camera_CreateHandle sdkOk7 stEnumerated 1 0).state.g_deviceList.pDevInfo.getD
          (0 : Int).toNat default).cameraKey)).handle) ∧
    (Camera_CreateHandle sdkOk9
      (Camera_CreateHandle sdkOk7 stEnumerated 1 0).state 1 0).state.g_handleMap.find 9
      = some 9 :=
  ⟨⟨rfl, rfl⟩,
   (C5_tokens_equal_iff_sdk_handles_equal sdkOk7 sdkOk9 stEnumerated
      (Camera_CreateHandle sdkOk7 stEnumerated 1 0).state 1 1 0 0 7 9 rfl rfl).2.2.1,
   (C5_tokens_equal_iff_sdk_handles_equal sdkOk7 sdkOk9 stEnumerated
      (Camera_CreateHandle sdkOk7 stEnumerated 1 0).state 1 1 0 0 7 9 rfl rfl).2.2.2.1⟩

/-! ## C6 and C7: handle destruction -/

/-- C6: for every handle `H` that is live (registered with a non-null SDK handle `s`)
and for which the SDK's destroy call answers `SC_OK`, `Camera_DestroyHandle` makes
that one SDK call on `s`, returns `0`, and afterwards `H` has no entry in the handle
registry (`GetSDKHandle` gives `nullptr`) and no binding in any of the four callback
registries, while the entry and the bindings of every other handle, and the
enumeration cache, are unchanged. -/
theorem C6_destroy_removes_handle (sdk : SDK) (st : State) (H : CameraHandle)
    (s : SC_DEV_HANDLE) (hfind : st.g_handleMap.find H = some s) (hs : s ≠ 0)
    (hok : (sdk (SdkCall.SC_DestroyHandle s)).ret = SC_OK) :
    (Camera_DestroyHandle sdk st H).ret = 0 ∧
    (Camera_DestroyHandle sdk st H).sdkCalls = [SdkCall.SC_DestroyHandle s] ∧
    ((Camera_DestroyHandle sdk st H).state.g_handleMap.find H = none ∧
      GetSDKHandle (Camera_DestroyHandle sdk st H).state H = 0 ∧
      (Camera_DestroyHandle sdk st H).state.g_connectCallbackMap.find H = none ∧
      (Camera_DestroyHandle sdk st H).state.g_paramUpdateCallbackMap.find H = none ∧
      (Camera_DestroyHandle sdk st H).state.g_exportCallbackMap.find H = none ∧
      (Camera_DestroyHandle sdk st H).state.g_processedFrameCallbackMap.find H = none) ∧
    (∀ H', H' ≠ H →
      (Camera_DestroyHandle sdk st H).state.g_handleMap.find H' = st.g_handleMap.find H' ∧
      (Camera_DestroyHandle sdk st H).state.g_connectCallbackMap.find H'
        = st.g_connectCallbackMap.find H' ∧
      (Camera_DestroyHandle sdk st H).state.g_paramUpdateCallbackMap.find H'
        = st.g_paramUpdateCallbackMap.find H' ∧
      (Camera_DestroyHandle sdk st H).state.g_exportCallbackMap.find H'
        = st.g_exportCallbackMap.find H' ∧
      (Camera_DestroyHandle sdk st H).state.g_processedFrameCallbackMap.find H'
        = st.g_processedFrameCallbackMap.find H') ∧
    (Camera_DestroyHandle sdk st H).state.g_deviceList = st.g_deviceList := by
  rw [Camera_DestroyHandle_of_live sdk st H s hfind hs, if_pos hok]
  refine ⟨?_, rfl, ⟨?_, ?_, ?_, ?_, ?_, ?_⟩, ?_, rfl⟩
  · rw [hok]; rfl
  · exact StdMap.find_erase_self _ _
  · exact GetSDKHandle_of_find_none _ _ (StdMap.find_erase_self _ _)
  · exact StdMap.find_erase_self _ _
  · exact StdMap.find_erase_self _ _
  · exact StdMap.find_erase_self _ _
  · exact StdMap.find_erase_self _ _
  · intro H' hne
    exact ⟨StdMap.find_erase_ne _ _ _ hne, StdMap.find_erase_ne _ _ _ hne,
      StdMap.find_erase_ne _ _ _ hne, StdMap.find_erase_ne _ _ _ hne,
      StdMap.find_erase_ne _ _ _ hne⟩

/-- C6, checked on the bound sample state for the live handle `7` with an SDK that
answers success. -/
theorem C6_destroy_removes_handle_witness :
    (stBound.g_handleMap.find 7 = some 7 ∧ (7 : Nat) ≠ 0 ∧
      (sdkOk7 (SdkCall.SC_DestroyHandle 7)).ret = SC_OK) ∧
    ((Camera_DestroyHandle sdkOk7 stBound 7).ret = 0 ∧
    (Camera_DestroyHandle sdkOk7 stBound 7).sdkCalls = [SdkCall.SC_DestroyHandle 7] ∧
    ((Camera_DestroyHandle sdkOk7 stBound 7).state.g_handleMap.find 7 = none ∧
      GetSDKHandle (Camera_DestroyHandle sdkOk7 stBound 7).state 7 = 0 ∧
      (Camera_DestroyHandle sdkOk7 stBound 7).state.g_connectCallbackMap.find 7 = none ∧
      (Camera_DestroyHandle sdkOk7 stBound 7).state.g_paramUpdateCallbackMap.find 7 = none ∧
      (Camera_DestroyHandle sdkOk7 stBound 7).state.g_exportCallbackMap.find 7 = none ∧
      (Camera_DestroyHandle sdkOk7 stBound 7).state.g_processedFrameCallbackMap.find 7 = none) ∧
    (∀ H', H' ≠ 7 →
      (Camera_DestroyHandle sdkOk7 stBound 7).state.g_handleMap.find H'
        = stBound.g_handleMap.find H' ∧
      (Camera_DestroyHandle sdkOk7 stBound 7).state.g_connectCallbackMap.find H'
        = stBound.g_connectCallbackMap.find H' ∧
      (Camera_DestroyHandle sdkOk7 stBound 7).state.g_paramUpdateCallbackMap.find H'
        = stBound.g_paramUpdateCallbackMap.find H' ∧
      (Camera_DestroyHandle sdkOk7 stBound 7).state.g_exportCallbackMap.find H'
        = stBound.g_exportCallbackMap.find H' ∧
      (Camera_DestroyHandle sdkOk7 stBound 7).state.g_processedFrameCallbackMap.find H'
        = stBound.g_processedFrameCallbackMap.find H') ∧
    (Camera_DestroyHandle sdkOk7 stBound 7).state.g_deviceList = stBound.g_deviceList) :=
  ⟨⟨by decide, by decide, rfl⟩,
   C6_destroy_removes_handle sdkOk7 stBound 7 7 (by decide) (by decide) rfl⟩

/-- C7: whenever `Camera_DestroyHandle` returns a non-zero code, the globals (handle
registry, the four callback registries, enumeration cache) are exactly as before the
call. For a handle without a registry entry it returns `-1` and makes no SDK call; for
a handle registered with the non-null SDK handle `s` it makes the one destroy call
on `s` and returns the SDK's code unchanged, so a failed SDK destroy keeps the handle
and all its bindings. -/
theorem C7_destroy_failure_keeps_state (sdk : SDK) (st : State) (H : CameraHandle)
    (hret : (Camera_DestroyHandle sdk st H).ret ≠ 0) :
    (Camera_DestroyHandle sdk st H).state = st ∧
    (st.g_handleMap.find H = none →
      (Camera_DestroyHandle sdk st H).ret = -1 ∧
      (Camera_DestroyHandle sdk st H).sdkCalls = []) ∧
    (∀ s, st.g_handleMap.find H = some s → s ≠ 0 →
      (Camera_DestroyHandle sdk st H).ret = (sdk (SdkCall.SC_DestroyHandle s)).ret ∧
      (Camera_DestroyHandle sdk st H).sdkCalls = [SdkCall.SC_DestroyHandle s] ∧
      (Camera_DestroyHandle sdk st H).state.g_handleMap.find H = some s) := by
  refine ⟨?_, ?_, ?_⟩
  · by_cases h0 : GetSDKHandle st H = 0
    · rw [Camera_DestroyHandle_of_unknown sdk st H h0]
    · have hfind : st.g_handleMap.find H = some (GetSDKHandle st H) := by
        unfold GetSDKHandle at h0 ⊢
        cases hf : st.g_handleMap.find H with
        | none => rw [hf] at h0; exact absurd rfl h0
        | some s => rfl
      rw [Camera_DestroyHandle_of_live sdk st H _ hfind h0] at hret ⊢
      by_cases hok : (sdk (SdkCall.SC_DestroyHandle (GetSDKHandle st H))).ret = SC_OK
      · rw [if_pos hok] at hret
        exact absurd hok hret
      · rw [if_neg hok]
  · intro hnone
    rw [Camera_DestroyHandle_of_unknown sdk st H (GetSDKHandle_of_find_none st H hnone)]
    exact ⟨rfl, rfl⟩
  · intro s hfind hs
    rw [Camera_DestroyHandle_of_live sdk st H s hfind hs] at hret ⊢
    by_cases hok : (sdk (SdkCall.SC_DestroyHandle s)).ret = SC_OK
    · rw [if_pos hok] at hret
      exact absurd hok hret
    · rw [if_neg hok]
      exact ⟨rfl, rfl, hfind⟩

/-- C7, checked on the bound sample state for the live handle `7` with an SDK whose
destroy call fails with code `3`. -/
theorem C7_destroy_failure_keeps_state_witness :
    (Camera_DestroyHandle (sdkFail 3) stBound 7).ret ≠ 0 ∧
    ((Camera_DestroyHandle (sdkFail 3) stBound 7).state = stBound ∧
    (stBound.g_handleMap.find 7 = none →
      (Camera_DestroyHandle (sdkFail 3) stBound 7).ret = -1 ∧
      (Camera_DestroyHandle (sdkFail 3) stBound 7).sdkCalls = []) ∧
    (∀ s, stBound.g_handleMap.find 7 = some s → s ≠ 0 →
      (Camera_DestroyHandle (sdkFail 3) stBound 7).ret
        = ((sdkFail 3) (SdkCall.SC_DestroyHandle s)).ret ∧
      (Camera_DestroyHandle (sdkFail 3) stBound 7).sdkCalls = [SdkCall.SC_DestroyHandle s] ∧
      (Camera_DestroyHandle (sdkFail 3) stBound 7).state.g_handleMap.find 7 = some s)) :=
  ⟨by decide, C7_destroy_failure_keeps_state (sdkFail 3) stBound 7 (by decide)⟩

/-! ## C8 to C10: subscription and the trampolines -/

/-- C8: registration is last-write-wins in each of the four event kinds. For every
live handle `H` (one that `GetSDKHandle` resolves) and non-null callbacks `cb1`,
`cb2`, after subscribing `(cb1, u1)` and then `(cb2, u2)` on `H`, whatever the SDK
answers to the two registrations, the registry of that kind holds exactly one
binding for `H`, namely `(cb2, u2)`, and an event that then arrives with token `H` is
dispatched to `cb2` with `u2` only: once for a connection event and for an export
event, once per announced name (in order) for a parameter update, and once for a
frame of non-zero height. -/
theorem C8_last_subscription_wins (sdk1 sdk2 : SDK) (st : State) (H : CameraHandle)
    (cb1 u1 cb2 u2 : Nat) (hlive : GetSDKHandle st H ≠ 0) (h1 : cb1 ≠ 0) (h2 : cb2 ≠ 0) :
    ((Camera_SubscribeConnectArg sdk2 (Camera_SubscribeConnectArg sdk1 st H cb1 u1).state
        H cb2 u2).state.g_connectCallbackMap.bindingsOf H = [⟨cb2, u2⟩] ∧
      ∀ arg : SC_SConnectArg,
        OnConnectCallback
          (Camera_SubscribeConnectArg sdk2 (Camera_SubscribeConnectArg sdk1 st H cb1 u1).state
            H cb2 u2).state (some arg) H
        = [UserCall.connect cb2 (if arg.event = eOnLine then 1 else 0) arg.serialNumber u2]) ∧
    ((Camera_SubscribeParamUpdateArg sdk2 (Camera_SubscribeParamUpdateArg sdk1 st H cb1 u1).state
        H cb2 u2).state.g_paramUpdateCallbackMap.bindingsOf H = [⟨cb2, u2⟩] ∧
      ∀ (names : List String) (n : Nat),
        OnParamUpdateCallback
          (Camera_SubscribeParamUpdateArg sdk2
            (Camera_SubscribeParamUpdateArg sdk1 st H cb1 u1).state H cb2 u2).state
          (some ⟨some names, n⟩) H
        = (List.range n).map (fun i => UserCall.paramUpdate cb2 (names.getD i "") u2)) ∧
    ((Camera_SubscribeExportNotify sdk2 (Camera_SubscribeExportNotify sdk1 st H cb1 u1).state
        H cb2 u2).state.g_exportCallbackMap.bindingsOf H = [⟨cb2, u2⟩] ∧
      ∀ (progress : Int) (msgText : Option String) (notify : Int),
        OnExportCallback
          (Camera_SubscribeExportNotify sdk2 (Camera_SubscribeExportNotify sdk1 st H cb1 u1).state
            H cb2 u2).state progress msgText notify H
        = [UserCall.exportEvent cb2 notify progress u2]) ∧
    ((Camera_AttachProcessedGrabbing sdk2 (Camera_AttachProcessedGrabbing sdk1 st H cb1 u1).state
        H cb2 u2).state.g_processedFrameCallbackMap.bindingsOf H = [⟨cb2, u2⟩] ∧
      ∀ frame : SC_Frame, frame.frameInfo.height ≠ 0 →
        OnProcessedFrameCallback
          (Camera_AttachProcessedGrabbing sdk2
            (Camera_AttachProcessedGrabbing sdk1 st H cb1 u1).state H cb2 u2).state
          (some frame) H
        = some [UserCall.frame cb2
            { width := toInt32 frame.frameInfo.width
              height := toInt32 frame.frameInfo.height
              pixelFormat := toInt32 frame.frameInfo.pixelFormat
              dataSize := toInt32 frame.frameInfo.size
              stride := toInt32 (frame.frameInfo.size / frame.frameInfo.height : Nat)
              blockId := frame.frameInfo.frameId
              timeStamp := frame.frameInfo.timeStamp
              pData := frame.pData } u2]) := by
  refine ⟨?_, ?_, ?_, ?_⟩
  · have hlive1 : GetSDKHandle (Camera_SubscribeConnectArg sdk1 st H cb1 u1).state H ≠ 0 := by
      rw [Camera_SubscribeConnectArg_of_live sdk1 st H cb1 u1 hlive h1]
      exact hlive
    rw [Camera_SubscribeConnectArg_of_live sdk2 _ H cb2 u2 hlive1 h2]
    refine ⟨StdMap.bindingsOf_assign_self _ _ _, fun arg => ?_⟩
    exact OnConnectCallback_of_bound _ arg H cb2 u2 (StdMap.find_assign_self _ _ _) h2
  · have hlive1 : GetSDKHandle (Camera_SubscribeParamUpdateArg sdk1 st H cb1 u1).state H ≠ 0 := by
      rw [Camera_SubscribeParamUpdateArg_of_live sdk1 st H cb1 u1 hlive h1]
      exact hlive
    rw [Camera_SubscribeParamUpdateArg_of_live sdk2 _ H cb2 u2 hlive1 h2]
    refine ⟨StdMap.bindingsOf_assign_self _ _ _, fun names n => ?_⟩
    exact OnParamUpdateCallback_of_bound _ names n H cb2 u2 (StdMap.find_assign_self _ _ _) h2
  · have hlive1 : GetSDKHandle (Camera_SubscribeExportNotify sdk1 st H cb1 u1).state H ≠ 0 := by
      rw [Camera_SubscribeExportNotify_of_live sdk1 st H cb1 u1 hlive h1]
      exact hlive
    rw [Camera_SubscribeExportNotify_of_live sdk2 _ H cb2 u2 hlive1 h2]
    refine ⟨StdMap.bindingsOf_assign_self _ _ _, fun progress msgText notify => ?_⟩
    exact OnExportCallback_of_bound _ progress msgText notify H cb2 u2
      (StdMap.find_assign_self _ _ _) h2
  · have hlive1 : GetSDKHandle (Camera_AttachProcessedGrabbing sdk1 st H cb1 u1).state H ≠ 0 := by
      rw [Camera_AttachProcessedGrabbing_of_live sdk1 st H cb1 u1 hlive h1]
      exact hlive
    rw [Camera_AttachProcessedGrabbing_of_live sdk2 _ H cb2 u2 hlive1 h2]
    refine ⟨StdMap.bindingsOf_assign_self _ _ _, fun frame hheight => ?_⟩
    exact OnProcessedFrameCallback_of_bound _ frame H cb2 u2 (StdMap.find_assign_self _ _ _) h2
      hheight

/-- C8, checked on the bound sample state for the live handle `7`, with a first
registration the SDK rejects and a second one it accepts. -/
theorem C8_last_subscription_wins_witness :
    (GetSDKHandle stBound 7 ≠ 0 ∧ (31 : Nat) ≠ 0 ∧ (32 : Nat) ≠ 0) ∧
    (Camera_SubscribeConnectArg sdkOk7 (Camera_SubscribeConnectArg (sdkFail 3) stBound 7 31 41).state
        7 32 42).state.g_connectCallbackMap.bindingsOf 7 = [⟨32, 42⟩] ∧
    OnConnectCallback
      (Camera_SubscribeConnectArg sdkOk7 (Camera_SubscribeConnectArg (sdkFail 3) stBound 7 31 41).state
        7 32 42).state (some ⟨1, "SN-1"⟩) 7
      = [UserCall.connect 32 1 "SN-1" 42] :=
  ⟨by decide,
   (C8_last_subscription_wins (sdkFail 3) sdkOk7 stBound 7 31 41 32 42
      (by decide) (by decide) (by decide)).1.1,
   (C8_last_subscription_wins (sdkFail 3) sdkOk7 stBound 7 31 41 32 42
      (by decide) (by decide) (by decide)).1.2 ⟨1, "SN-1"⟩⟩

/-- C9: for each of the four subscribe operations called on a live handle `H` with a
non-null callback, exactly one SDK call is made, the registration call of that event
kind, and it receives the resolved SDK handle, the fixed trampoline of that kind and
`H` itself as the user-context argument, whatever user-data pointer `pUser` the caller
supplied. -/
theorem C9_registration_passes_handle_as_context (sdk : SDK) (st : State)
    (H : CameraHandle) (proc pUser : Nat) (hlive : GetSDKHandle st H ≠ 0)
    (hproc : proc ≠ 0) :
    (Camera_SubscribeConnectArg sdk st H proc pUser).sdkCalls =
      [SdkCall.SC_SubscribeConnectArg (GetSDKHandle st H) .OnConnectCallback H] ∧
    (Camera_SubscribeParamUpdateArg sdk st H proc pUser).sdkCalls =
      [SdkCall.SC_SubscribeParamUpdateArg (GetSDKHandle st H) .OnParamUpdateCallback H] ∧
    (Camera_SubscribeExportNotify sdk st H proc pUser).sdkCalls =
      [SdkCall.SC_SubscribeExportNotify (GetSDKHandle st H) .OnExportCallback H] ∧
    (Camera_AttachProcessedGrabbing sdk st H proc pUser).sdkCalls =
      [SdkCall.SC_AttachProImgGrabbing (GetSDKHandle st H) .OnProcessedFrameCallback H] := by
  rw [Camera_SubscribeConnectArg_of_live sdk st H proc pUser hlive hproc,
    Camera_SubscribeParamUpdateArg_of_live sdk st H proc pUser hlive hproc,
    Camera_SubscribeExportNotify_of_live sdk st H proc pUser hlive hproc,
    Camera_AttachProcessedGrabbing_of_live sdk st H proc pUser hlive hproc]
  exact ⟨rfl, rfl, rfl, rfl⟩

/-- C9, checked on the bound sample state for the live handle `9` and the user-data
pointer `42`. -/
theorem C9_registration_passes_handle_as_context_witness :
    (GetSDKHandle stBound 9 ≠ 0 ∧ (31 : Nat) ≠ 0) ∧
    ((Camera_SubscribeConnectArg sdkOk7 stBound 9 31 42).sdkCalls =
      [SdkCall.SC_SubscribeConnectArg (GetSDKHandle stBound 9) .OnConnectCallback 9] ∧
    (Camera_SubscribeParamUpdateArg sdkOk7 stBound 9 31 42).sdkCalls =
      [SdkCall.SC_SubscribeParamUpdateArg (GetSDKHandle stBound 9) .OnParamUpdateCallback 9] ∧
    (Camera_SubscribeExportNotify sdkOk7 stBound 9 31 42).sdkCalls =
      [SdkCall.SC_SubscribeExportNotify (GetSDKHandle stBound 9) .OnExportCallback 9] ∧
    (Camera_AttachProcessedGrabbing sdkOk7 stBound 9 31 42).sdkCalls =
      [SdkCall.SC_AttachProImgGrabbing (GetSDKHandle stBound 9) .OnProcessedFrameCallback 9]) :=
  ⟨by decide,
   C9_registration_passes_handle_as_context sdkOk7 stBound 9 31 42 (by decide) (by decide)⟩

theorem map_range_getD {α β : Type} (l : List α) (d : α) (f : α → β) :
    (List.range l.length).map (fun i => f (l.getD i d)) = l.map f := by
  apply List.ext_getElem
  · simp
  · intro i h1 h2
    have hi : i < l.length := by simpa using h2
    simp [List.getD, List.getElem?_eq_getElem hi]

/-- C11: for each of the four trampolines, every payload and every token that has no
binding in the registry of that event kind, the delivery drops the event: the result
is defined, no user callback is invoked, and the globals (all registries among them)
are as before. -/
theorem C11_unbound_token_dropped (st : State) (ev : SdkEvent)
    (hunbound : (ev.registry st).find ev.pUser = none) :
    ev.deliver st = { state := st, calls := some [] } := by
  cases ev with
  | connect pConnectArg pUser =>
    have h : st.g_connectCallbackMap.find pUser = none := hunbound
    cases pConnectArg <;> simp [SdkEvent.deliver, OnConnectCallback, h]
  | paramUpdate pParamUpdateArg pUser =>
    have h : st.g_paramUpdateCallbackMap.find pUser = none := hunbound
    cases pParamUpdateArg with
    | none => simp [SdkEvent.deliver, OnParamUpdateCallback]
    | some arg =>
      cases hn : arg.pParamNameList <;> simp [SdkEvent.deliver, OnParamUpdateCallback, h, hn]
  | exportNotify progress msgText notify pUser =>
    have h : st.g_exportCallbackMap.find pUser = none := hunbound
    simp [SdkEvent.deliver, OnExportCallback, h]
  | processedFrame pFrame pUser =>
    have h : st.g_processedFrameCallbackMap.find pUser = none := hunbound
    cases pFrame <;> simp [SdkEvent.deliver, OnProcessedFrameCallback, h]

/-- C11, checked for a frame of zero height that arrives with the token `7` after the
handle `7` of the bound sample state has been destroyed. -/
theorem C11_unbound_token_dropped_witness :
    ((SdkEvent.processedFrame (some flatFrame) 7).registry
        (Camera_DestroyHandle sdkOk7 stBound 7).state).find
      (SdkEvent.processedFrame (some flatFrame) 7).pUser = none ∧
    (SdkEvent.processedFrame (some flatFrame) 7).deliver
        (Camera_DestroyHandle sdkOk7 stBound 7).state
      = { state := (Camera_DestroyHandle sdkOk7 stBound 7).state, calls := some [] } :=
  ⟨by decide,
   C11_unbound_token_dropped (Camera_DestroyHandle sdkOk7 stBound 7).state
     (SdkEvent.processedFrame (some flatFrame) 7) (by decide)⟩

/-- C12: for every event with a well-formed payload whose token `H` has the binding
`(cb, u)`, with `cb` non-null, in the registry of the event's kind, the delivery is
defined and every user callback it invokes is `cb` with the user data `u`: once for a
connection, export or frame event, `nParamCnt` times for a parameter update. The
choice depends on the binding of `H` alone: a second run, in any state and with any
well-formed payload of the same fan-out, in which the token has the same binding
invokes the same callbacks with the same user data. -/
theorem C12_callback_selected_by_token (st : State) (ev : SdkEvent) (cb u : Nat)
    (hvalid : ev.wellFormed = true)
    (hbound : (ev.registry st).find ev.pUser = some ⟨cb, u⟩) (hcb : cb ≠ 0) :
    (∃ calls, (ev.deliver st).calls = some calls ∧
      calls.map UserCall.target = List.replicate ev.fanOut (cb, u)) ∧
    (ev.deliver st).state = st ∧
    (∀ (st' : State) (ev' : SdkEvent), ev'.wellFormed = true →
      (ev'.registry st').find ev'.pUser = some ⟨cb, u⟩ → ev'.fanOut = ev.fanOut →
      ((ev'.deliver st').calls).map (List.map UserCall.target)
        = ((ev.deliver st).calls).map (List.map UserCall.target)) := by
  have key : ∀ (s : State) (e : SdkEvent), e.wellFormed = true →
      (e.registry s).find e.pUser = some ⟨cb, u⟩ →
      ((e.deliver s).calls).map (List.map UserCall.target)
        = some (List.replicate e.fanOut (cb, u)) := by
    intro s e hv hb
    cases e with
    | connect pConnectArg pUser =>
      cases pConnectArg with
      | none => simp [SdkEvent.wellFormed] at hv
      | some arg =>
        have h : s.g_connectCallbackMap.find pUser = some ⟨cb, u⟩ := hb
        simp [SdkEvent.deliver, SdkEvent.fanOut, UserCall.target,
          OnConnectCallback_of_bound s arg pUser cb u h hcb]
    | paramUpdate pParamUpdateArg pUser =>
      cases pParamUpdateArg with
      | none => simp [SdkEvent.wellFormed] at hv
      | some arg =>
        obtain ⟨names, n⟩ := arg
        cases names with
        | none => simp [SdkEvent.wellFormed] at hv
        | some names =>
          have h : s.g_paramUpdateCallbackMap.find pUser = some ⟨cb, u⟩ := hb
          simp only [SdkEvent.deliver, SdkEvent.fanOut,
            OnParamUpdateCallback_of_bound s names n pUser cb u h hcb, Option.map_some',
            List.map_map]
          congr 1
          apply List.ext_getElem <;> simp [UserCall.target]
    | exportNotify progress msgText notify pUser =>
      have h : s.g_exportCallbackMap.find pUser = some ⟨cb, u⟩ := hb
      simp [SdkEvent.deliver, SdkEvent.fanOut, UserCall.target,
        OnExportCallback_of_bound s progress msgText notify pUser cb u h hcb]
    | processedFrame pFrame pUser =>
      cases pFrame with
      | none => simp [SdkEvent.wellFormed] at hv
      | some frame =>
        have h : s.g_processedFrameCallbackMap.find pUser = some ⟨cb, u⟩ := hb
        have hh : frame.frameInfo.height ≠ 0 := by simpa [SdkEvent.wellFormed] using hv
        simp [SdkEvent.deliver, SdkEvent.fanOut, UserCall.target,
          OnProcessedFrameCallback_of_bound s frame pUser cb u h hcb hh]
  refine ⟨?_, ?_, ?_⟩
  · have h := key st ev hvalid hbound
    cases hc : (ev.deliver st).calls with
    | none => rw [hc] at h; simp at h
    | some calls =>
      rw [hc] at h
      exact ⟨calls, rfl, by simpa using h⟩
  · cases ev <;> rfl
  · intro st' ev' hv' hb' hf
    rw [key st ev hvalid hbound, key st' ev' hv' hb', hf]

/-- C12, checked on the bound sample state for a connection event with token `7`
against a run with another serial number in the state left by destroying handle `9`. -/
theorem C12_callback_selected_by_token_witness :
    ((SdkEvent.connect (some ⟨1, "SN-1"⟩) 7).wellFormed = true ∧
      ((SdkEvent.connect (some ⟨1, "SN-1"⟩) 7).registry stBound).find
        (SdkEvent.connect (some ⟨1, "SN-1"⟩) 7).pUser = some ⟨11, 21⟩ ∧ (11 : Nat) ≠ 0) ∧
    (((SdkEvent.connect (some ⟨1, "SN-2"⟩) 7).deliver
        (Camera_DestroyHandle sdkOk7 stBound 9).state).calls).map (List.map UserCall.target)
      = (((SdkEvent.connect (some ⟨1, "SN-1"⟩) 7).deliver stBound).calls).map
          (List.map UserCall.target) :=
  ⟨by decide,
   (C12_callback_selected_by_token stBound (SdkEvent.connect (some ⟨1, "SN-1"⟩) 7) 11 21
      (by decide) (by decide) (by decide)).2.2
      (Camera_DestroyHandle sdkOk7 stBound 9).state (SdkEvent.connect (some ⟨1, "SN-2"⟩) 7)
      (by decide) (by decide) (by decide)⟩

/-- C13: for a parameter-update notification that carries the names `names` with
`nParamCnt` equal to their number, and a token `H` bound to `(cb, u)` with `cb`
non-null, the trampoline invokes `cb` exactly once per name, the `i`-th time with the
`i`-th name and the user data `u`, in the order of the list; for an empty list it
invokes nothing. -/
theorem C13_param_update_fan_out (st : State) (names : List String) (H cb u : Nat)
    (hbound : st.g_paramUpdateCallbackMap.find H = some ⟨cb, u⟩) (hcb : cb ≠ 0) :
    OnParamUpdateCallback st (some ⟨some names, names.length⟩) H
      = names.map (fun name => UserCall.paramUpdate cb name u) ∧
    (OnParamUpdateCallback st (some ⟨some names, names.length⟩) H).length = names.length ∧
    (∀ i (hi : i < names.length),
      (OnParamUpdateCallback st (some ⟨some names, names.length⟩) H)[i]?
        = some (UserCall.paramUpdate cb names[i] u)) ∧
    OnParamUpdateCallback st (some ⟨some [], 0⟩) H = [] := by
  have hmain : OnParamUpdateCallback st (some ⟨some names, names.length⟩) H
      = names.map (fun name => UserCall.paramUpdate cb name u) := by
    rw [OnParamUpdateCallback_of_bound st names names.length H cb u hbound hcb]
    exact map_range_getD names "" (fun name => UserCall.paramUpdate cb name u)
  refine ⟨hmain, ?_, ?_, ?_⟩
  · rw [hmain, List.length_map]
  · intro i hi
    rw [hmain]
    simp [List.getElem?_eq_getElem hi]
  · rw [OnParamUpdateCallback_of_bound st [] 0 H cb u hbound hcb]
    rfl

/-- C13, checked on the bound sample state for the names `Width`, `Height` and the
token `7`. -/
theorem C13_param_update_fan_out_witness :
    (stBound.g_paramUpdateCallbackMap.find 7 = some ⟨13, 23⟩ ∧ (13 : Nat) ≠ 0) ∧
    OnParamUpdateCallback stBound (some ⟨some ["Width", "Height"], 2⟩) 7
      = [UserCall.paramUpdate 13 "Width" 23, UserCall.paramUpdate 13 "Height" 23] :=
  ⟨by decide,
   (C13_param_update_fan_out stBound ["Width", "Height"] 7 13 23 (by decide) (by decide)).1⟩

/-- C14: for every non-null connection payload and every token bound to `(cb, u)` with
`cb` non-null, the connection trampoline invokes `cb` once, with the connected flag
`1` when the payload's event is `eOnLine` and `0` for every other event value, with
the payload's serial number as the device-identifying string, and with `u`. -/
theorem C14_connect_flag_and_serial (st : State) (arg : SC_SConnectArg) (H cb u : Nat)
    (hbound : st.g_connectCallbackMap.find H = some ⟨cb, u⟩) (hcb : cb ≠ 0) :
    (arg.event = eOnLine →
      OnConnectCallback st (some arg) H = [UserCall.connect cb 1 arg.serialNumber u]) ∧
    (arg.event ≠ eOnLine →
      OnConnectCallback st (some arg) H = [UserCall.connect cb 0 arg.serialNumber u]) := by
  rw [OnConnectCallback_of_bound st arg H cb u hbound hcb]
  constructor
  · intro h
    rw [if_pos h]
  · intro h
    rw [if_neg h]

/-- C14, checked on the bound sample state for the token `7`: an off-line event and an
event value outside the two indicators both give the flag `0`. -/
theorem C14_connect_flag_and_serial_witness :
    (stBound.g_connectCallbackMap.find 7 = some ⟨11, 21⟩ ∧ (11 : Nat) ≠ 0) ∧
    OnConnectCallback stBound (some ⟨1, "SN-1"⟩) 7 = [UserCall.connect 11 1 "SN-1" 21] ∧
    OnConnectCallback stBound (some ⟨5, "SN-1"⟩) 7 = [UserCall.connect 11 0 "SN-1" 21] :=
  ⟨by decide,
   (C14_connect_flag_and_serial stBound ⟨1, "SN-1"⟩ 7 11 21 (by decide) (by decide)).1
     (by decide),
   (C14_connect_flag_and_serial stBound ⟨5, "SN-1"⟩ 7 11 21 (by decide) (by decide)).2
     (by decide)⟩

/-- C15: for every pair of integers `(notify, progress)` the SDK delivers to the export
trampoline, whatever their values, with a token bound to `(cb, u)`, `cb` non-null, the
user callback `cb` is invoked exactly once, with `status = notify`, the progress
unchanged and `u`; and a sequence of such events, in any order of states and progress
values, produces the same sequence of invocations, one per event. -/
theorem C15_export_forwarded_verbatim (st : State) (H cb u : Nat)
    (hbound : st.g_exportCallbackMap.find H = some ⟨cb, u⟩) (hcb : cb ≠ 0) :
    (∀ (notify progress : Int) (msgText : Option String),
      OnExportCallback st progress msgText notify H
        = [UserCall.exportEvent cb notify progress u]) ∧
    (∀ events : List (Int × Int),
      events.flatMap (fun e => OnExportCallback st e.2 none e.1 H)
        = events.map (fun e => UserCall.exportEvent cb e.1 e.2 u)) := by
  have h1 : ∀ (notify progress : Int) (msgText : Option String),
      OnExportCallback st progress msgText notify H
        = [UserCall.exportEvent cb notify progress u] :=
    fun notify progress msgText =>
      OnExportCallback_of_bound st progress msgText notify H cb u hbound hcb
  refine ⟨h1, fun events => ?_⟩
  induction events with
  | nil => rfl
  | cons e es ih =>
    rw [List.flatMap_cons, List.map_cons, ih, h1]
    rfl

/-- C15, checked on the bound sample state for the token `7`: a state value outside the
lifecycle, a progress above 100, then a smaller, negative progress. -/
theorem C15_export_forwarded_verbatim_witness :
    (stBound.g_exportCallbackMap.find 7 = some ⟨15, 25⟩ ∧ (15 : Nat) ≠ 0) ∧
    [((99 : Int), (250 : Int)), (1, -5)].flatMap (fun e => OnExportCallback stBound e.2 none e.1 7)
      = [((99 : Int), (250 : Int)), (1, -5)].map (fun e => UserCall.exportEvent 15 e.1 e.2 25) :=
  ⟨by decide,
   (C15_export_forwarded_verbatim stBound 7 15 25 (by decide) (by decide)).2
     [((99 : Int), (250 : Int)), (1, -5)]⟩

/-! ## C16 to C20: the lease operations -/

theorem lease_of_rejected (processed : Bool) (sdk : SDK) (st : State) (H : CameraHandle)
    (pImage timeout : Nat) (h : GetSDKHandle st H = 0 ∨ pImage = 0) :
    lease processed sdk st H pImage timeout = { state := st, ret := -1 } := by
  cases processed
  · simp only [lease, Camera_GetFrame]
    rw [if_pos h]
  · simp only [lease, Camera_GetProcessedFrame]
    rw [if_pos h]

theorem lease_of_live (processed : Bool) (sdk : SDK) (st : State) (H : CameraHandle)
    (pImage timeout : Nat) (hlive : GetSDKHandle st H ≠ 0) (hp : pImage ≠ 0) :
    lease processed sdk st H pImage timeout =
      if (sdk (leaseCall processed (GetSDKHandle st H) timeout)).ret ≠ SC_OK then
        { state := st, ret := (sdk (leaseCall processed (GetSDKHandle st H) timeout)).ret,
          sdkCalls := [leaseCall processed (GetSDKHandle st H) timeout] }
      else if (sdk (leaseCall processed (GetSDKHandle st H) timeout)).frame.frameInfo.width = 0 ∨
          (sdk (leaseCall processed (GetSDKHandle st H) timeout)).frame.frameInfo.height = 0 ∨
          (sdk (leaseCall processed (GetSDKHandle st H) timeout)).frame.frameInfo.size = 0 ∨
          (sdk (leaseCall processed (GetSDKHandle st H) timeout)).frame.pData = 0 then
        { state := st, ret := -1,
          sdkCalls := [leaseCall processed (GetSDKHandle st H) timeout,
            SdkCall.SC_ReleaseFrame (GetSDKHandle st H)
              (sdk (leaseCall processed (GetSDKHandle st H) timeout)).frame] }
      else
        { state := st, ret := SC_OK,
          sdkCalls := [leaseCall processed (GetSDKHandle st H) timeout],
          out := some
            { width :=
                toInt32 (sdk (leaseCall processed (GetSDKHandle st H) timeout)).frame.frameInfo.width
              height :=
                toInt32 (sdk (leaseCall processed (GetSDKHandle st H) timeout)).frame.frameInfo.height
              pixelFormat :=
                toInt32
                  (sdk (leaseCall processed (GetSDKHandle st H) timeout)).frame.frameInfo.pixelFormat
              dataSize :=
                toInt32 (sdk (leaseCall processed (GetSDKHandle st H) timeout)).frame.frameInfo.size
              stride :=
                toInt32
                  ((sdk (leaseCall processed (GetSDKHandle st H) timeout)).frame.frameInfo.size /
                    (sdk (leaseCall processed (GetSDKHandle st H) timeout)).frame.frameInfo.height
                    : Nat)
              blockId := (sdk (leaseCall processed (GetSDKHandle st H) timeout)).frame.frameInfo.frameId
              timeStamp :=
                (sdk (leaseCall processed (GetSDKHandle st H) timeout)).frame.frameInfo.timeStamp
              pData := (sdk (leaseCall processed (GetSDKHandle st H) timeout)).frame.pData } } := by
  have hguard : ¬ (GetSDKHandle st H = 0 ∨ pImage = 0) := by
    rintro (h | h)
    · exact hlive h
    · exact hp h
  cases processed
  · simp only [lease, Camera_GetFrame, leaseCall]
    rw [if_neg hguard]
  · simp only [lease, Camera_GetProcessedFrame, leaseCall]
    rw [if_neg hguard]

/-- C16 (as stated, refuted): on the bound sample state, after
`Camera_AttachProcessedGrabbing` has succeeded on the live handle `7`, so that `7` has
a frame-delivery binding, both `Camera_GetProcessedFrame` and `Camera_GetFrame` on `7`
call the SDK, return `0` and write the record of the frame the SDK hands out. -/
theorem C16_lease_during_delivery_counterexample :
    (Camera_AttachProcessedGrabbing sdkOk7 stBound 7 31 41).ret = 0 ∧
    (Camera_AttachProcessedGrabbing sdkOk7 stBound 7 31 41).state.g_processedFrameCallbackMap.find 7
      = some ⟨31, 41⟩ ∧
    GetSDKHandle (Camera_AttachProcessedGrabbing sdkOk7 stBound 7 31 41).state 7 = 7 ∧
    (Camera_GetProcessedFrame (sdkFrame sampleFrame)
      (Camera_AttachProcessedGrabbing sdkOk7 stBound 7 31 41).state 7 1 0).ret = 0 ∧
    (Camera_GetProcessedFrame (sdkFrame sampleFrame)
      (Camera_AttachProcessedGrabbing sdkOk7 stBound 7 31 41).state 7 1 0).sdkCalls
      = [SdkCall.SC_GetProcessedFrame 7 0] ∧
    (Camera_GetProcessedFrame (sdkFrame sampleFrame)
      (Camera_AttachProcessedGrabbing sdkOk7 stBound 7 31 41).state 7 1 0).out
      = some { width := 4, height := 2, stride := 9, pixelFormat := 17, pData := 4096,
               dataSize := 18, blockId := 5, timeStamp := 1000 } ∧
    (Camera_GetFrame (sdkFrame sampleFrame)
      (Camera_AttachProcessedGrabbing sdkOk7 stBound 7 31 41).state 7 1 0).ret = 0 ∧
    (Camera_GetFrame (sdkFrame sampleFrame)
      (Camera_AttachProcessedGrabbing sdkOk7 stBound 7 31 41).state 7 1 0).sdkCalls
      = [SdkCall.SC_GetFrame 7 0] := by
  refine ⟨rfl, ?_, ?_, rfl, rfl, ?_, rfl, rfl⟩
  · decide
  · decide
  · decide

/-- C16 (amended): the facade keeps no exclusion between the two paths. For every live
handle `H` and non-null record pointer, a lease starts with the SDK's get-frame call
on the resolved handle, and its return code, the record it writes and the SDK calls
it makes are the same whatever the frame-delivery registry holds, a binding for `H`
included. -/
theorem C16_lease_ignores_frame_binding (processed : Bool) (sdk : SDK) (st : State)
    (m : StdMap CallbackInfo) (H : CameraHandle) (pImage timeout : Nat)
    (hlive : GetSDKHandle st H ≠ 0) (hp : pImage ≠ 0) :
    (∃ rest, (lease processed sdk { st with g_processedFrameCallbackMap := m } H pImage
        timeout).sdkCalls = leaseCall processed (GetSDKHandle st H) timeout :: rest) ∧
    (lease processed sdk { st with g_processedFrameCallbackMap := m } H pImage timeout).ret
      = (lease processed sdk st H pImage timeout).ret ∧
    (lease processed sdk { st with g_processedFrameCallbackMap := m } H pImage timeout).out
      = (lease processed sdk st H pImage timeout).out ∧
    (lease processed sdk { st with g_processedFrameCallbackMap := m } H pImage timeout).sdkCalls
      = (lease processed sdk st H pImage timeout).sdkCalls := by
  have hlive' : GetSDKHandle { st with g_processedFrameCallbackMap := m } H ≠ 0 := hlive
  have hsame : GetSDKHandle { st with g_processedFrameCallbackMap := m } H
      = GetSDKHandle st H := rfl
  rw [lease_of_live processed sdk _ H pImage timeout hlive' hp,
    lease_of_live processed sdk st H pImage timeout hlive hp, hsame]
  split_ifs
  · exact ⟨⟨_, rfl⟩, rfl, rfl, rfl⟩
  · exact ⟨⟨_, rfl⟩, rfl, rfl, rfl⟩
  · exact ⟨⟨_, rfl⟩, rfl, rfl, rfl⟩

/-- C16 (amended), checked on the bound sample state for the handle `7`, with the
frame-delivery registry replaced by one that binds only `7`. -/
theorem C16_lease_ignores_frame_binding_witness :
    (GetSDKHandle stBound 7 ≠ 0 ∧ (1 : Nat) ≠ 0) ∧
    (lease true (sdkFrame sampleFrame)
        { stBound with g_processedFrameCallbackMap := ⟨[(7, ⟨31, 41⟩)]⟩ } 7 1 0).out
      = (lease true (sdkFrame sampleFrame) stBound 7 1 0).out :=
  ⟨by decide,
   (C16_lease_ignores_frame_binding true (sdkFrame sampleFrame) stBound ⟨[(7, ⟨31, 41⟩)]⟩ 7 1 0
      (by decide) (by decide)).2.2.1⟩

/-- C17: the two paths translate a native frame alike. Let `f` be a native frame with
non-zero width, height and size and a non-null data pointer. If the SDK hands `f` out
with `SC_OK` to `Camera_GetProcessedFrame` on a live handle, and the frame-delivery
trampoline receives `f` for a token bound to `(cb, u)` with `cb` non-null, then the
record the trampoline passes to `cb` is the record `Camera_GetProcessedFrame` writes:
width, height, pixel format and data size of `f` and the stride `size / height`, each
converted to the `int` field that holds it, block id the frame id, the time stamp
and the data pointer. -/
theorem C17_async_record_equals_sync_record (sdk : SDK) (st st2 : State)
    (H H2 : CameraHandle) (pImage timeout : Nat) (f : SC_Frame) (cb u : Nat)
    (hlive : GetSDKHandle st H ≠ 0) (hp : pImage ≠ 0)
    (hret : (sdk (SdkCall.SC_GetProcessedFrame (GetSDKHandle st H) timeout)).ret = SC_OK)
    (hframe : (sdk (SdkCall.SC_GetProcessedFrame (GetSDKHandle st H) timeout)).frame = f)
    (hw : f.frameInfo.width ≠ 0) (hh : f.frameInfo.height ≠ 0) (hs : f.frameInfo.size ≠ 0)
    (hd : f.pData ≠ 0)
    (hbound : st2.g_processedFrameCallbackMap.find H2 = some ⟨cb, u⟩) (hcb : cb ≠ 0) :
    ∃ r : ImageData,
      (Camera_GetProcessedFrame sdk st H pImage timeout).out = some r ∧
      (Camera_GetProcessedFrame sdk st H pImage timeout).ret = 0 ∧
      OnProcessedFrameCallback st2 (some f) H2 = some [UserCall.frame cb r u] ∧
      r = { width := toInt32 f.frameInfo.width
            height := toInt32 f.frameInfo.height
            pixelFormat := toInt32 f.frameInfo.pixelFormat
            dataSize := toInt32 f.frameInfo.size
            stride := toInt32 (f.frameInfo.size / f.frameInfo.height : Nat)
            blockId := f.frameInfo.frameId
            timeStamp := f.frameInfo.timeStamp
            pData := f.pData } := by
  have hl := lease_of_live true sdk st H pImage timeout hlive hp
  simp only [lease, leaseCall] at hl
  rw [hframe, if_neg (not_not.mpr hret)] at hl
  rw [if_neg (by rintro (h | h | h | h); exact hw h; exact hh h; exact hs h; exact hd h)] at hl
  rw [hl]
  exact ⟨_, rfl, rfl, OnProcessedFrameCallback_of_bound st2 f H2 cb u hbound hcb hh, rfl⟩

/-- C17, checked with the sample frame: leased on the handle `9` of the bound sample
state and delivered for the token `7`. -/
theorem C17_async_record_equals_sync_record_witness :
    (GetSDKHandle stBound 9 ≠ 0 ∧ (1 : Nat) ≠ 0 ∧
      sampleFrame.frameInfo.width ≠ 0 ∧ sampleFrame.frameInfo.height ≠ 0 ∧
      sampleFrame.frameInfo.size ≠ 0 ∧ sampleFrame.pData ≠ 0 ∧
      stBound.g_processedFrameCallbackMap.find 7 = some ⟨17, 27⟩ ∧ (17 : Nat) ≠ 0) ∧
    ∃ r : ImageData,
      (Camera_GetProcessedFrame (sdkFrame sampleFrame) stBound 9 1 0).out = some r ∧
      (Camera_GetProcessedFrame (sdkFrame sampleFrame) stBound 9 1 0).ret = 0 ∧
      OnProcessedFrameCallback stBound (some sampleFrame) 7 = some [UserCall.frame 17 r 27] ∧
      r = { width := toInt32 sampleFrame.frameInfo.width
            height := toInt32 sampleFrame.frameInfo.height
            pixelFormat := toInt32 sampleFrame.frameInfo.pixelFormat
            dataSize := toInt32 sampleFrame.frameInfo.size
            stride := toInt32 (sampleFrame.frameInfo.size / sampleFrame.frameInfo.height : Nat)
            blockId := sampleFrame.frameInfo.frameId
            timeStamp := sampleFrame.frameInfo.timeStamp
            pData := sampleFrame.pData } :=
  ⟨by decide,
   C17_async_record_equals_sync_record (sdkFrame sampleFrame) stBound stBound 9 7 1 0
     sampleFrame 17 27 (by decide) (by decide) rfl rfl (by decide) (by decide) (by decide)
     (by decide) (by decide) (by decide)⟩

/-- C18: for both lease operations on a live handle with a non-null record pointer:
when the SDK's get-frame call answers `SC_OK` but the native frame has width `0`, or
height `0`, or size `0`, or a null data pointer, the lease returns `-1`, makes after
the get-frame call exactly one more SDK call, `SC_ReleaseFrame` on the resolved handle
with that same native frame, writes no record and leaves the globals unchanged. -/
theorem C18_invalid_frame_released (processed : Bool) (sdk : SDK) (st : State)
    (H : CameraHandle) (pImage timeout : Nat)
    (hlive : GetSDKHandle st H ≠ 0) (hp : pImage ≠ 0)
    (hret : (sdk (leaseCall processed (GetSDKHandle st H) timeout)).ret = SC_OK)
    (hbad : (sdk (leaseCall processed (GetSDKHandle st H) timeout)).frame.frameInfo.width = 0 ∨
      (sdk (leaseCall processed (GetSDKHandle st H) timeout)).frame.frameInfo.height = 0 ∨
      (sdk (leaseCall processed (GetSDKHandle st H) timeout)).frame.frameInfo.size = 0 ∨
      (sdk (leaseCall processed (GetSDKHandle st H) timeout)).frame.pData = 0) :
    lease processed sdk st H pImage timeout =
      { state := st, ret := -1, out := none,
        sdkCalls := [leaseCall processed (GetSDKHandle st H) timeout,
          SdkCall.SC_ReleaseFrame (GetSDKHandle st H)
            (sdk (leaseCall processed (GetSDKHandle st H) timeout)).frame] } := by
  rw [lease_of_live processed sdk st H pImage timeout hlive hp,
    if_neg (not_not.mpr hret), if_pos hbad]

/-- C18, checked on the bound sample state for `Camera_GetFrame` on the handle `7` with
an SDK that hands out the frame of zero height. -/
theorem C18_invalid_frame_released_witness :
    (GetSDKHandle stBound 7 ≠ 0 ∧ (1 : Nat) ≠ 0 ∧
      ((sdkFrame flatFrame) (leaseCall false (GetSDKHandle stBound 7) 0)).ret = SC_OK ∧
      ((sdkFrame flatFrame) (leaseCall false (GetSDKHandle stBound 7) 0)).frame.frameInfo.height
        = 0) ∧
    lease false (sdkFrame flatFrame) stBound 7 1 0 =
      { state := stBound, ret := -1, out := none,
        sdkCalls := [leaseCall false (GetSDKHandle stBound 7) 0,
          SdkCall.SC_ReleaseFrame (GetSDKHandle stBound 7)
            ((sdkFrame flatFrame) (leaseCall false (GetSDKHandle stBound 7) 0)).frame] } :=
  ⟨⟨by decide, by decide, rfl, rfl⟩,
   C18_invalid_frame_released false (sdkFrame flatFrame) stBound 7 1 0 (by decide) (by decide)
     rfl (Or.inr (Or.inl rfl))⟩

theorem toInt32_of_int (i : Int) (h1 : -2147483648 ≤ i) (h2 : i < 2147483648) :
    toInt32 i = i := by
  unfold toInt32
  omega

theorem toUInt32_toInt32 (n : Nat) (h : n < 4294967296) : toUInt32 (toInt32 n) = n := by
  unfold toUInt32 toInt32
  omega

/-- C20: for both lease operations, every live handle, non-null record pointer and
every timeout `t`, the lease makes the SDK's get-frame call once, first, on the
resolved handle with `t` unchanged; the only other SDK call it can make is the one
release of a frame that fails the validity test. If the get-frame call answers a
non-zero code `c`, the lease returns `c`, makes no other SDK call, writes no record
and leaves the globals unchanged. -/
theorem C20_timeout_and_failure_forwarded (processed : Bool) (sdk : SDK) (st : State)
    (H : CameraHandle) (pImage t : Nat) (hlive : GetSDKHandle st H ≠ 0) (hp : pImage ≠ 0) :
    ((lease processed sdk st H pImage t).sdkCalls = [leaseCall processed (GetSDKHandle st H) t] ∨
      (lease processed sdk st H pImage t).sdkCalls
        = [leaseCall processed (GetSDKHandle st H) t,
           SdkCall.SC_ReleaseFrame (GetSDKHandle st H)
             (sdk (leaseCall processed (GetSDKHandle st H) t)).frame]) ∧
    (∀ c : Int, (sdk (leaseCall processed (GetSDKHandle st H) t)).ret = c → c ≠ 0 →
      lease processed sdk st H pImage t =
        { state := st, ret := c, out := none,
          sdkCalls := [leaseCall processed (GetSDKHandle st H) t] }) := by
  rw [lease_of_live processed sdk st H pImage t hlive hp]
  constructor
  · split_ifs
    · exact Or.inl rfl
    · exact Or.inr rfl
    · exact Or.inl rfl
  · intro c hc hne
    rw [if_pos (by rw [hc]; exact hne), hc]

/-- C20, checked on the bound sample state for the handle `7`, the unbounded-wait
sentinel `0xFFFFFFFF` and an SDK that answers the code `3`. -/
theorem C20_timeout_and_failure_forwarded_witness :
    (GetSDKHandle stBound 7 ≠ 0 ∧ (1 : Nat) ≠ 0 ∧
      ((sdkFail 3) (leaseCall false (GetSDKHandle stBound 7) 0xFFFFFFFF)).ret = 3 ∧
      (3 : Int) ≠ 0) ∧
    lease false (sdkFail 3) stBound 7 1 0xFFFFFFFF =
      { state := stBound, ret := 3, out := none,
        sdkCalls := [leaseCall false (GetSDKHandle stBound 7) 0xFFFFFFFF] } :=
  ⟨⟨by decide, by decide, rfl, by decide⟩,
   (C20_timeout_and_failure_forwarded false (sdkFail 3) stBound 7 1 0xFFFFFFFF
      (by decide) (by decide)).2 3 rfl (by decide)⟩

/-! ## C21: lease and release -/

/-- C21: for every native frame the SDK hands out through a lease that returns `0` on a
handle `H`, the fields of its header being values of the header's types, with `r` the
record the lease writes, `Camera_ReleaseFrame(H, r)` makes exactly one SDK call,
`SC_ReleaseFrame` on the resolved handle with a native frame whose data pointer,
width, height, pixel format and size are those of the frame handed out, and returns
the code the SDK gives to that call. The record's `int` fields hold the unsigned
values modulo `2^32`, and the release converts them back. -/
theorem C21_release_rebuilds_leased_frame (processed : Bool) (sdk sdk2 : SDK) (st : State)
    (H : CameraHandle) (pImage timeout : Nat) (r : ImageData)
    (hret : (lease processed sdk st H pImage timeout).ret = 0)
    (hout : (lease processed sdk st H pImage timeout).out = some r)
    (hty : (sdk (leaseCall processed (GetSDKHandle st H) timeout)).frame.frameInfo.wellTyped) :
    ∃ f' : SC_Frame,
      Camera_ReleaseFrame sdk2 st H (some r) =
        { state := st, ret := (sdk2 (SdkCall.SC_ReleaseFrame (GetSDKHandle st H) f')).ret,
          out := none, sdkCalls := [SdkCall.SC_ReleaseFrame (GetSDKHandle st H) f'] } ∧
      f'.pData = (sdk (leaseCall processed (GetSDKHandle st H) timeout)).frame.pData ∧
      f'.frameInfo.width
        = (sdk (leaseCall processed (GetSDKHandle st H) timeout)).frame.frameInfo.width ∧
      f'.frameInfo.height
        = (sdk (leaseCall processed (GetSDKHandle st H) timeout)).frame.frameInfo.height ∧
      f'.frameInfo.pixelFormat
        = (sdk (leaseCall processed (GetSDKHandle st H) timeout)).frame.frameInfo.pixelFormat ∧
      f'.frameInfo.size
        = (sdk (leaseCall processed (GetSDKHandle st H) timeout)).frame.frameInfo.size := by
  by_cases hrej : GetSDKHandle st H = 0 ∨ pImage = 0
  · rw [lease_of_rejected processed sdk st H pImage timeout hrej] at hret
    exact absurd hret (by simp)
  · have hlive : GetSDKHandle st H ≠ 0 := fun h => hrej (Or.inl h)
    have hp : pImage ≠ 0 := fun h => hrej (Or.inr h)
    rw [lease_of_live processed sdk st H pImage timeout hlive hp] at hret hout
    generalize (sdk (leaseCall processed (GetSDKHandle st H) timeout)).frame = frame
      at hret hout hty ⊢
    obtain ⟨tw, th, ts, tp1, tp2⟩ := hty
    split_ifs at hret hout with h1 h2
    have hr := Option.some.inj hout
    subst hr
    refine ⟨{ pData := frame.pData,
              frameInfo :=
                { width := toUInt32 (toInt32 frame.frameInfo.width),
                  height := toUInt32 (toInt32 frame.frameInfo.height),
                  pixelFormat := toInt32 frame.frameInfo.pixelFormat,
                  size := toUInt32 (toInt32 frame.frameInfo.size) } }, ?_, rfl, ?_, ?_, ?_, ?_⟩
    · simp only [Camera_ReleaseFrame, if_neg hlive]
    · dsimp only
      exact toUInt32_toInt32 frame.frameInfo.width tw
    · dsimp only
      exact toUInt32_toInt32 frame.frameInfo.height th
    · dsimp only
      exact toInt32_of_int frame.frameInfo.pixelFormat tp1 tp2
    · dsimp only
      exact toUInt32_toInt32 frame.frameInfo.size ts

/-- C21, checked on the bound sample state: the frame of `2^32 - 1` bytes, whose size
the record holds as `-1`, is leased on the handle `7` and released through an SDK
that answers the release with the code `3`. -/
theorem C21_release_rebuilds_leased_frame_witness :
    ((lease false (sdkFrame hugeFrame) stBound 7 1 0).ret = 0 ∧
      (lease false (sdkFrame hugeFrame) stBound 7 1 0).out
        = some { width := 4, height := 2, stride := 2147483647, pixelFormat := 17,
                 pData := 4096, dataSize := -1, blockId := 5, timeStamp := 1000 } ∧
      ((sdkFrame hugeFrame)
        (leaseCall false (GetSDKHandle stBound 7) 0)).frame.frameInfo.wellTyped) ∧
    ∃ f' : SC_Frame,
      Camera_ReleaseFrame (sdkFail 3) stBound 7
          (some { width := 4, height := 2, stride := 2147483647, pixelFormat := 17,
                  pData := 4096, dataSize := -1, blockId := 5, timeStamp := 1000 }) =
        { state := stBound,
          ret := ((sdkFail 3) (SdkCall.SC_ReleaseFrame (GetSDKHandle stBound 7) f')).ret,
          out := none, sdkCalls := [SdkCall.SC_ReleaseFrame (GetSDKHandle stBound 7) f'] } ∧
      f'.pData
        = ((sdkFrame hugeFrame) (leaseCall false (GetSDKHandle stBound 7) 0)).frame.pData ∧
      f'.frameInfo.width
        = ((sdkFrame hugeFrame)
            (leaseCall false (GetSDKHandle stBound 7) 0)).frame.frameInfo.width ∧
      f'.frameInfo.height
        = ((sdkFrame hugeFrame)
            (leaseCall false (GetSDKHandle stBound 7) 0)).frame.frameInfo.height ∧
      f'.frameInfo.pixelFormat
        = ((sdkFrame hugeFrame)
            (leaseCall false (GetSDKHandle stBound 7) 0)).frame.frameInfo.pixelFormat ∧
      f'.frameInfo.size
        = ((sdkFrame hugeFrame)
            (leaseCall false (GetSDKHandle stBound 7) 0)).frame.frameInfo.size :=
  ⟨⟨rfl, by decide, by decide⟩,
   C21_release_rebuilds_leased_frame false (sdkFrame hugeFrame) (sdkFail 3) stBound 7 1 0 _
     rfl (by decide) (by decide)⟩

/-! ## C22 and C23: the enumeration cache and the device name -/

theorem Camera_GetDeviceName_of_accepted (st : State) (index : Int) (name : Nat)
    (nameSize : Int) (hname : name ≠ 0) (hlo : 0 ≤ index)
    (hhi : index < (st.g_deviceList.devNum : Int)) :
    Camera_GetDeviceName st index name nameSize =
      { state := st, ret := 0,
        out := strncpy_s (size_t nameSize)
          (st.g_deviceList.pDevInfo.getD index.toNat default).cameraName,
        sdkCalls := [],
        invalidParameter := (strncpy_s (size_t nameSize)
          (st.g_deviceList.pDevInfo.getD index.toNat default).cameraName).isNone } := by
  unfold Camera_GetDeviceName
  rw [if_neg (by
    rintro (h | h | h)
    · exact hname h
    · exact absurd hlo (not_le.mpr h)
    · exact absurd hhi (not_lt.mpr h))]
  rfl

theorem Camera_GetDeviceName_of_rejected (st : State) (index : Int) (name : Nat)
    (nameSize : Int)
    (h : name = 0 ∨ index < 0 ∨ index ≥ (st.g_deviceList.devNum : Int)) :
    Camera_GetDeviceName st index name nameSize =
      { state := st, ret := -1, out := none, sdkCalls := [] } := by
  unfold Camera_GetDeviceName
  rw [if_pos h]

theorem size_t_of_nonneg (n : Int) (h : 0 ≤ n) : size_t n = n.toNat := by
  unfold size_t
  rw [if_neg (not_lt.mpr h)]

theorem strncpy_s_zero (src : String) : strncpy_s (size_t 0) src = none := rfl

theorem strncpy_s_of_pos (n : Int) (src : String) (h : 0 < n) :
    strncpy_s (size_t n) src = some ((cBytes src).take (n.toNat - 1)) := by
  have hn : n.toNat ≠ 0 := by omega
  rw [size_t_of_nonneg n (le_of_lt h)]
  unfold strncpy_s
  rw [if_neg hn]

theorem strncpy_s_of_neg (n : Int) (src : String) (h : n < 0) (hint : -2147483648 ≤ n) :
    strncpy_s (size_t n) src =
      some ((cBytes src).take ((n % 18446744073709551616).toNat - 1)) := by
  have hn : (n % 18446744073709551616).toNat ≠ 0 := by omega
  unfold size_t
  rw [if_pos h]
  unfold strncpy_s
  rw [if_neg hn]

theorem take_length_lt (bytes : List Nat) (n : Int) (h : 0 < n) :
    (((bytes.take (n.toNat - 1)).length : Nat) : Int) < n := by
  have h1 : (bytes.take (n.toNat - 1)).length ≤ n.toNat - 1 := List.length_take_le _ _
  omega

/-- C23 (as stated, refuted): on the sample state with one device, the buffer is
non-null and the index `0` is within the cache, yet with `nameSize = 0` the call
invokes the invalid-parameter handler of `strncpy_s` and stores nothing in the
buffer; the code `0` is what the caller sees where the handler lets execution
continue. -/
theorem C23_zero_size_counterexample :
    ((1 : Nat) ≠ 0 ∧ (0 : Int) ≤ 0 ∧ (0 : Int) < (stEnumerated.g_deviceList.devNum : Int)) ∧
    Camera_GetDeviceName stEnumerated 0 1 0 =
      { state := stEnumerated, ret := 0, out := none, sdkCalls := [],
        invalidParameter := true } := by
  refine ⟨by decide, rfl⟩

/-- C23 (amended): `Camera_GetDeviceName` never calls the SDK and never changes the
globals. It returns `-1`, with nothing stored in the buffer, exactly when the buffer
is null or the index is not within `0 ≤ index < devNum` of the current cache.
Otherwise it passes the name of the descriptor at `index` and `nameSize` to
`strncpy_s` and returns `0`. For `nameSize ≥ 1` the buffer receives the first
`nameSize - 1` bytes of the name: a prefix of its bytes shorter than `nameSize`, the
whole name when it is shorter than `nameSize`. For `nameSize = 0` the
invalid-parameter handler is invoked and nothing is stored. A negative `nameSize`
(an `int`) reaches the CRT as a `size_t` of `2^64 + nameSize`, and the whole of a
name shorter than `2^63` bytes is stored. -/
theorem C23_get_device_name_by_size (st : State) (index : Int) (name : Nat)
    (nameSize : Int) :
    (Camera_GetDeviceName st index name nameSize).sdkCalls = [] ∧
    (Camera_GetDeviceName st index name nameSize).state = st ∧
    ((Camera_GetDeviceName st index name nameSize).ret = -1 ↔
      ¬ (name ≠ 0 ∧ 0 ≤ index ∧ index < (st.g_deviceList.devNum : Int))) ∧
    (¬ (name ≠ 0 ∧ 0 ≤ index ∧ index < (st.g_deviceList.devNum : Int)) →
      Camera_GetDeviceName st index name nameSize =
        { state := st, ret := -1, out := none, sdkCalls := [], invalidParameter := false }) ∧
    (name ≠ 0 ∧ 0 ≤ index ∧ index < (st.g_deviceList.devNum : Int) →
      (Camera_GetDeviceName st index name nameSize).ret = 0 ∧
      (Camera_GetDeviceName st index name nameSize).out =
        strncpy_s (size_t nameSize)
          (st.g_deviceList.pDevInfo.getD index.toNat default).cameraName ∧
      (0 < nameSize →
        Camera_GetDeviceName st index name nameSize =
          { state := st, ret := 0, sdkCalls := [], invalidParameter := false,
            out := some ((cBytes (st.g_deviceList.pDevInfo.getD index.toNat default).cameraName).take
              (nameSize.toNat - 1)) } ∧
        (cBytes (st.g_deviceList.pDevInfo.getD index.toNat default).cameraName).take
            (nameSize.toNat - 1)
          <+: cBytes (st.g_deviceList.pDevInfo.getD index.toNat default).cameraName ∧
        ((((cBytes (st.g_deviceList.pDevInfo.getD index.toNat default).cameraName).take
            (nameSize.toNat - 1)).length : Nat) : Int) < nameSize ∧
        ((((cBytes (st.g_deviceList.pDevInfo.getD index.toNat default).cameraName).length : Nat)
            : Int) < nameSize →
          (Camera_GetDeviceName st index name nameSize).out =
            some (cBytes (st.g_deviceList.pDevInfo.getD index.toNat default).cameraName))) ∧
      (nameSize = 0 →
        Camera_GetDeviceName st index name nameSize =
          { state := st, ret := 0, out := none, sdkCalls := [], invalidParameter := true }) ∧
      (nameSize < 0 → -2147483648 ≤ nameSize →
        (cBytes (st.g_deviceList.pDevInfo.getD index.toNat default).cameraName).length
          < 9223372036854775808 →
        Camera_GetDeviceName st index name nameSize =
          { state := st, ret := 0, sdkCalls := [], invalidParameter := false,
            out := some
              (cBytes (st.g_deviceList.pDevInfo.getD index.toNat default).cameraName) })) := by
  by_cases hrej : name = 0 ∨ index < 0 ∨ index ≥ (st.g_deviceList.devNum : Int)
  · have hno : ¬ (name ≠ 0 ∧ 0 ≤ index ∧ index < (st.g_deviceList.devNum : Int)) := by
      rintro ⟨h1, h2, h3⟩
      rcases hrej with h | h | h
      · exact h1 h
      · exact absurd h2 (not_le.mpr h)
      · exact absurd h3 (not_lt.mpr h)
    rw [Camera_GetDeviceName_of_rejected st index name nameSize hrej]
    exact ⟨rfl, rfl, ⟨fun _ => hno, fun _ => rfl⟩, fun _ => rfl, fun h => absurd h hno⟩
  · have h1 : name ≠ 0 := fun h => hrej (Or.inl h)
    have h2 : 0 ≤ index := not_lt.mp (fun h => hrej (Or.inr (Or.inl h)))
    have h3 : index < (st.g_deviceList.devNum : Int) :=
      not_le.mp (fun h => hrej (Or.inr (Or.inr h)))
    rw [Camera_GetDeviceName_of_accepted st index name nameSize h1 h2 h3]
    generalize (st.g_deviceList.pDevInfo.getD index.toNat default).cameraName = src
    refine ⟨rfl, rfl, ⟨fun h => absurd h (by simp), fun h => absurd ⟨h1, h2, h3⟩ h⟩,
      fun h => absurd ⟨h1, h2, h3⟩ h, fun _ => ⟨rfl, rfl, ?_, ?_, ?_⟩⟩
    · intro hsize
      rw [strncpy_s_of_pos nameSize src hsize]
      refine ⟨rfl, List.take_prefix _ _, take_length_lt _ _ hsize, ?_⟩
      intro hfit
      have hle : (cBytes src).length ≤ nameSize.toNat - 1 := by omega
      simp only [List.take_of_length_le hle]
    · intro hzero
      subst hzero
      rw [strncpy_s_zero]
      rfl
    · intro hneg hint hlen
      rw [strncpy_s_of_neg nameSize src hneg hint]
      have hle : (cBytes src).length ≤ (nameSize % 18446744073709551616).toNat - 1 := by omega
      simp only [List.take_of_length_le hle]
      rfl

/-- C23 (amended), checked on the sample state with one device: the name is cut to
four bytes by a buffer of five, and the index `1` is refused. -/
theorem C23_get_device_name_by_size_witness :
    ((1 : Nat) ≠ 0 ∧ (0 : Int) ≤ 0 ∧ (0 : Int) < (stEnumerated.g_deviceList.devNum : Int)) ∧
    (Camera_GetDeviceName stEnumerated 0 1 5).out = some (cBytes "Glor") ∧
    (Camera_GetDeviceName stEnumerated 0 1 5 =
        { state := stEnumerated, ret := 0, sdkCalls := [], invalidParameter := false,
          out := some
            ((cBytes (stEnumerated.g_deviceList.pDevInfo.getD (0 : Int).toNat default).cameraName).take
              ((5 : Int).toNat - 1)) }) ∧
    Camera_GetDeviceName stEnumerated 1 1 5 =
      { state := stEnumerated, ret := -1, out := none, sdkCalls := [],
        invalidParameter := false } :=
  ⟨by decide, by decide,
   (((C23_get_device_name_by_size stEnumerated 0 1 5).2.2.2.2 (by decide)).2.2.1
      (by decide)).1,
   (C23_get_device_name_by_size stEnumerated 1 1 5).2.2.2.1 (by decide)⟩

/-! ## C24 and C25: the enumerated-entry listing -/

theorem foldl_range_pointwise {α : Type} (F : List α → Nat → List α) (upd : Nat → α → α)
    (hF : ∀ l i j, (F l i)[j]? = if j = i then (l[j]?).map (upd i) else l[j]?) :
    ∀ (n : Nat) (l : List α) (j : Nat),
      ((List.range n).foldl F l)[j]? = if j < n then (l[j]?).map (upd j) else l[j]? := by
  intro n
  induction n with
  | zero => intro l j; simp
  | succ n ih =>
    intro l j
    rw [List.range_succ, List.foldl_append, List.foldl_cons, List.foldl_nil, hF]
    by_cases hj : j = n
    · subst hj
      rw [if_pos rfl, ih, if_neg (Nat.lt_irrefl _), if_pos (Nat.lt_succ_self _)]
    · rw [if_neg hj, ih]
      by_cases hlt : j < n
      · rw [if_pos hlt, if_pos (Nat.lt_succ_of_lt hlt)]
      · rw [if_neg hlt, if_neg (by omega)]

theorem foldl_range_eq_mapIdx {α : Type} (F : List α → Nat → List α) (upd : Nat → α → α)
    (hF : ∀ l i j, (F l i)[j]? = if j = i then (l[j]?).map (upd i) else l[j]?)
    (n : Nat) (l : List α) :
    (List.range n).foldl F l = l.mapIdx (fun j x => if j < n then upd j x else x) := by
  apply List.ext_getElem?
  intro j
  rw [foldl_range_pointwise F upd hF n l j, List.getElem?_mapIdx]
  by_cases hlt : j < n
  · simp [hlt]
  · simp [hlt]

theorem set_getElem?_pointwise {α : Type} (a : Nat → α) (l : List α) (i j : Nat) :
    (l.set i (a i))[j]? = if j = i then (l[j]?).map (fun _ => a i) else l[j]? := by
  by_cases hj : j = i
  · subst hj
    rw [if_pos rfl, List.getElem?_set_self']
    cases l[j]? <;> rfl
  · rw [if_neg hj, List.getElem?_set_ne (fun h => hj h.symm)]

theorem symbol_step_pointwise (symbolSize : Int) (h : Nat → List Nat) (ss : List (Option (List Nat)))
    (i j : Nat) :
    (if (ss.getD i none) ≠ none ∧ symbolSize > 0 then ss.set i (some (h i)) else ss)[j]? =
      if j = i then
        (ss[j]?).map (fun x => if x ≠ none ∧ symbolSize > 0 then some (h i) else x)
      else ss[j]? := by
  by_cases hj : j = i
  · subst hj
    rw [if_pos rfl]
    cases hx : ss[j]? with
    | none =>
      have hd : ss.getD j none = none := by simp [hx]
      simp [hd, hx]
    | some x =>
      have hd : ss.getD j none = x := by simp [hx]
      by_cases hc : x ≠ none ∧ symbolSize > 0
      · rw [hd, if_pos hc, List.getElem?_set_self', hx]
        simp [hc]
      · rw [hd, if_neg hc, hx]
        simp [hc]
  · rw [if_neg hj]
    split
    · exact List.getElem?_set_ne (fun h => hj h.symm)
    · rfl

theorem Camera_GetEnumFeatureEntrys_of_query (sdk : SDK) (st : State) (H : CameraHandle)
    (featureName : String) (N : Nat) (values : List Nat)
    (pSymbols : Option (List (Option (List Nat)))) (symbolSize : Int)
    (hlive : GetSDKHandle st H ≠ 0)
    (hret : (sdk (SdkCall.SC_GetEnumFeatureEntrys (GetSDKHandle st H) featureName
      { enumEntryBufferSize := N, pEnumEntryInfo := List.replicate N {} })).ret = SC_OK) :
    Camera_GetEnumFeatureEntrys sdk st H (some featureName) (some N) (some values) pSymbols
        symbolSize =
      { state := st, ret := 0,
        sdkCalls := [SdkCall.SC_GetEnumFeatureEntrys (GetSDKHandle st H) featureName
          { enumEntryBufferSize := N, pEnumEntryInfo := List.replicate N {} }],
        out := some
          { entryNum := (sdk (SdkCall.SC_GetEnumFeatureEntrys (GetSDKHandle st H) featureName
              { enumEntryBufferSize := N, pEnumEntryInfo := List.replicate N {} })).entryList.enumEntryBufferSize
            enumValues := some (values.mapIdx (fun j x =>
              if j < (sdk (SdkCall.SC_GetEnumFeatureEntrys (GetSDKHandle st H) featureName
                  { enumEntryBufferSize := N,
                    pEnumEntryInfo := List.replicate N {} })).entryList.enumEntryBufferSize
              then ((sdk (SdkCall.SC_GetEnumFeatureEntrys (GetSDKHandle st H) featureName
                  { enumEntryBufferSize := N,
                    pEnumEntryInfo := List.replicate N {} })).entryList.pEnumEntryInfo.getD j {}).value
              else x))
            symbols := pSymbols.map (fun syms => syms.mapIdx (fun j x =>
              if j < (sdk (SdkCall.SC_GetEnumFeatureEntrys (GetSDKHandle st H) featureName
                  { enumEntryBufferSize := N,
                    pEnumEntryInfo := List.replicate N {} })).entryList.enumEntryBufferSize
              then
                (if x ≠ none ∧ symbolSize > 0 then
                  some ((cBytes
                    ((sdk (SdkCall.SC_GetEnumFeatureEntrys (GetSDKHandle st H) featureName
                      { enumEntryBufferSize := N,
                        pEnumEntryInfo := List.replicate N {} })).entryList.pEnumEntryInfo.getD
                      j {}).name).take (symbolSize.toNat - 1))
                else x)
              else x)) } } := by
  simp only [Camera_GetEnumFeatureEntrys, Option.getD_some]
  rw [if_neg (by rintro (h | h); exact hlive h; exact absurd h (by simp)), if_pos hret]
  generalize (sdk (SdkCall.SC_GetEnumFeatureEntrys (GetSDKHandle st H) featureName
      { enumEntryBufferSize := N, pEnumEntryInfo := List.replicate N {} })).entryList = L
  generalize (sdk (SdkCall.SC_GetEnumFeatureEntrys (GetSDKHandle st H) featureName
      { enumEntryBufferSize := N, pEnumEntryInfo := List.replicate N {} })).ret = c at hret
  subst hret
  have hv := foldl_range_eq_mapIdx
    (fun (vs : List Nat) i => vs.set i (L.pEnumEntryInfo.getD i {}).value)
    (fun i _ => (L.pEnumEntryInfo.getD i {}).value)
    (fun l i j => set_getElem?_pointwise (fun i => (L.pEnumEntryInfo.getD i {}).value) l i j)
    L.enumEntryBufferSize values
  have hs : ∀ syms : List (Option (List Nat)),
      (List.range L.enumEntryBufferSize).foldl
        (fun ss i =>
          if (ss.getD i none) ≠ none ∧ symbolSize > 0 then
            ss.set i (some ((cBytes (L.pEnumEntryInfo.getD i {}).name).take (symbolSize.toNat - 1)))
          else ss) syms
      = syms.mapIdx (fun j x =>
          if j < L.enumEntryBufferSize then
            (if x ≠ none ∧ symbolSize > 0 then
              some ((cBytes (L.pEnumEntryInfo.getD j {}).name).take (symbolSize.toNat - 1))
            else x)
          else x) :=
    fun syms => foldl_range_eq_mapIdx
      (fun (ss : List (Option (List Nat))) i =>
        if (ss.getD i none) ≠ none ∧ symbolSize > 0 then
          ss.set i (some ((cBytes (L.pEnumEntryInfo.getD i {}).name).take (symbolSize.toNat - 1)))
        else ss)
      (fun i x => if x ≠ none ∧ symbolSize > 0 then
          some ((cBytes (L.pEnumEntryInfo.getD i {}).name).take (symbolSize.toNat - 1)) else x)
      (fun l i j => symbol_step_pointwise symbolSize
        (fun i => (cBytes (L.pEnumEntryInfo.getD i {}).name).take (symbolSize.toNat - 1)) l i j)
      L.enumEntryBufferSize syms
  have hstep :
      (fun (ss : List (Option (List Nat))) (i : Nat) =>
        if (ss.getD i none) ≠ none ∧ symbolSize > 0 then
          match strncpy_s (size_t symbolSize) (L.pEnumEntryInfo.getD i {}).name with
          | some copied => ss.set i (some copied)
          | none => ss
        else ss) =
      (fun ss i =>
        if (ss.getD i none) ≠ none ∧ symbolSize > 0 then
          ss.set i (some ((cBytes (L.pEnumEntryInfo.getD i {}).name).take (symbolSize.toNat - 1)))
        else ss) := by
    funext ss i
    by_cases hc : (ss.getD i none) ≠ none ∧ symbolSize > 0
    · rw [if_pos hc, if_pos hc, strncpy_s_of_pos symbolSize _ hc.2]
    · rw [if_neg hc, if_neg hc]
  rw [hv, hstep]
  simp only [hs]
  rfl

theorem mapIdx_overwrite {α β : Type} (values : List β) (es : List α) (d : α) (f : α → β)
    (hlen : values.length = es.length) :
    values.mapIdx (fun j x => if j < es.length then f (es.getD j d) else x) = es.map f := by
  apply List.ext_getElem?
  intro j
  rw [List.getElem?_mapIdx, List.getElem?_map]
  by_cases hj : j < es.length
  · have hv : j < values.length := hlen ▸ hj
    rw [List.getElem?_eq_getElem hv, List.getElem?_eq_getElem hj]
    simp [hj, List.getD, List.getElem?_eq_getElem hj]
  · have hv : ¬ j < values.length := hlen ▸ hj
    rw [List.getElem?_eq_none (not_lt.mp hv), List.getElem?_eq_none (not_lt.mp hj)]
    rfl

theorem fillEntryList_fresh (entries : List SC_EnumEntryInfo) (N : Nat) :
    fillEntryList entries { enumEntryBufferSize := N, pEnumEntryInfo := List.replicate N {} } =
      { enumEntryBufferSize := N,
        pEnumEntryInfo := entries.take N ++ List.replicate (N - entries.length) {} } := by
  simp [fillEntryList, List.drop_replicate]

theorem fillEntryList_fresh_length (entries : List SC_EnumEntryInfo) (N : Nat) :
    (entries.take N ++ List.replicate (N - entries.length) ({} : SC_EnumEntryInfo)).length
      = N := by
  rw [List.length_append, List.length_take, List.length_replicate]
  omega

theorem Camera_GetEnumFeatureEntrys_of_filled (sdk : SDK) (st : State) (H : CameraHandle)
    (featureName : String) (N : Nat) (values : List Nat)
    (pSymbols : Option (List (Option (List Nat)))) (symbolSize : Int)
    (entries : List SC_EnumEntryInfo)
    (hlive : GetSDKHandle st H ≠ 0) (hlen : values.length = N)
    (hret : (sdk (SdkCall.SC_GetEnumFeatureEntrys (GetSDKHandle st H) featureName
      { enumEntryBufferSize := N, pEnumEntryInfo := List.replicate N {} })).ret = SC_OK)
    (hfill : (sdk (SdkCall.SC_GetEnumFeatureEntrys (GetSDKHandle st H) featureName
      { enumEntryBufferSize := N, pEnumEntryInfo := List.replicate N {} })).entryList =
        fillEntryList entries
          { enumEntryBufferSize := N, pEnumEntryInfo := List.replicate N {} }) :
    Camera_GetEnumFeatureEntrys sdk st H (some featureName) (some N) (some values) pSymbols
        symbolSize =
      { state := st, ret := 0,
        sdkCalls := [SdkCall.SC_GetEnumFeatureEntrys (GetSDKHandle st H) featureName
          { enumEntryBufferSize := N, pEnumEntryInfo := List.replicate N {} }],
        out := some
          { entryNum := N
            enumValues := some
              ((entries.take N).map (fun e => e.value) ++ List.replicate (N - entries.length) 0)
            symbols := pSymbols.map (fun syms => syms.mapIdx (fun j x =>
              if j < N then
                (if x ≠ none ∧ symbolSize > 0 then
                  some ((cBytes
                    ((entries.take N ++ List.replicate (N - entries.length)
                      ({} : SC_EnumEntryInfo)).getD j {}).name).take (symbolSize.toNat - 1))
                else x)
              else x)) } } := by
  rw [Camera_GetEnumFeatureEntrys_of_query sdk st H featureName N values pSymbols symbolSize
    hlive hret, hfill, fillEntryList_fresh]
  have hes := fillEntryList_fresh_length entries N
  have hv := mapIdx_overwrite values
    (entries.take N ++ List.replicate (N - entries.length) ({} : SC_EnumEntryInfo)) {}
    (fun e => e.value) (hlen.trans hes.symm)
  rw [hes] at hv
  dsimp only
  rw [hv, List.map_append, List.map_replicate]

/-- C24: the two-step listing on a live handle `H`, for a property whose entries are
`entries` and an SDK that fills the list it is given as the spec describes. Called
with a value buffer of `N` slots, `N` at most the number of entries,
`Camera_GetEnumFeatureEntrys` makes the one entry query, returns `0`, writes back the
count `N` and leaves in the value buffer exactly the values of the first `N` entries,
in order; every non-null symbol buffer below `N` receives the name of its entry, cut
to its first `symbolSize - 1` bytes. Called with a null value buffer, for any count the caller put in, it
makes only the count query and no entry query, returns the SDK's code, writes back
the count the SDK stores and touches neither a value nor a symbol. -/
theorem C24_two_step_listing (sdk : SDK) (st : State) (H : CameraHandle)
    (featureName : String) (N : Nat) (values : List Nat)
    (pSymbols : Option (List (Option (List Nat)))) (symbolSize : Int)
    (entries : List SC_EnumEntryInfo)
    (hlive : GetSDKHandle st H ≠ 0) (hlen : values.length = N) (hN : N ≤ entries.length)
    (hret : (sdk (SdkCall.SC_GetEnumFeatureEntrys (GetSDKHandle st H) featureName
      { enumEntryBufferSize := N, pEnumEntryInfo := List.replicate N {} })).ret = SC_OK)
    (hfill : (sdk (SdkCall.SC_GetEnumFeatureEntrys (GetSDKHandle st H) featureName
      { enumEntryBufferSize := N, pEnumEntryInfo := List.replicate N {} })).entryList =
        fillEntryList entries
          { enumEntryBufferSize := N, pEnumEntryInfo := List.replicate N {} }) :
    (∃ symbols : Option (List (Option (List Nat))),
      Camera_GetEnumFeatureEntrys sdk st H (some featureName) (some N) (some values) pSymbols
          symbolSize =
        { state := st, ret := 0,
          sdkCalls := [SdkCall.SC_GetEnumFeatureEntrys (GetSDKHandle st H) featureName
            { enumEntryBufferSize := N, pEnumEntryInfo := List.replicate N {} }],
          out := some
            { entryNum := N
              enumValues := some ((entries.take N).map (fun e => e.value))
              symbols := symbols } } ∧
      (pSymbols = none → symbols = none) ∧
      (∀ syms, pSymbols = some syms →
        ∃ syms', symbols = some syms' ∧ syms'.length = syms.length ∧
          ∀ (j : Nat) (buf : List Nat), j < N → syms[j]? = some (some buf) → 0 < symbolSize →
            syms'[j]? = some (some ((cBytes (entries.getD j {}).name).take (symbolSize.toNat - 1))))) ∧
    (∀ (sdkc : SDK) (n0 : Nat),
      Camera_GetEnumFeatureEntrys sdkc st H (some featureName) (some n0) none pSymbols
          symbolSize =
        { state := st,
          ret := (sdkc (SdkCall.SC_GetEnumFeatureEntryNum (GetSDKHandle st H) featureName)).ret,
          sdkCalls := [SdkCall.SC_GetEnumFeatureEntryNum (GetSDKHandle st H) featureName],
          out := some
            { entryNum :=
                (sdkc (SdkCall.SC_GetEnumFeatureEntryNum (GetSDKHandle st H)
                  featureName)).stored.getD n0
              enumValues := none
              symbols := pSymbols } }) := by
  constructor
  · have hmain := Camera_GetEnumFeatureEntrys_of_filled sdk st H featureName N values pSymbols
      symbolSize entries hlive hlen hret hfill
    simp only [Nat.sub_eq_zero_of_le hN, List.replicate_zero, List.append_nil] at hmain
    refine ⟨_, hmain, ?_, ?_⟩
    · intro h
      rw [h]
      rfl
    · intro syms h
      rw [h]
      refine ⟨_, rfl, by simp, ?_⟩
      intro j buf hj hbuf hsize
      rw [List.getElem?_mapIdx, hbuf]
      simp [hj, hsize, List.getElem?_take_of_lt]
  · intro sdkc n0
    simp only [Camera_GetEnumFeatureEntrys, Option.getD_some]
    rw [if_neg (by rintro (h | h); exact hlive h; exact absurd h (by simp))]

/-- C24, checked on the bound sample state for the handle `7` and a property with three
entries: two values and symbols are listed, and the count query reports three. -/
theorem C24_two_step_listing_witness :
    (GetSDKHandle stBound 7 ≠ 0 ∧ [(0 : Nat), 0].length = 2 ∧
      2 ≤ [(⟨1, "Mono8"⟩ : SC_EnumEntryInfo), ⟨2, "Mono12"⟩, ⟨3, "Mono16"⟩].length) ∧
    (Camera_GetEnumFeatureEntrys (sdkEntries [⟨1, "Mono8"⟩, ⟨2, "Mono12"⟩, ⟨3, "Mono16"⟩])
        stBound 7 (some "PixelFormat") (some 2) (some [0, 0]) (some [some [], some []]) 5).out =
      some { entryNum := 2, enumValues := some [1, 2], symbols := some [some (cBytes "Mono"), some (cBytes "Mono")] } ∧
    Camera_GetEnumFeatureEntrys (sdkEntries [⟨1, "Mono8"⟩, ⟨2, "Mono12"⟩, ⟨3, "Mono16"⟩])
        stBound 7 (some "PixelFormat") (some 0) none (some [some [], some []]) 5 =
      { state := stBound,
        ret := ((sdkEntries [⟨1, "Mono8"⟩, ⟨2, "Mono12"⟩, ⟨3, "Mono16"⟩])
          (SdkCall.SC_GetEnumFeatureEntryNum (GetSDKHandle stBound 7) "PixelFormat")).ret,
        sdkCalls := [SdkCall.SC_GetEnumFeatureEntryNum (GetSDKHandle stBound 7) "PixelFormat"],
        out := some
          { entryNum :=
              ((sdkEntries [⟨1, "Mono8"⟩, ⟨2, "Mono12"⟩, ⟨3, "Mono16"⟩])
                (SdkCall.SC_GetEnumFeatureEntryNum (GetSDKHandle stBound 7)
                  "PixelFormat")).stored.getD 0
            enumValues := none
            symbols := some [some [], some []] } } :=
  ⟨by decide, by decide,
   (C24_two_step_listing (sdkEntries [⟨1, "Mono8"⟩, ⟨2, "Mono12"⟩, ⟨3, "Mono16"⟩]) stBound 7
      "PixelFormat" 2 [0, 0] (some [some [], some []]) 5
      [⟨1, "Mono8"⟩, ⟨2, "Mono12"⟩, ⟨3, "Mono16"⟩] (by decide) rfl (by decide) rfl rfl).2
      (sdkEntries [⟨1, "Mono8"⟩, ⟨2, "Mono12"⟩, ⟨3, "Mono16"⟩]) 0⟩

/-- C25 (as stated, refuted): on the bound sample state for the handle `7`, a property
with the single entry of value `5` and a value buffer of three slots holding
`7, 8, 9`: the call writes all three slots, leaving `5, 0, 0` and not `5, 8, 9`, and
writes back the count `3`. -/
theorem C25_slots_beyond_entries_overwritten_counterexample :
    (Camera_GetEnumFeatureEntrys (sdkEntries [⟨5, "Mono8"⟩]) stBound 7 (some "PixelFormat")
        (some 3) (some [7, 8, 9]) none 0).out =
      some { entryNum := 3, enumValues := some [5, 0, 0], symbols := none } ∧
    (Camera_GetEnumFeatureEntrys (sdkEntries [⟨5, "Mono8"⟩]) stBound 7 (some "PixelFormat")
        (some 3) (some [7, 8, 9]) none 0).out ≠
      some { entryNum := 3, enumValues := some [5, 8, 9], symbols := none } := by
  constructor
  · decide
  · decide

/-- C25 (amended): when `Camera_GetEnumFeatureEntrys` is called on a live handle with a
value buffer of `N` slots, the property has the entries `entries` and the SDK fills
the list it is given as the spec describes, the call returns `0`, writes all `N`
slots of the value buffer, the first `min(N, number of entries)` with the values of
the entries and every later slot with `0`, the value of the zero-filled entry the
SDK left alone, and writes back the count `N`, also when the property has more or
fewer entries than `N`. -/
theorem C25_all_slots_written (sdk : SDK) (st : State) (H : CameraHandle)
    (featureName : String) (N : Nat) (values : List Nat)
    (pSymbols : Option (List (Option (List Nat)))) (symbolSize : Int)
    (entries : List SC_EnumEntryInfo)
    (hlive : GetSDKHandle st H ≠ 0) (hlen : values.length = N)
    (hret : (sdk (SdkCall.SC_GetEnumFeatureEntrys (GetSDKHandle st H) featureName
      { enumEntryBufferSize := N, pEnumEntryInfo := List.replicate N {} })).ret = SC_OK)
    (hfill : (sdk (SdkCall.SC_GetEnumFeatureEntrys (GetSDKHandle st H) featureName
      { enumEntryBufferSize := N, pEnumEntryInfo := List.replicate N {} })).entryList =
        fillEntryList entries
          { enumEntryBufferSize := N, pEnumEntryInfo := List.replicate N {} }) :
    ∃ symbols : Option (List (Option (List Nat))),
      Camera_GetEnumFeatureEntrys sdk st H (some featureName) (some N) (some values) pSymbols
          symbolSize =
        { state := st, ret := 0,
          sdkCalls := [SdkCall.SC_GetEnumFeatureEntrys (GetSDKHandle st H) featureName
            { enumEntryBufferSize := N, pEnumEntryInfo := List.replicate N {} }],
          out := some
            { entryNum := N
              enumValues := some
                ((entries.take N).map (fun e => e.value)
                  ++ List.replicate (N - entries.length) 0)
              symbols := symbols } } :=
  ⟨_, Camera_GetEnumFeatureEntrys_of_filled sdk st H featureName N values pSymbols symbolSize
      entries hlive hlen hret hfill⟩

/-- C25 (amended), checked on the bound sample state for the handle `7`, one entry and a
buffer of three slots. -/
theorem C25_all_slots_written_witness :
    (GetSDKHandle stBound 7 ≠ 0 ∧ [(7 : Nat), 8, 9].length = 3) ∧
    ∃ symbols : Option (List (Option (List Nat))),
      Camera_GetEnumFeatureEntrys (sdkEntries [⟨5, "Mono8"⟩]) stBound 7 (some "PixelFormat")
          (some 3) (some [7, 8, 9]) none 0 =
        { state := stBound, ret := 0,
          sdkCalls := [SdkCall.SC_GetEnumFeatureEntrys (GetSDKHandle stBound 7) "PixelFormat"
            { enumEntryBufferSize := 3, pEnumEntryInfo := List.replicate 3 {} }],
          out := some
            { entryNum := 3
              enumValues := some
                (([(⟨5, "Mono8"⟩ : SC_EnumEntryInfo)].take 3).map (fun e => e.value)
                  ++ List.replicate (3 - [(⟨5, "Mono8"⟩ : SC_EnumEntryInfo)].length) 0)
              symbols := symbols } } :=
  ⟨by decide,
   C25_all_slots_written (sdkEntries [⟨5, "Mono8"⟩]) stBound 7 "PixelFormat" 3 [7, 8, 9] none 0
     [⟨5, "Mono8"⟩] (by decide) rfl rfl rfl⟩

/-! ## C26, C27, C29 and C30: detach, auto-level modes, frame delivery, subscription -/

/-- C26: in the model of `Camera_DetachGrabbing` taken from the spec, for every live
handle `H` (with or without a frame-delivery binding) the detach returns `0` and
removes the frame-delivery binding of `H`, so that every frame delivered afterwards
with the token `H` is dropped without a user callback; `H` stays live with the same
SDK handle, and the handle registry, the other three callback registries, the
enumeration cache and the frame-delivery bindings of other handles are unchanged. -/
theorem C26_detach_removes_frame_binding (st : State) (H : CameraHandle)
    (hlive : GetSDKHandle st H ≠ 0) :
    (Camera_DetachGrabbing st H).ret = 0 ∧
    (Camera_DetachGrabbing st H).state.g_processedFrameCallbackMap.find H = none ∧
    (∀ pFrame : Option SC_Frame,
      (SdkEvent.processedFrame pFrame H).deliver (Camera_DetachGrabbing st H).state
        = { state := (Camera_DetachGrabbing st H).state, calls := some [] }) ∧
    GetSDKHandle (Camera_DetachGrabbing st H).state H = GetSDKHandle st H ∧
    (Camera_DetachGrabbing st H).state =
      { st with g_processedFrameCallbackMap := st.g_processedFrameCallbackMap.erase H } ∧
    (∀ H', H' ≠ H →
      (Camera_DetachGrabbing st H).state.g_processedFrameCallbackMap.find H'
        = st.g_processedFrameCallbackMap.find H') := by
  have heq : Camera_DetachGrabbing st H =
      { state := { st with
          g_processedFrameCallbackMap := st.g_processedFrameCallbackMap.erase H },
        ret := SC_OK } := by
    unfold Camera_DetachGrabbing
    dsimp only
    rw [if_neg hlive]
  rw [heq]
  refine ⟨rfl, StdMap.find_erase_self _ _, ?_, rfl, rfl, ?_⟩
  · intro pFrame
    have h : ({ st with g_processedFrameCallbackMap :=
        st.g_processedFrameCallbackMap.erase H } : State).g_processedFrameCallbackMap.find H
        = none := StdMap.find_erase_self _ _
    cases pFrame <;> simp [SdkEvent.deliver, OnProcessedFrameCallback, h]
  · intro H' hne
    exact StdMap.find_erase_ne _ _ _ hne

/-- C26, checked on the bound sample state for the handle `7`, which has the
frame-delivery binding `(17, 27)`. -/
theorem C26_detach_removes_frame_binding_witness :
    (GetSDKHandle stBound 7 ≠ 0 ∧
      stBound.g_processedFrameCallbackMap.find 7 = some ⟨17, 27⟩) ∧
    (Camera_DetachGrabbing stBound 7).state.g_processedFrameCallbackMap.find 7 = none ∧
    (SdkEvent.processedFrame (some sampleFrame) 7).deliver (Camera_DetachGrabbing stBound 7).state
      = { state := (Camera_DetachGrabbing stBound 7).state, calls := some [] } ∧
    GetSDKHandle (Camera_DetachGrabbing stBound 7).state 7 = GetSDKHandle stBound 7 :=
  ⟨by decide,
   (C26_detach_removes_frame_binding stBound 7 (by decide)).2.1,
   (C26_detach_removes_frame_binding stBound 7 (by decide)).2.2.1 (some sampleFrame),
   (C26_detach_removes_frame_binding stBound 7 (by decide)).2.2.2.1⟩

/-- C27 (as stated, refuted): on the bound sample state and the live handle `7`, the
setter sends `eAutoLevelR` for the mode number `1` and `eAutoLevelL` for `2`, and
the getter reports `eAutoLevelR` as `1` and `eAutoLevelL` as `2`: for both numbers
decoding the encoded mode gives the number back. -/
theorem C27_auto_level_round_trip_counterexample :
    (Camera_SetAutoLevels sdkOk7 stBound 7 1).sdkCalls
      = [SdkCall.SC_SetAutoLevels 7 .eAutoLevelR] ∧
    (Camera_GetAutoLevels (sdkLevel .eAutoLevelR) stBound 7 1).out = some 1 ∧
    (Camera_SetAutoLevels sdkOk7 stBound 7 2).sdkCalls
      = [SdkCall.SC_SetAutoLevels 7 .eAutoLevelL] ∧
    (Camera_GetAutoLevels (sdkLevel .eAutoLevelL) stBound 7 1).out = some 2 := by
  refine ⟨rfl, ?_, rfl, ?_⟩
  · decide
  · decide

/-- C27 (amended): the auto-level mode numbers are encoded alike in both directions.
For every live handle and every mode number `m` from `0` to `3`,
`Camera_SetAutoLevels` sends one SDK mode for `m` (`eAutoLevelOff`, `eAutoLevelR`,
`eAutoLevelL`, `eAutoLevelRL` in this order), and whenever the SDK's get call
answers `SC_OK` with that mode, `Camera_GetAutoLevels` stores `m`. -/
theorem C27_auto_level_encoding_symmetric (sdk sdk2 : SDK) (st : State) (H : CameraHandle)
    (pMode : Nat) (m : Int) (hlive : GetSDKHandle st H ≠ 0) (hp : pMode ≠ 0)
    (hm : m = 0 ∨ m = 1 ∨ m = 2 ∨ m = 3) :
    ∃ mode : SC_AutoLevelMode,
      (Camera_SetAutoLevels sdk st H m).sdkCalls
        = [SdkCall.SC_SetAutoLevels (GetSDKHandle st H) mode] ∧
      mode = (if m = 0 then SC_AutoLevelMode.eAutoLevelOff
        else if m = 1 then SC_AutoLevelMode.eAutoLevelR
        else if m = 2 then SC_AutoLevelMode.eAutoLevelL
        else SC_AutoLevelMode.eAutoLevelRL) ∧
      ((sdk2 (SdkCall.SC_GetAutoLevels (GetSDKHandle st H))).ret = SC_OK →
        (sdk2 (SdkCall.SC_GetAutoLevels (GetSDKHandle st H))).levelMode = mode →
        (Camera_GetAutoLevels sdk2 st H pMode).out = some m) := by
  have hget : ∀ mode : SC_AutoLevelMode,
      (sdk2 (SdkCall.SC_GetAutoLevels (GetSDKHandle st H))).ret = SC_OK →
      (sdk2 (SdkCall.SC_GetAutoLevels (GetSDKHandle st H))).levelMode = mode →
      (Camera_GetAutoLevels sdk2 st H pMode).out =
        some (match mode with
          | .eAutoLevelOff => 0
          | .eAutoLevelR => 1
          | .eAutoLevelL => 2
          | .eAutoLevelRL => 3
          | .other _ => 0) := by
    intro mode hret hmode
    simp only [Camera_GetAutoLevels]
    rw [if_neg (by rintro (h | h); exact hlive h; exact hp h), if_pos hret, hmode]
  rcases hm with h | h | h | h <;> subst h
  · exact ⟨.eAutoLevelOff, by simp [Camera_SetAutoLevels, hlive], by simp,
      hget .eAutoLevelOff⟩
  · exact ⟨.eAutoLevelR, by simp [Camera_SetAutoLevels, hlive], by simp,
      hget .eAutoLevelR⟩
  · exact ⟨.eAutoLevelL, by simp [Camera_SetAutoLevels, hlive], by simp,
      hget .eAutoLevelL⟩
  · exact ⟨.eAutoLevelRL, by simp [Camera_SetAutoLevels, hlive], by simp,
      hget .eAutoLevelRL⟩

/-- C27 (amended), checked on the bound sample state for the handle `7` and the mode
number `2`. -/
theorem C27_auto_level_encoding_symmetric_witness :
    (GetSDKHandle stBound 7 ≠ 0 ∧ (1 : Nat) ≠ 0 ∧
      ((2 : Int) = 0 ∨ (2 : Int) = 1 ∨ (2 : Int) = 2 ∨ (2 : Int) = 3)) ∧
    ∃ mode : SC_AutoLevelMode,
      (Camera_SetAutoLevels sdkOk7 stBound 7 2).sdkCalls
        = [SdkCall.SC_SetAutoLevels (GetSDKHandle stBound 7) mode] ∧
      mode = (if (2 : Int) = 0 then SC_AutoLevelMode.eAutoLevelOff
        else if (2 : Int) = 1 then SC_AutoLevelMode.eAutoLevelR
        else if (2 : Int) = 2 then SC_AutoLevelMode.eAutoLevelL
        else SC_AutoLevelMode.eAutoLevelRL) ∧
      (((sdkLevel .eAutoLevelL) (SdkCall.SC_GetAutoLevels (GetSDKHandle stBound 7))).ret = SC_OK →
        ((sdkLevel .eAutoLevelL) (SdkCall.SC_GetAutoLevels (GetSDKHandle stBound 7))).levelMode
          = mode →
        (Camera_GetAutoLevels (sdkLevel .eAutoLevelL) stBound 7 1).out = some 2) :=
  ⟨by decide,
   C27_auto_level_encoding_symmetric sdkOk7 (sdkLevel .eAutoLevelL) stBound 7 1 2
     (by decide) (by decide) (by decide)⟩

/-- C29 (the code at the failing input): on the bound sample state, for the bound token
`7` and a non-null native frame of height `0`, the frame-delivery trampoline reaches
the division `size / height` with a zero divisor, so its result is undefined and no
record is handed to the user callback; `Camera_GetFrame` given the same frame by
the SDK refuses it before any division. -/
theorem C29_frame_trampoline_divides_by_zero :
    stBound.g_processedFrameCallbackMap.find 7 = some ⟨17, 27⟩ ∧
    flatFrame.frameInfo.height = 0 ∧
    OnProcessedFrameCallback stBound (some flatFrame) 7 = none ∧
    (Camera_GetFrame (sdkFrame flatFrame) stBound 7 1 0).ret = -1 := by
  refine ⟨?_, rfl, ?_, rfl⟩
  · decide
  · decide

/-- C30: for each of the four subscribe operations on a live handle `H` with a non-null
callback `cb` and user data `u`: the one SDK registration call is made and its code is
returned unchanged, and for every code, a failure code included, the state afterwards
is the state before with the binding of `H` in the registry of that kind set to
`(cb, u)`: the only binding of `H` there, with the bindings of other handles in that
registry, the other three registries, the handle registry and the enumeration cache
as before. With a null callback each operation returns `-1`, makes no SDK call and
changes nothing. -/
theorem C30_subscribe_keeps_binding (sdk : SDK) (st : State) (H : CameraHandle)
    (cb u : Nat) (hlive : GetSDKHandle st H ≠ 0) (hcb : cb ≠ 0) :
    ((Camera_SubscribeConnectArg sdk st H cb u).ret
        = (sdk (SdkCall.SC_SubscribeConnectArg (GetSDKHandle st H) .OnConnectCallback H)).ret ∧
      (Camera_SubscribeConnectArg sdk st H cb u).state
        = { st with g_connectCallbackMap := st.g_connectCallbackMap.assign H ⟨cb, u⟩ } ∧
      (Camera_SubscribeConnectArg sdk st H cb u).state.g_connectCallbackMap.bindingsOf H = [⟨cb, u⟩] ∧
      ∀ H', H' ≠ H →
        (Camera_SubscribeConnectArg sdk st H cb u).state.g_connectCallbackMap.find H' = st.g_connectCallbackMap.find H') ∧
    ((Camera_SubscribeParamUpdateArg sdk st H cb u).ret
        = (sdk (SdkCall.SC_SubscribeParamUpdateArg (GetSDKHandle st H) .OnParamUpdateCallback H)).ret ∧
      (Camera_SubscribeParamUpdateArg sdk st H cb u).state
        = { st with g_paramUpdateCallbackMap := st.g_paramUpdateCallbackMap.assign H ⟨cb, u⟩ } ∧
      (Camera_SubscribeParamUpdateArg sdk st H cb u).state.g_paramUpdateCallbackMap.bindingsOf H = [⟨cb, u⟩] ∧
      ∀ H', H' ≠ H →
        (Camera_SubscribeParamUpdateArg sdk st H cb u).state.g_paramUpdateCallbackMap.find H' = st.g_paramUpdateCallbackMap.find H') ∧
    ((Camera_SubscribeExportNotify sdk st H cb u).ret
        = (sdk (SdkCall.SC_SubscribeExportNotify (GetSDKHandle st H) .OnExportCallback H)).ret ∧
      (Camera_SubscribeExportNotify sdk st H cb u).state
        = { st with g_exportCallbackMap := st.g_exportCallbackMap.assign H ⟨cb, u⟩ } ∧
      (Camera_SubscribeExportNotify sdk st H cb u).state.g_exportCallbackMap.bindingsOf H = [⟨cb, u⟩] ∧
      ∀ H', H' ≠ H →
        (Camera_SubscribeExportNotify sdk st H cb u).state.g_exportCallbackMap.find H' = st.g_exportCallbackMap.find H') ∧
    ((Camera_AttachProcessedGrabbing sdk st H cb u).ret
        = (sdk (SdkCall.SC_AttachProImgGrabbing (GetSDKHandle st H) .OnProcessedFrameCallback H)).ret ∧
      (Camera_AttachProcessedGrabbing sdk st H cb u).state
        = { st with g_processedFrameCallbackMap := st.g_processedFrameCallbackMap.assign H ⟨cb, u⟩ } ∧
      (Camera_AttachProcessedGrabbing sdk st H cb u).state.g_processedFrameCallbackMap.bindingsOf H = [⟨cb, u⟩] ∧
      ∀ H', H' ≠ H →
        (Camera_AttachProcessedGrabbing sdk st H cb u).state.g_processedFrameCallbackMap.find H' = st.g_processedFrameCallbackMap.find H') ∧
    Camera_SubscribeConnectArg sdk st H 0 u = { state := st, ret := -1, out := none, sdkCalls := [] } ∧
    Camera_SubscribeParamUpdateArg sdk st H 0 u = { state := st, ret := -1, out := none, sdkCalls := [] } ∧
    Camera_SubscribeExportNotify sdk st H 0 u = { state := st, ret := -1, out := none, sdkCalls := [] } ∧
    Camera_AttachProcessedGrabbing sdk st H 0 u = { state := st, ret := -1, out := none, sdkCalls := [] } := by
  refine ⟨?_, ?_, ?_, ?_, ?_, ?_, ?_, ?_⟩
  · rw [Camera_SubscribeConnectArg_of_live sdk st H cb u hlive hcb]
    exact ⟨rfl, rfl, StdMap.bindingsOf_assign_self _ _ _,
      fun H' hne => StdMap.find_assign_ne _ _ _ _ hne⟩
  · rw [Camera_SubscribeParamUpdateArg_of_live sdk st H cb u hlive hcb]
    exact ⟨rfl, rfl, StdMap.bindingsOf_assign_self _ _ _,
      fun H' hne => StdMap.find_assign_ne _ _ _ _ hne⟩
  · rw [Camera_SubscribeExportNotify_of_live sdk st H cb u hlive hcb]
    exact ⟨rfl, rfl, StdMap.bindingsOf_assign_self _ _ _,
      fun H' hne => StdMap.find_assign_ne _ _ _ _ hne⟩
  · rw [Camera_AttachProcessedGrabbing_of_live sdk st H cb u hlive hcb]
    exact ⟨rfl, rfl, StdMap.bindingsOf_assign_self _ _ _,
      fun H' hne => StdMap.find_assign_ne _ _ _ _ hne⟩
  · simp [Camera_SubscribeConnectArg]
  · simp [Camera_SubscribeParamUpdateArg]
  · simp [Camera_SubscribeExportNotify]
  · simp [Camera_AttachProcessedGrabbing]

/-- C30, checked on the bound sample state for the handle `7`, whose export binding
`(15, 25)` is replaced although the SDK refuses the registration with the code `3`. -/
theorem C30_subscribe_keeps_binding_witness :
    (GetSDKHandle stBound 7 ≠ 0 ∧ (31 : Nat) ≠ 0) ∧
    (Camera_SubscribeExportNotify (sdkFail 3) stBound 7 31 41).ret
      = ((sdkFail 3) (SdkCall.SC_SubscribeExportNotify (GetSDKHandle stBound 7)
          .OnExportCallback 7)).ret ∧
    (Camera_SubscribeExportNotify (sdkFail 3) stBound 7 31 41).state
      = { stBound with g_exportCallbackMap := stBound.g_exportCallbackMap.assign 7 ⟨31, 41⟩ } ∧
    (Camera_SubscribeExportNotify (sdkFail 3) stBound 7 31 41).ret = 3 ∧
    (Camera_SubscribeExportNotify (sdkFail 3) stBound 7 31 41).state.g_exportCallbackMap.find 7
      = some ⟨31, 41⟩ :=
  ⟨by decide,
   (C30_subscribe_keeps_binding (sdkFail 3) stBound 7 31 41 (by decide) (by decide)).2.2.1.1,
   (C30_subscribe_keeps_binding (sdkFail 3) stBound 7 31 41 (by decide) (by decide)).2.2.1.2.1,
   by decide, by decide⟩

/-! ## C28: the binding lifetime invariant -/

theorem StdMap.mem_entries_of_find {V : Type} (m : StdMap V) (k : CameraHandle) (v : V)
    (h : m.find k = some v) : (k, v) ∈ m.entries := by
  simp only [StdMap.find, Option.map_eq_some'] at h
  obtain ⟨e, he, hv⟩ := h
  have hk : e.1 = k := by simpa using List.find?_some he
  have hmem := List.mem_of_find?_eq_some he
  obtain ⟨a, b⟩ := e
  simp only at hk hv
  subst hk
  subst hv
  exact hmem

theorem StdMap.mem_entries_erase {V : Type} (m : StdMap V) (k : CameraHandle)
    (e : CameraHandle × V) (h : e ∈ (m.erase k).entries) : e ∈ m.entries ∧ e.1 ≠ k := by
  simp only [StdMap.erase, List.mem_filter] at h
  exact ⟨h.1, by simpa using h.2⟩

theorem StdMap.mem_entries_assign {V : Type} (m : StdMap V) (k : CameraHandle) (v : V)
    (e : CameraHandle × V) (h : e ∈ (m.assign k v).entries) :
    e = (k, v) ∨ (e ∈ m.entries ∧ e.1 ≠ k) := by
  simp only [StdMap.assign, List.mem_cons] at h
  rcases h with h | h
  · exact Or.inl h
  · exact Or.inr (StdMap.mem_entries_erase m k e h)

theorem RegistryValid.empty (handles : StdMap SC_DEV_HANDLE) :
    RegistryValid handles StdMap.empty := by
  intro e he
  simp [StdMap.empty] at he

theorem RegistryValid.create (handles : StdMap SC_DEV_HANDLE) (m : StdMap CallbackInfo)
    (t : CameraHandle) (h : RegistryValid handles m) :
    RegistryValid (handles.assign t t) m := by
  intro e he
  refine ⟨?_, (h e he).2⟩
  by_cases hk : e.1 = t
  · rw [hk, StdMap.find_assign_self]
    simp
  · rw [StdMap.find_assign_ne _ _ _ _ hk]
    exact (h e he).1

theorem RegistryValid.destroy (handles : StdMap SC_DEV_HANDLE) (m : StdMap CallbackInfo)
    (H : CameraHandle) (h : RegistryValid handles m) :
    RegistryValid (handles.erase H) (m.erase H) := by
  intro e he
  obtain ⟨hmem, hne⟩ := StdMap.mem_entries_erase m H e he
  refine ⟨?_, (h e hmem).2⟩
  rw [StdMap.find_erase_ne _ _ _ hne]
  exact (h e hmem).1

theorem RegistryValid.subscribe (st : State) (m : StdMap CallbackInfo) (H : CameraHandle)
    (proc pUser : Nat) (hlive : GetSDKHandle st H ≠ 0) (hproc : proc ≠ 0)
    (h : RegistryValid st.g_handleMap m) :
    RegistryValid st.g_handleMap (m.assign H ⟨proc, pUser⟩) := by
  intro e he
  rcases StdMap.mem_entries_assign m H _ e he with heq | ⟨hmem, _⟩
  · subst heq
    refine ⟨?_, hproc⟩
    intro hnone
    exact hlive (GetSDKHandle_of_find_none st H hnone)
  · exact h e hmem

theorem HandleOp.run_state (sdk : SDK) (st : State) (H : CameraHandle) (op : HandleOp) :
    (HandleOp.run sdk st H op).state = st ∨
    (HandleOp.run sdk st H op).state =
      { st with
        g_handleMap := st.g_handleMap.erase H
        g_connectCallbackMap := st.g_connectCallbackMap.erase H
        g_paramUpdateCallbackMap := st.g_paramUpdateCallbackMap.erase H
        g_exportCallbackMap := st.g_exportCallbackMap.erase H
        g_processedFrameCallbackMap := st.g_processedFrameCallbackMap.erase H } ∨
    (∃ proc pUser : Nat, proc ≠ 0 ∧ GetSDKHandle st H ≠ 0 ∧
      ((HandleOp.run sdk st H op).state =
          { st with g_connectCallbackMap := st.g_connectCallbackMap.assign H ⟨proc, pUser⟩ } ∨
        (HandleOp.run sdk st H op).state =
          { st with
            g_paramUpdateCallbackMap := st.g_paramUpdateCallbackMap.assign H ⟨proc, pUser⟩ } ∨
        (HandleOp.run sdk st H op).state =
          { st with g_exportCallbackMap := st.g_exportCallbackMap.assign H ⟨proc, pUser⟩ } ∨
        (HandleOp.run sdk st H op).state =
          { st with
            g_processedFrameCallbackMap :=
              st.g_processedFrameCallbackMap.assign H ⟨proc, pUser⟩ })) := by
  cases op
  case DestroyHandle =>
    simp only [HandleOp.run, Outcome.effect, Camera_DestroyHandle]
    split_ifs
    · exact Or.inl rfl
    · exact Or.inr (Or.inl rfl)
    · exact Or.inl rfl
  case SubscribeConnectArg proc pUser =>
    by_cases h : GetSDKHandle st H = 0 ∨ proc = 0
    · left
      simp only [HandleOp.run, Outcome.effect, Camera_SubscribeConnectArg]
      rw [if_pos h]
    · have hlive : GetSDKHandle st H ≠ 0 := fun h' => h (Or.inl h')
      have hproc : proc ≠ 0 := fun h' => h (Or.inr h')
      right; right
      refine ⟨proc, pUser, hproc, hlive, Or.inl ?_⟩
      simp only [HandleOp.run, Outcome.effect,
        Camera_SubscribeConnectArg_of_live sdk st H proc pUser hlive hproc]
  case SubscribeParamUpdateArg proc pUser =>
    by_cases h : GetSDKHandle st H = 0 ∨ proc = 0
    · left
      simp only [HandleOp.run, Outcome.effect, Camera_SubscribeParamUpdateArg]
      rw [if_pos h]
    · have hlive : GetSDKHandle st H ≠ 0 := fun h' => h (Or.inl h')
      have hproc : proc ≠ 0 := fun h' => h (Or.inr h')
      right; right
      refine ⟨proc, pUser, hproc, hlive, Or.inr (Or.inl ?_)⟩
      simp only [HandleOp.run, Outcome.effect,
        Camera_SubscribeParamUpdateArg_of_live sdk st H proc pUser hlive hproc]
  case SubscribeExportNotify proc pUser =>
    by_cases h : GetSDKHandle st H = 0 ∨ proc = 0
    · left
      simp only [HandleOp.run, Outcome.effect, Camera_SubscribeExportNotify]
      rw [if_pos h]
    · have hlive : GetSDKHandle st H ≠ 0 := fun h' => h (Or.inl h')
      have hproc : proc ≠ 0 := fun h' => h (Or.inr h')
      right; right
      refine ⟨proc, pUser, hproc, hlive, Or.inr (Or.inr (Or.inl ?_))⟩
      simp only [HandleOp.run, Outcome.effect,
        Camera_SubscribeExportNotify_of_live sdk st H proc pUser hlive hproc]
  case AttachProcessedGrabbing proc pUser =>
    by_cases h : GetSDKHandle st H = 0 ∨ proc = 0
    · left
      simp only [HandleOp.run, Outcome.effect, Camera_AttachProcessedGrabbing]
      rw [if_pos h]
    · have hlive : GetSDKHandle st H ≠ 0 := fun h' => h (Or.inl h')
      have hproc : proc ≠ 0 := fun h' => h (Or.inr h')
      right; right
      refine ⟨proc, pUser, hproc, hlive, Or.inr (Or.inr (Or.inr ?_))⟩
      simp only [HandleOp.run, Outcome.effect,
        Camera_AttachProcessedGrabbing_of_live sdk st H proc pUser hlive hproc]
  all_goals
    left
    simp only [HandleOp.run, Outcome.effect,
      Camera_Open, Camera_Close, Camera_DownloadGenICamXML,
      Camera_GetDeviceInfo, Camera_StartGrabbing, Camera_StopGrabbing, Camera_IsGrabbing,
      Camera_SetBufferCount, Camera_GetFrame, Camera_ReleaseFrame, Camera_GetProcessedFrame,
      Camera_OpenRecord, Camera_CloseRecord, Camera_SetExportCacheSize,
      Camera_FeatureIsAvailable, Camera_FeatureIsReadable, Camera_FeatureIsWriteable,
      Camera_GetFeatureType, Camera_GetIntFeatureValue, Camera_GetIntFeatureMin,
      Camera_GetIntFeatureMax, Camera_GetIntFeatureInc, Camera_SetIntFeatureValue,
      Camera_GetFloatFeatureValue, Camera_GetFloatFeatureMin, Camera_GetFloatFeatureMax,
      Camera_GetFloatFeatureInc, Camera_SetFloatFeatureValue, Camera_GetEnumFeatureValue,
      Camera_SetEnumFeatureValue, Camera_GetEnumFeatureEntryNum, Camera_GetEnumFeatureEntrys,
      Camera_GetEnumFeatureSymbol, Camera_SetEnumFeatureSymbol, Camera_GetBoolFeatureValue,
      Camera_SetBoolFeatureValue, Camera_GetStringFeatureValue, Camera_SetStringFeatureValue,
      Camera_ExecuteCommandFeature, Camera_SetAutoExposureParam, Camera_AutoExposure,
      Camera_SetAutoLevels, Camera_GetAutoLevels, Camera_SetAutoLevelValue,
      Camera_GetAutoLevelValue, Camera_ExecuteAutoLevel, Camera_SetImageProcessingEnabled,
      Camera_GetImageProcessingEnabled, Camera_SetImageProcessingValue,
      Camera_GetImageProcessingValue, Camera_SetPseudoColorMap, Camera_GetPseudoColorMap,
      Camera_SetROI]
    (repeat' split) <;> rfl

theorem Reachable.bindingsValid {st : State} (hr : Reachable st) : BindingsValid st := by
  induction hr with
  | init =>
    exact ⟨RegistryValid.empty _, RegistryValid.empty _, RegistryValid.empty _,
      RegistryValid.empty _⟩
  | release st _ _ =>
    exact ⟨RegistryValid.empty _, RegistryValid.empty _, RegistryValid.empty _,
      RegistryValid.empty _⟩
  | enumDevices sdk st p t _ ih =>
    have hsame : ∃ l, (Camera_EnumDevices sdk st p t).state = { st with g_deviceList := l } := by
      simp only [Camera_EnumDevices]
      split_ifs
      · exact ⟨st.g_deviceList, rfl⟩
      · exact ⟨_, rfl⟩
      · exact ⟨_, rfl⟩
    obtain ⟨l, hl⟩ := hsame
    rw [hl]
    exact ih
  | createHandle sdk st p i _ ih =>
    cases hout : (Camera_CreateHandle sdk st p i).out with
    | none =>
      have hsame : (Camera_CreateHandle sdk st p i).state = st := by
        simp only [Camera_CreateHandle] at hout ⊢
        split_ifs at hout ⊢ <;> rfl
      rw [hsame]
      exact ih
    | some t =>
      obtain ⟨_, _, heq⟩ := Camera_CreateHandle_of_out sdk st p i t hout
      rw [heq]
      exact ⟨RegistryValid.create _ _ t ih.1, RegistryValid.create _ _ t ih.2.1,
        RegistryValid.create _ _ t ih.2.2.1, RegistryValid.create _ _ t ih.2.2.2⟩
  | handleOp sdk st H op _ ih =>
    rcases HandleOp.run_state sdk st H op with h | h | ⟨proc, pUser, hproc, hlive, h | h | h | h⟩
    · rw [h]
      exact ih
    · rw [h]
      exact ⟨RegistryValid.destroy _ _ H ih.1, RegistryValid.destroy _ _ H ih.2.1,
        RegistryValid.destroy _ _ H ih.2.2.1, RegistryValid.destroy _ _ H ih.2.2.2⟩
    · rw [h]
      exact ⟨RegistryValid.subscribe st _ H proc pUser hlive hproc ih.1, ih.2.1, ih.2.2.1,
        ih.2.2.2⟩
    · rw [h]
      exact ⟨ih.1, RegistryValid.subscribe st _ H proc pUser hlive hproc ih.2.1, ih.2.2.1,
        ih.2.2.2⟩
    · rw [h]
      exact ⟨ih.1, ih.2.1, RegistryValid.subscribe st _ H proc pUser hlive hproc ih.2.2.1,
        ih.2.2.2⟩
    · rw [h]
      exact ⟨ih.1, ih.2.1, ih.2.2.1,
        RegistryValid.subscribe st _ H proc pUser hlive hproc ih.2.2.2⟩

/-- C28: in every state reachable from the initial (empty) globals by facade calls,
whatever the SDK answers (handle creation and destruction, the four subscribe
operations and `Camera_Release` among them), every entry stored in any of the four
callback registries belongs to a handle that has an entry in the handle registry and
holds a non-null user callback; in particular every binding a lookup finds does. -/
theorem C28_bindings_have_live_handle {st : State} (hr : Reachable st) :
    BindingsValid st ∧
    ∀ (H : CameraHandle) (info : CallbackInfo),
      (st.g_connectCallbackMap.find H = some info ∨
        st.g_paramUpdateCallbackMap.find H = some info ∨
        st.g_exportCallbackMap.find H = some info ∨
        st.g_processedFrameCallbackMap.find H = some info) →
      st.g_handleMap.find H ≠ none ∧ info.userCallback ≠ 0 := by
  have hv := Reachable.bindingsValid hr
  refine ⟨hv, ?_⟩
  intro H info h
  rcases h with h | h | h | h
  · exact hv.1 (H, info) (StdMap.mem_entries_of_find _ H info h)
  · exact hv.2.1 (H, info) (StdMap.mem_entries_of_find _ H info h)
  · exact hv.2.2.1 (H, info) (StdMap.mem_entries_of_find _ H info h)
  · exact hv.2.2.2 (H, info) (StdMap.mem_entries_of_find _ H info h)

/-- C28, checked on the state reached by a scan, a handle creation that yields `7` and
a connection subscription on `7`. -/
theorem C28_bindings_have_live_handle_witness :
    Reachable
      (HandleOp.run sdkOk7
        (Camera_CreateHandle sdkOk7 (Camera_EnumDevices sdkScan {} 1 0).state 1 0).state 7
        (.SubscribeConnectArg 31 41)).state ∧
    ((HandleOp.run sdkOk7
        (Camera_CreateHandle sdkOk7 (Camera_EnumDevices sdkScan {} 1 0).state 1 0).state 7
        (.SubscribeConnectArg 31 41)).state.g_connectCallbackMap.find 7 = some ⟨31, 41⟩) ∧
    ((HandleOp.run sdkOk7
        (Camera_CreateHandle sdkOk7 (Camera_EnumDevices sdkScan {} 1 0).state 1 0).state 7
        (.SubscribeConnectArg 31 41)).state.g_handleMap.find 7 ≠ none ∧
      (⟨31, 41⟩ : CallbackInfo).userCallback ≠ 0) :=
  ⟨Reachable.handleOp _ _ _ _ (Reachable.createHandle _ _ _ _
      (Reachable.enumDevices _ _ _ _ Reachable.init)),
   by decide,
   (C28_bindings_have_live_handle
      (Reachable.handleOp sdkOk7 _ 7 (.SubscribeConnectArg 31 41)
        (Reachable.createHandle sdkOk7 _ 1 0
          (Reachable.enumDevices sdkScan {} 1 0 Reachable.init)))).2 7 ⟨31, 41⟩
      (Or.inl (by decide))⟩

end Revealer
